import Mathlib

/-!
Shallow embedding of the CGo Go engine (board.c and ai.c) and verification of
the specification claims about it.

Conventions of the embedding:
* C `int` coordinates become `Int`; counters that are only ever incremented by
  nonnegative amounts (captures, liberties, visit counts) become `Nat`.
* The 19×19 `Stone board[19][19]` array becomes a total function
  `Position → Stone`; only in-bounds cells are ever read or written by the
  engine, mirroring the C code's bounds guards.
* The C `bool visited[19][19]` scratch arrays become a `Nat` bit mask indexed
  by `cellIdx` (row-major index), which the Lean kernel evaluates efficiently.
* Recursive flood fills and the capture loop are written with an explicit fuel
  argument.  The C recursions visit each of the 361 cells at most once, so a
  fuel of 362 makes the fuel bound unreachable and the embedding faithful.
* Stateful C functions that mutate `Board*` and return `bool` become pure
  functions `Board → … → Bool × Board` (or `Board` when the C function is
  `void`).
* `malloc` failure paths (history nodes, tree nodes) are not modelled:
  allocation is assumed to succeed, as in every behaviour the spec describes.
-/

set_option maxHeartbeats 1000000

/-- Stone colours, from board.h: EMPTY = 0, BLACK = 1, WHITE = 2. -/
inductive Stone where
  | EMPTY : Stone
  | BLACK : Stone
  | WHITE : Stone
deriving DecidableEq, Repr

open Stone

/-- Board position, from board.h: a pair of `int` coordinates. -/
structure Position where
  x : Int
  y : Int
deriving DecidableEq, Repr

/-- BOARD_SIZE from board.h. -/
def boardSize : Int := 19

/-- The board grid: `Stone board[19][19]` as a total function on positions. -/
abbrev Grid := Position → Stone

/-- Read of `board[pos.y][pos.x]`. -/
def getCell (g : Grid) (p : Position) : Stone := g p

/-- Write `board[p.y][p.x] = s`. -/
def setCell (g : Grid) (p : Position) (s : Stone) : Grid :=
  fun q => if q = p then s else g q

/-- Row-major cell index used for the `visited` bit masks. -/
def cellIdx (p : Position) : Nat := p.y.toNat * 19 + p.x.toNat

/-- Test a cell in a visited mask (`visited[p.y][p.x]`). -/
def maskGet (v : Nat) (p : Position) : Bool := v.testBit (cellIdx p)

/-- Mark a cell in a visited mask (`visited[p.y][p.x] = true`). -/
def maskSet (v : Nat) (p : Position) : Nat := v ||| (1 <<< cellIdx p)

/-- The four neighbours of a position, in the order given by the direction
arrays `DX = {-1,0,1,0}` and `DY = {0,-1,0,1}` of board.c. -/
def neighborCells (p : Position) : List Position :=
  [⟨p.x - 1, p.y⟩, ⟨p.x, p.y - 1⟩, ⟨p.x + 1, p.y⟩, ⟨p.x, p.y + 1⟩]

/-- `isValidPosition` from board.c. -/
def isValidPosition (p : Position) : Bool :=
  decide (0 ≤ p.x ∧ p.x < boardSize ∧ 0 ≤ p.y ∧ p.y < boardSize)

/-- Fuel bound for the flood fills: strictly more than the 361 cells, so the
fuel-exhaustion branch is unreachable. -/
def dfsFuel : Nat := 362

/-- `dfsMarkGroup` from board.c: depth-first search marking the maximal
4-connected group of `color` stones containing `pos`.  The accumulator carries
the shared `visited` mask and the `group` list (the C output array, in append
order, so its head is the cell the search was started from). -/
def dfsMarkGroup (g : Grid) (color : Stone) :
    Nat → Position → Nat × List Position → Nat × List Position
  | 0, _, acc => acc
  | fuel + 1, pos, acc =>
    let visited := maskSet acc.1 pos
    let group := acc.2 ++ [pos]
    (neighborCells pos).foldl
      (fun acc2 next =>
        if isValidPosition next ∧ ¬ maskGet acc2.1 next ∧ getCell g next = color then
          dfsMarkGroup g color fuel next acc2
        else acc2)
      (visited, group)

/-- `calculateGroupLiberties` from board.c: count the distinct empty cells
adjacent to any member of `group`, using a fresh `libertyVisited` mask. -/
def calculateGroupLiberties (g : Grid) (group : List Position) : Nat :=
  (group.foldl
    (fun acc pos =>
      (neighborCells pos).foldl
        (fun acc2 next =>
          if isValidPosition next ∧ getCell g next = EMPTY ∧ ¬ maskGet acc2.1 next then
            (maskSet acc2.1 next, acc2.2 + 1)
          else acc2)
        acc)
    (0, 0)).2

/-- `hasLiberty` from board.c, on the grid (the C function reads only
`board->board`). -/
def hasLibertyG (g : Grid) (pos : Position) : Bool :=
  if ¬ isValidPosition pos then false
  else
    let color := getCell g pos
    if color = EMPTY then true
    else
      let group := (dfsMarkGroup g color dfsFuel pos (0, [])).2
      decide (0 < calculateGroupLiberties g group)

/-- `countLiberties` from board.c, on the grid. -/
def countLibertiesG (g : Grid) (pos : Position) : Nat :=
  if ¬ isValidPosition pos then 0
  else
    let color := getCell g pos
    if color = EMPTY then 0
    else calculateGroupLiberties g (dfsMarkGroup g color dfsFuel pos (0, [])).2

/-- The cells of the board in the scan order of board.c's nested loops
(`y` outer, `x` inner). -/
def allCells : List Position :=
  (List.range 19).flatMap (fun y => (List.range 19).map (fun x => ⟨(x : Int), (y : Int)⟩))

/-- A history node (`BoardHistory` from board.h): an immutable snapshot of the
board fields copied by `createHistoryNode`.  The `prev`/`next` links are
represented by the zipper in `Board`. -/
structure Snapshot where
  grid : Grid
  lastMove : Position
  blackCaptures : Nat
  whiteCaptures : Nat
  blackLiberties : Nat
  whiteLiberties : Nat

/-- The board state (`Board` from board.h).  The doubly linked history list
with its `current` cursor is represented as a zipper: `prevs` holds the
snapshots before the cursor (nearest first), `cur` the snapshot under the
cursor, `nexts` the snapshots after the cursor (nearest first). -/
structure Board where
  grid : Grid
  currentPlayer : Stone
  lastMove : Position
  koPosition : Position
  koActive : Bool
  blackCaptures : Nat
  whiteCaptures : Nat
  blackLiberties : Nat
  whiteLiberties : Nat
  prevs : List Snapshot
  cur : Snapshot
  nexts : List Snapshot

/-- `hasLiberty` with the C signature. -/
def hasLiberty (b : Board) (pos : Position) : Bool := hasLibertyG b.grid pos

/-- `countLiberties` with the C signature. -/
def countLiberties (b : Board) (pos : Position) : Nat := countLibertiesG b.grid pos

/-- `createHistoryNode` from board.c: snapshot the current board fields. -/
def createHistoryNode (b : Board) : Snapshot :=
  { grid := b.grid
    lastMove := b.lastMove
    blackCaptures := b.blackCaptures
    whiteCaptures := b.whiteCaptures
    blackLiberties := b.blackLiberties
    whiteLiberties := b.whiteLiberties }

/-- The all-empty grid produced by `memset(board->board, EMPTY, …)`. -/
def emptyGrid : Grid := fun _ => EMPTY

/-- `initBoard` from board.c.  The history head node created at the end is the
zipper's `cur`, with nothing before or after it. -/
def initBoard : Board :=
  let b : Board :=
    { grid := emptyGrid
      currentPlayer := BLACK
      lastMove := ⟨-1, -1⟩
      koPosition := ⟨-1, -1⟩
      koActive := false
      blackCaptures := 0
      whiteCaptures := 0
      blackLiberties := 0
      whiteLiberties := 0
      prevs := []
      cur := { grid := emptyGrid, lastMove := ⟨-1, -1⟩, blackCaptures := 0,
               whiteCaptures := 0, blackLiberties := 0, whiteLiberties := 0 }
      nexts := [] }
  { b with cur := createHistoryNode b }

/-- One scan step of `captureDeadStones` at one board cell.  The accumulator
carries the (mutating) grid, the shared `visited` mask, the running captured
count and the board's `koPosition` field, exactly the state the C loop body
touches. -/
def captureScanStep (color : Stone) (acc : Grid × Nat × Nat × Position) (cell : Position) :
    Grid × Nat × Nat × Position :=
  if getCell acc.1 cell = color ∧ ¬ maskGet acc.2.1 cell then
    let res := dfsMarkGroup acc.1 color dfsFuel cell (acc.2.1, [])
    if calculateGroupLiberties acc.1 res.2 = 0 then
      let koPos : Position :=
        if res.2.length = 1 then res.2.headD ⟨-1, -1⟩ else ⟨-1, -1⟩
      let g2 := res.2.foldl (fun g q => setCell g q EMPTY) acc.1
      (g2, res.1, acc.2.2.1 + res.2.length, koPos)
    else (acc.1, res.1, acc.2.2.1, acc.2.2.2)
  else acc

/-- The whole-board scan of `captureDeadStones` on the grid-level state. -/
def captureScan (g : Grid) (koPos : Position) (color : Stone) : Grid × Nat × Nat × Position :=
  allCells.foldl (captureScanStep color) (g, 0, 0, koPos)

/-- `captureDeadStones` from board.c: remove every zero-liberty group of
`color`, update `koPosition` per captured group, and credit the captured count
to the opposing side.  Returns the updated board and the captured count. -/
def captureDeadStones (b : Board) (color : Stone) : Board × Nat :=
  let res := captureScan b.grid b.koPosition color
  let captured := res.2.2.1
  ({ b with
      grid := res.1
      koPosition := res.2.2.2
      whiteCaptures := if color = BLACK then b.whiteCaptures + captured else b.whiteCaptures
      blackCaptures := if color = WHITE then b.blackCaptures + captured else b.blackCaptures },
   captured)

/-- `isKoMove` from board.c. -/
def isKoMove (b : Board) (pos : Position) : Bool :=
  if ¬ b.koActive then false
  else decide (pos.x = b.koPosition.x ∧ pos.y = b.koPosition.y)

/-- `isSuicideMove` from board.c: tentatively place the current player's stone
at `pos` (before any capture resolution) and test whether its group has zero
liberties. -/
def isSuicideMove (b : Board) (pos : Position) : Bool :=
  if ¬ isValidPosition pos ∨ getCell b.grid pos ≠ EMPTY then false
  else ! hasLibertyG (setCell b.grid pos b.currentPlayer) pos

/-- `isValidMove` from board.c. -/
def isValidMove (b : Board) (pos : Position) : Bool :=
  if ¬ isValidPosition pos then false
  else if getCell b.grid pos ≠ EMPTY then false
  else if isKoMove b pos then false
  else if isSuicideMove b pos then false
  else true

/-- The opponent colour, as computed by board.c's
`(currentPlayer == BLACK) ? WHITE : BLACK`. -/
def opponentOf (c : Stone) : Stone := if c = BLACK then WHITE else BLACK

/-- The `do { … } while (capturedCount > 0)` loop of `placeStone`, with fuel.
Each iteration that continues has removed at least one stone, so at most 362
iterations can ever run and the fuel bound is unreachable. -/
def captureLoop (color : Stone) : Nat → Board → Board × Nat
  | 0, b => (b, 0)
  | fuel + 1, b =>
    let res := captureDeadStones b color
    if 0 < res.2 then
      let rest := captureLoop color fuel res.1
      (rest.1, res.2 + rest.2)
    else (res.1, 0)

/-- `calculateLiberties` from board.c: recompute both sides' aggregate liberty
counts by scanning the whole board group by group. -/
def calculateLiberties (b : Board) : Board :=
  let res :=
    allCells.foldl
      (fun (acc : Nat × Nat × Nat) cell =>
        if (getCell b.grid cell = BLACK ∨ getCell b.grid cell = WHITE) ∧
            ¬ maskGet acc.1 cell then
          let dfs := dfsMarkGroup b.grid (getCell b.grid cell) dfsFuel cell (acc.1, [])
          let libs := calculateGroupLiberties b.grid dfs.2
          if getCell b.grid cell = BLACK then (dfs.1, acc.2.1 + libs, acc.2.2)
          else (dfs.1, acc.2.1, acc.2.2 + libs)
        else acc)
      (0, 0, 0)
  { b with blackLiberties := res.2.1, whiteLiberties := res.2.2 }

/-- `saveBoardState` from board.c: truncate the history after the cursor and
append a snapshot of the current board, which becomes the cursor. -/
def saveBoardState (b : Board) : Board :=
  { b with prevs := b.cur :: b.prevs, cur := createHistoryNode b, nexts := [] }

/-- The stone-placement stage of `placeStone`: write the stone, record
`lastMove`, and reset the ko restriction. -/
def afterPlace (b : Board) (pos : Position) : Board :=
  { b with
      grid := setCell b.grid pos b.currentPlayer
      lastMove := pos
      koActive := false
      koPosition := ⟨-1, -1⟩ }

/-- The ko-activation test of `placeStone`: the just-played stone's group,
computed with a fresh visited mask. -/
def koGroup (b : Board) (pos : Position) : List Position :=
  (dfsMarkGroup b.grid b.currentPlayer dfsFuel pos (0, [])).2

/-- The stone placement followed by the capture loop of `placeStone`.  The
opponent colour is read from `currentPlayer`, which the placement stage does
not change. -/
def capResult (b : Board) (pos : Position) : Board × Nat :=
  captureLoop (opponentOf b.currentPlayer) dfsFuel (afterPlace b pos)

/-- The ko condition of `placeStone`: after the captures, the just-played
stone's group has size 1 and exactly 1 liberty. -/
def koCondCheck (b2 : Board) (pos : Position) : Bool :=
  decide ((koGroup b2 pos).length = 1 ∧ calculateGroupLiberties b2.grid (koGroup b2 pos) = 1)

/-- The success path of `placeStone` (everything after the legality check). -/
def placeStoneBody (b : Board) (pos : Position) : Board :=
  let cap := capResult b pos
  let b3 :=
    if cap.2 = 1 then
      if koCondCheck cap.1 pos then { cap.1 with koActive := true } else cap.1
    else cap.1
  let b4 := calculateLiberties b3
  let b5 := saveBoardState b4
  { b5 with currentPlayer := opponentOf b5.currentPlayer }

/-- `placeStone` from board.c. -/
def placeStone (b : Board) (pos : Position) : Bool × Board :=
  if isValidMove b pos then (true, placeStoneBody b pos) else (false, b)

/-- `undoMove` from board.c. -/
def undoMove (b : Board) : Bool × Board :=
  match b.prevs with
  | [] => (false, b)
  | p :: ps =>
    (true,
      { grid := p.grid
        currentPlayer := opponentOf b.currentPlayer
        lastMove := p.lastMove
        koPosition := ⟨-1, -1⟩
        koActive := false
        blackCaptures := p.blackCaptures
        whiteCaptures := p.whiteCaptures
        blackLiberties := p.blackLiberties
        whiteLiberties := p.whiteLiberties
        prevs := ps
        cur := p
        nexts := b.cur :: b.nexts })

/-- `redoMove` from board.c. -/
def redoMove (b : Board) : Bool × Board :=
  match b.nexts with
  | [] => (false, b)
  | n :: ns =>
    (true,
      { grid := n.grid
        currentPlayer := opponentOf b.currentPlayer
        lastMove := n.lastMove
        koPosition := ⟨-1, -1⟩
        koActive := false
        blackCaptures := n.blackCaptures
        whiteCaptures := n.whiteCaptures
        blackLiberties := n.blackLiberties
        whiteLiberties := n.whiteLiberties
        prevs := b.cur :: b.prevs
        cur := n
        nexts := ns })

/-- One step of the BFS of `determineWinner`'s second pass: pop the queue
head, examine its four neighbours (in the order of the local `dx`/`dy` arrays,
which equals `DX`/`DY`), enqueue unvisited empty neighbours and record which
stone colours the region touches.  The accumulator is
`(visited, territorySize, touchesBlack, touchesWhite)`; fuel bounds the number
of pops, which never exceeds the 361 distinct enqueued cells. -/
def territoryBFS (g : Grid) :
    Nat → List Position → Nat × Nat × Bool × Bool → Nat × Nat × Bool × Bool
  | 0, _, acc => acc
  | _ + 1, [], acc => acc
  | fuel + 1, current :: rest, acc =>
    let step :=
      (neighborCells current).foldl
        (fun (st : (Nat × Nat × Bool × Bool) × List Position) next =>
          if ¬ isValidPosition next then st
          else if getCell g next = EMPTY ∧ ¬ maskGet st.1.1 next then
            ((maskSet st.1.1 next, st.1.2.1 + 1, st.1.2.2.1, st.1.2.2.2), st.2 ++ [next])
          else if getCell g next = BLACK then
            ((st.1.1, st.1.2.1, true, st.1.2.2.2), st.2)
          else if getCell g next = WHITE then
            ((st.1.1, st.1.2.1, st.1.2.2.1, true), st.2)
          else st)
        (acc, [])
    territoryBFS g fuel (rest ++ step.2) step.1

/-- The second pass of `determineWinner` over one cell: if the cell is an
unvisited empty cell, flood its region and credit its full size to the side
that is the region's only bordering colour. -/
def territoryStep (g : Grid) (acc : Nat × Nat × Nat) (cell : Position) : Nat × Nat × Nat :=
  if getCell g cell = EMPTY ∧ ¬ maskGet acc.1 cell then
    let res := territoryBFS g dfsFuel [cell] (maskSet acc.1 cell, 1, false, false)
    let touchesBlack := res.2.2.1
    let touchesWhite := res.2.2.2
    if touchesBlack ∧ ¬ touchesWhite then (res.1, acc.2.1 + res.2.1, acc.2.2)
    else if ¬ touchesBlack ∧ touchesWhite then (res.1, acc.2.1, acc.2.2 + res.2.1)
    else (res.1, acc.2.1, acc.2.2)
  else acc

/-- `determineWinner` from board.c.  The C function returns an `int`
(1 = Black wins, 2 = White wins, 0 = draw); we return the corresponding
`Stone`, with `EMPTY` standing for the draw result 0. -/
def determineWinner (b : Board) : Stone :=
  let stones :=
    allCells.foldl
      (fun (acc : Nat × Nat) cell =>
        if getCell b.grid cell = BLACK then (acc.1 + 1, acc.2)
        else if getCell b.grid cell = WHITE then (acc.1, acc.2 + 1)
        else acc)
      (0, 0)
  let terr := allCells.foldl (territoryStep b.grid) (0, stones.1, stones.2)
  let blackPoints := terr.2.1 + b.whiteCaptures
  let whitePoints := terr.2.2 + b.blackCaptures + 4
  if blackPoints > whitePoints then BLACK
  else if whitePoints > blackPoints then WHITE
  else EMPTY

/-!
Embedding of ai.c.  Three aspects of the C search are inherently
non-deterministic or not shallowly embeddable and are supplied as oracle
parameters instead:
* `rand : Nat → Nat` — the C `rand()` stream, read at an explicit call
  counter that the embedding threads through every consumer in call order;
* `timeOK : Nat → Bool` — the wall-clock test
  `(SDL_GetTicks() - startTime) < MCTS_TIME_LIMIT` at the i-th loop check;
* `selectO : MCTree → Nat → Nat` — the node chosen by `selectNode` for the
  i-th iteration.  `selectNode`'s descent compares `double` UCT scores
  (`calculateUCT` uses `sqrt`/`log` floating-point arithmetic), which has no
  faithful shallow embedding; every theorem below holds for an arbitrary
  selection oracle, hence in particular for the C descent.
The node tree (`MCTSNode` with `parent`/`children` pointers) is modelled as an
arena: a list of node records addressed by index, the root at index 0, with
the parent pointer as an index option.
-/

/-- `AIConfig` from game.h, with the defaults of `initAIConfig`
(DEFAULT_SIMULATION_COUNT 789, DEFAULT_EXPLORATION_PARAM 4.2,
DEFAULT_MAX_DEPTH 50).  `explorationParameter` feeds only the
oracle-abstracted UCT computation. -/
structure AIConfig where
  simulationCount : Nat
  explorationParameter : Rat
  maxDepth : Nat

/-- `initAIConfig` from ai.c. -/
def initAIConfig : AIConfig := { simulationCount := 789, explorationParameter := 21 / 5, maxDepth := 50 }

/-- One `MCTSNode`, as an arena record.  `wins` accumulates the binary
simulation outcomes (the C `double` only ever receives 0.0 or 1.0 summands). -/
structure NodeRec where
  move : Position
  player : Stone
  visits : Nat
  wins : Nat
  childrenIdx : List Nat
  parentIdx : Option Nat

/-- The search tree as an arena of records; the root is index 0. -/
abbrev MCTree := List NodeRec

/-- Out-of-arena reads (never reached by the modelled operations). -/
def defaultRec : NodeRec :=
  { move := ⟨-1, -1⟩, player := EMPTY, visits := 0, wins := 0, childrenIdx := [], parentIdx := none }

/-- Arena lookup. -/
def treeGet (t : MCTree) (i : Nat) : NodeRec := t.getD i defaultRec

/-- `createRootNode` from ai.c. -/
def createRootNode (b : Board) : NodeRec :=
  { move := ⟨-1, -1⟩, player := b.currentPlayer, visits := 0, wins := 0,
    childrenIdx := [], parentIdx := none }

/-- `getLegalMoves` from ai.c: every legal position, in board scan order. -/
def getLegalMoves (b : Board) : List Position :=
  allCells.filter (fun pos => isValidMove b pos)

/-- The offsets `-range … range` of `getValidMovesInRange`'s loops. -/
def rangeOffsets (range : Nat) : List Int :=
  (List.range (2 * range + 1)).map (fun i => (i : Int) - range)

/-- `getValidMovesInRange` from ai.c (`dx` outer, `dy` inner). -/
def getValidMovesInRange (b : Board) (centerX centerY : Int) (range : Nat) : List Position :=
  (rangeOffsets range).foldl
    (fun acc dx =>
      (rangeOffsets range).foldl
        (fun acc2 dy =>
          let x := centerX + dx
          let y := centerY + dy
          if 0 ≤ x ∧ x < boardSize ∧ 0 ≤ y ∧ y < boardSize ∧ isValidMove b ⟨x, y⟩ then
            acc2 ++ [⟨x, y⟩]
          else acc2)
        acc)
    []

/-- `applyMoves`: replay a move list once, left to right, through
`placeStone` (illegal replayed moves are no-ops, as in the C code). -/
def applyMoves (b : Board) (moves : List Position) : Board :=
  moves.foldl (fun bd m => (placeStone bd m).2) b

/-- The board-reconstruction loop shared by `expandNode` and `simulateGame`
(ai.c): starting from `current = node`, each outer iteration replays the whole
root-to-`current` move path onto the same temporary board and then moves
`current` to its parent — so the full path is applied first, then every
shorter path in turn. -/
def multiPassReplay (b : Board) (path : List Position) : Board :=
  (List.range path.length).foldl
    (fun bd k => applyMoves bd (path.take (path.length - k)))
    b

/-- The root-to-node move path of an arena node (the C upward `parent` walk,
reversed).  Fuel bounds the walk; parents always have smaller indices than
their children, so `t.length + 1` fuel is never exhausted. -/
def pathMoves (t : MCTree) : Nat → Nat → List Position
  | 0, _ => []
  | fuel + 1, i =>
    match (treeGet t i).parentIdx with
    | none => []
    | some pa => pathMoves t fuel pa ++ [(treeGet t i).move]

/-- The board that `expandNode`/`simulateGame` actually compute for a node. -/
def reconstructBoard (t : MCTree) (i : Nat) (b : Board) : Board :=
  multiPassReplay b (pathMoves t (t.length + 1) i)

/-- The 9 star/tengen points of `expandNode`'s second candidate tier, in array
order (`BOARD_SIZE-4 = 15`, `BOARD_SIZE/2 = 9`). -/
def expandStarPoints : List Position :=
  [⟨3, 3⟩, ⟨3, 15⟩, ⟨15, 3⟩, ⟨15, 15⟩, ⟨3, 9⟩, ⟨9, 3⟩, ⟨15, 9⟩, ⟨9, 15⟩, ⟨9, 9⟩]

/-- Second candidate tier of `expandNode`: append the star points that are
legal and not already collected. -/
def addStarPoints (b : Board) (acc : List Position) : List Position :=
  expandStarPoints.foldl
    (fun acc2 pos =>
      if isValidMove b pos then
        if acc2.contains pos then acc2 else acc2 ++ [pos]
      else acc2)
    acc

/-- Third candidate tier of `expandNode`: scan the whole board for legal moves
not already collected, stopping once 20 candidates have been gathered (the C
`break` out of both loops). -/
def scanAllLegal (b : Board) : List Position → List Position → List Position
  | [], acc => acc
  | c :: rest, acc =>
    if 20 ≤ acc.length then acc
    else if ¬ acc.contains c ∧ isValidMove b c then scanAllLegal b rest (acc ++ [c])
    else scanAllLegal b rest acc

/-- The candidate moves `expandNode` generates for a reconstructed board. -/
def expandCandidates (tempBoard : Board) : List Position :=
  let la :=
    if 0 ≤ tempBoard.lastMove.x ∧ 0 ≤ tempBoard.lastMove.y then
      getValidMovesInRange tempBoard tempBoard.lastMove.x tempBoard.lastMove.y 1
    else []
  let lb := if la.length < 5 then addStarPoints tempBoard la else la
  if lb.length < 5 then scanAllLegal tempBoard allCells lb else lb

/-- `connectedStones` count of `expandNode`'s centre strategy. -/
def connectedStones (g : Grid) (player : Stone) (m : Position) : Nat :=
  (neighborCells m).foldl
    (fun c n => if isValidPosition n ∧ getCell g n = player then c + 1 else c) 0

/-- `expandNode`'s edge strategy: index of the candidate farthest (squared
Euclidean distance) from the last move; first maximum wins, starting from
`maxDistance = 0` and index 0. -/
def edgeChoice (last : Position) (moves : List Position) : Nat :=
  (moves.enum.foldl
    (fun (st : Nat × Int) mi =>
      let dx := mi.2.x - last.x
      let dy := mi.2.y - last.y
      if dx * dx + dy * dy > st.2 then (mi.1, dx * dx + dy * dy) else st)
    (0, 0)).1

/-- `expandNode`'s centre strategy: index of the candidate closest to the
board centre, with a −5 bonus per orthogonally adjacent own stone; first
minimum wins, starting from `minDistance = BOARD_SIZE*BOARD_SIZE*2 = 722`. -/
def centerChoice (g : Grid) (player : Stone) (moves : List Position) : Nat :=
  (moves.enum.foldl
    (fun (st : Nat × Int) mi =>
      let dx := mi.2.x - 9
      let dy := mi.2.y - 9
      let distance := dx * dx + dy * dy - 5 * (connectedStones g player mi.2 : Int)
      if distance < st.2 then (mi.1, distance) else st)
    (0, 722)).1

/-- `expandNode` from ai.c: reconstruct the node's board, generate candidate
children, attach them to the node, and return one child picked by a strategy
drawn from the rand stream.  Returns the new arena, the index of the returned
node, and the advanced rand counter. -/
def expandNode (t : MCTree) (idx : Nat) (b : Board) (rand : Nat → Nat) (k : Nat) :
    MCTree × Nat × Nat :=
  let tempBoard := reconstructBoard t idx b
  let legalMoves := expandCandidates tempBoard
  if legalMoves.length = 0 then (t, idx, k)
  else
    let node := treeGet t idx
    let nextPlayer := opponentOf node.player
    let baseIdx := t.length
    let t1 :=
      t.set idx { node with childrenIdx := (List.range legalMoves.length).map (baseIdx + ·) } ++
        legalMoves.map (fun m =>
          { move := m, player := nextPlayer, visits := 0, wins := 0,
            childrenIdx := [], parentIdx := some idx })
    let strategy := rand k % 3
    let sel : Nat × Nat :=
      if strategy = 0 then (rand (k + 1) % legalMoves.length, k + 2)
      else if strategy = 1 ∧ 0 ≤ tempBoard.lastMove.x then
        (edgeChoice tempBoard.lastMove legalMoves, k + 1)
      else (centerChoice tempBoard.grid node.player legalMoves, k + 1)
    (t1, baseIdx + sel.1, sel.2)

/-- The random-probing fallback of `simulateGame`'s rollout: up to 10 attempts
of a uniformly random cell, stopping at the first legal one; each attempt
consumes two rand values. -/
def rolloutProbe (b : Board) (rand : Nat → Nat) : Nat → Nat → List Position × Nat
  | 0, k => ([], k)
  | attempts + 1, k =>
    let x := (rand k % 19 : Nat)
    let y := (rand (k + 1) % 19 : Nat)
    if isValidMove b ⟨(x : Int), (y : Int)⟩ then ([⟨(x : Int), (y : Int)⟩], k + 2)
    else rolloutProbe b rand attempts (k + 2)

/-- The rollout loop of `simulateGame`: play up to `fuel` random plies,
tracking the move count for the stagnation cutoff (after ply 20, every 5
plies, stop if neither capture counter changed). -/
def rollout (rand : Nat → Nat) :
    Nat → Nat → Nat → Nat → Nat → Board → Board × Nat
  | 0, _, k, _, _, bd => (bd, k)
  | fuel + 1, mc, k, prevB, prevW, bd =>
    let movesA :=
      if 0 ≤ bd.lastMove.x ∧ 0 ≤ bd.lastMove.y then
        getValidMovesInRange bd bd.lastMove.x bd.lastMove.y 1
      else []
    let probed := if movesA.length = 0 then rolloutProbe bd rand 10 k else (movesA, k)
    if probed.1.length = 0 then (bd, probed.2)
    else
      let movePos := probed.1.getD (rand probed.2 % probed.1.length) ⟨-1, -1⟩
      let k1 := probed.2 + 1
      let bd1 := (placeStone bd movePos).2
      let mc1 := mc + 1
      if 20 < mc1 ∧ mc1 % 5 = 0 then
        if bd1.blackCaptures = prevB ∧ bd1.whiteCaptures = prevW then (bd1, k1)
        else rollout rand fuel mc1 k1 bd1.blackCaptures bd1.whiteCaptures bd1
      else rollout rand fuel mc1 k1 prevB prevW bd1

/-- `simulateGame` from ai.c: reconstruct the node's board, run a randomized
rollout of 40–60 plies, and score 1 (`true`) iff the node's player's captures
strictly exceed the opponent's. -/
def simulateGame (t : MCTree) (idx : Nat) (b : Board) (rand : Nat → Nat) (k : Nat) :
    Bool × Nat :=
  let tempBoard := reconstructBoard t idx b
  let maxMoves := 40 + rand k % 20
  let ro := rollout rand maxMoves 0 (k + 1) tempBoard.blackCaptures tempBoard.whiteCaptures
    tempBoard
  let score :=
    if (treeGet t idx).player = BLACK then decide (ro.1.blackCaptures > ro.1.whiteCaptures)
    else decide (ro.1.whiteCaptures > ro.1.blackCaptures)
  (score, ro.2)

/-- The upward walk of `backpropagate`. -/
def backpropAux (nodePlayer : Stone) (result : Bool) :
    Nat → Option Nat → MCTree → MCTree
  | 0, _, t => t
  | _ + 1, none, t => t
  | fuel + 1, some i, t =>
    let rec0 := treeGet t i
    let w : Nat :=
      if rec0.player = nodePlayer then (if result then 1 else 0)
      else (if result then 0 else 1)
    backpropAux nodePlayer result fuel rec0.parentIdx
      (t.set i { rec0 with visits := rec0.visits + 1, wins := rec0.wins + w })

/-- `backpropagate` from ai.c: increment `visits` on the node and all its
ancestors, crediting `result` to nodes of the simulated node's player and
`1 − result` to the others. -/
def backpropagate (t : MCTree) (idx : Nat) (result : Bool) : MCTree :=
  backpropAux (treeGet t idx).player result (t.length + 1) (some idx) t

/-- `selectBestChild` from ai.c: the root child with the most visits (the
first one wins ties, any child beats the initial `-INFINITY`). -/
def selectBestChild (t : MCTree) : Option Nat :=
  (treeGet t 0).childrenIdx.foldl
    (fun best i =>
      match best with
      | none => some i
      | some j => if (treeGet t i).visits > (treeGet t j).visits then some i else some j)
    none

/-- The iteration loop of `runMCTS`: run while fewer than `simulationCount`
iterations have completed and the time oracle allows; each iteration selects
(oracle), expands, simulates and backpropagates.  Returns the final arena, the
number of iterations run, and the final rand counter. -/
def runMCTSAux (b : Board) (selectO : MCTree → Nat → Nat) (timeOK : Nat → Bool)
    (rand : Nat → Nat) : Nat → Nat → Nat → MCTree → MCTree × Nat × Nat
  | 0, i, k, t => (t, i, k)
  | fuel + 1, i, k, t =>
    if timeOK i then
      let ex := expandNode t (selectO t i) b rand k
      let sim := simulateGame ex.1 ex.2.1 b rand ex.2.2
      runMCTSAux b selectO timeOK rand fuel (i + 1) sim.2 (backpropagate ex.1 ex.2.1 sim.1)
    else (t, i, k)

/-- `runMCTS` from ai.c. -/
def runMCTS (b : Board) (cfg : AIConfig) (selectO : MCTree → Nat → Nat)
    (timeOK : Nat → Bool) (rand : Nat → Nat) (t : MCTree) : MCTree × Nat × Nat :=
  runMCTSAux b selectO timeOK rand cfg.simulationCount 0 0 t

/-- The 9 designated opening points of `findBestMove`'s first-move branch, in
probe order: the centre (tengen) first, then the 8 star points. -/
def openingStarPoints : List Position :=
  [⟨9, 9⟩, ⟨3, 3⟩, ⟨3, 15⟩, ⟨15, 3⟩, ⟨15, 15⟩, ⟨3, 9⟩, ⟨9, 3⟩, ⟨15, 9⟩, ⟨9, 15⟩]

/-- The whole-board-search tail of `findBestMove` (its third branch). -/
def searchWholeBoard (b : Board) (cfg : AIConfig) (rand : Nat → Nat)
    (selectO : MCTree → Nat → Nat) (timeOK : Nat → Bool) : Position × Nat :=
  let validMoves := getLegalMoves b
  if validMoves.length = 0 then (⟨-1, -1⟩, 0)
  else
    let res := runMCTS b cfg selectO timeOK rand [createRootNode b]
    match selectBestChild res.1 with
    | some i => ((treeGet res.1 i).move, res.2.1)
    | none => (validMoves.getD (rand res.2.2 % validMoves.length) ⟨-1, -1⟩, res.2.1)

/-- The neighbourhood-search branch of `findBestMove` (its second branch):
search with MCTS, falling back to the pre-collected 3×3-neighbourhood legal
moves, and to the no-move sentinel `(-1,-1)` if even those are empty. -/
def searchNearLastMove (b : Board) (cfg : AIConfig) (rand : Nat → Nat)
    (selectO : MCTree → Nat → Nat) (timeOK : Nat → Bool) : Position × Nat :=
  let backupMoves := getValidMovesInRange b b.lastMove.x b.lastMove.y 1
  let res := runMCTS b cfg selectO timeOK rand [createRootNode b]
  match selectBestChild res.1 with
  | some i => ((treeGet res.1 i).move, res.2.1)
  | none =>
    if 0 < backupMoves.length then
      (backupMoves.getD (rand res.2.2 % backupMoves.length) ⟨-1, -1⟩, res.2.1)
    else (⟨-1, -1⟩, res.2.1)

/-- `findBestMove` from ai.c.  In addition to the chosen position it returns
the number of search iterations that were run (the "simulation-count probe"
of the specification's testable properties; the opening branch returns before
`runMCTS`, hence 0). -/
def findBestMove (b : Board) (cfg : AIConfig) (rand : Nat → Nat)
    (selectO : MCTree → Nat → Nat) (timeOK : Nat → Bool) : Position × Nat :=
  if b.lastMove.x < 0 ∨ b.lastMove.y < 0 then
    let validMoves := openingStarPoints.filter (fun pos => isValidMove b pos)
    if 0 < validMoves.length then
      (validMoves.getD (rand 0 % validMoves.length) ⟨-1, -1⟩, 0)
    else searchWholeBoard b cfg rand selectO timeOK
  else searchNearLastMove b cfg rand selectO timeOK

/-- The invariant carried by the `captureDeadStones` scan: with a captured
count of 0 nothing has changed, and with a captured count of 1 the recorded ko
position is a valid cell that held a `color` stone on the original grid and is
now empty. -/
def ScanInv (g0 : Grid) (kp0 : Position) (color : Stone)
    (acc : Grid × Nat × Nat × Position) : Prop :=
  (acc.2.2.1 = 0 → acc.1 = g0 ∧ acc.2.2.2 = kp0) ∧
  (acc.2.2.1 = 1 →
    getCell g0 acc.2.2.2 = color ∧ getCell acc.1 acc.2.2.2 = EMPTY ∧
    isValidPosition acc.2.2.2 = true)

/-- The `calculateLiberties` scan step, named so that concrete instances can
be evaluated stepwise. -/
def libertyScanStep (g : Grid) (acc : Nat × Nat × Nat) (cell : Position) : Nat × Nat × Nat :=
  if (getCell g cell = BLACK ∨ getCell g cell = WHITE) ∧ ¬ maskGet acc.1 cell then
    let dfs := dfsMarkGroup g (getCell g cell) dfsFuel cell (acc.1, [])
    let libs := calculateGroupLiberties g dfs.2
    if getCell g cell = BLACK then (dfs.1, acc.2.1 + libs, acc.2.2)
    else (dfs.1, acc.2.1, acc.2.2 + libs)
  else acc

/-- The board produced by the tail of a successful `placeStone` (liberty
recount, snapshot append, player flip) from the post-capture board `B2`. -/
def finishMove (B2 : Board) (bl wl : Nat) : Board :=
  { grid := B2.grid
    currentPlayer := opponentOf B2.currentPlayer
    lastMove := B2.lastMove
    koPosition := B2.koPosition
    koActive := B2.koActive
    blackCaptures := B2.blackCaptures
    whiteCaptures := B2.whiteCaptures
    blackLiberties := bl
    whiteLiberties := wl
    prevs := B2.cur :: B2.prevs
    cur := { grid := B2.grid, lastMove := B2.lastMove, blackCaptures := B2.blackCaptures,
             whiteCaptures := B2.whiteCaptures, blackLiberties := bl, whiteLiberties := wl }
    nexts := [] }

/-!
### Concrete move evaluations (used by the C3 and C7 claim instances)

The following boards and lemmas evaluate specific `placeStone` sequences
segment by segment.  Each lemma is a concrete instance checked by
`decide`/`rfl`; the helper boards name the intermediate states.
-/

set_option maxRecDepth 8000

def c3AP1 : Board :=
  { grid := setCell emptyGrid ⟨2, 0⟩ BLACK, currentPlayer := BLACK, lastMove := ⟨2, 0⟩,
    koPosition := ⟨-1, -1⟩, koActive := false, blackCaptures := 0,
    whiteCaptures := 0, blackLiberties := 0, whiteLiberties := 0,
    prevs := initBoard.prevs, cur := initBoard.cur, nexts := initBoard.nexts }

def c3AP2 : Board :=
  { grid := setCell (setCell emptyGrid ⟨2, 0⟩ BLACK) ⟨1, 0⟩ WHITE, currentPlayer := WHITE, lastMove := ⟨1, 0⟩,
    koPosition := ⟨-1, -1⟩, koActive := false, blackCaptures := 0,
    whiteCaptures := 0, blackLiberties := 3, whiteLiberties := 0,
    prevs := (finishMove c3AP1 3 0).prevs, cur := (finishMove c3AP1 3 0).cur, nexts := (finishMove c3AP1 3 0).nexts }

def c3AP3 : Board :=
  { grid := setCell (setCell (setCell emptyGrid ⟨2, 0⟩ BLACK) ⟨1, 0⟩ WHITE) ⟨1, 1⟩ BLACK, currentPlayer := BLACK, lastMove := ⟨1, 1⟩,
    koPosition := ⟨-1, -1⟩, koActive := false, blackCaptures := 0,
    whiteCaptures := 0, blackLiberties := 2, whiteLiberties := 2,
    prevs := (finishMove c3AP2 2 2).prevs, cur := (finishMove c3AP2 2 2).cur, nexts := (finishMove c3AP2 2 2).nexts }

def c3AP4 : Board :=
  { grid := setCell (setCell (setCell (setCell emptyGrid ⟨2, 0⟩ BLACK) ⟨1, 0⟩ WHITE) ⟨1, 1⟩ BLACK) ⟨0, 1⟩ WHITE, currentPlayer := WHITE, lastMove := ⟨0, 1⟩,
    koPosition := ⟨-1, -1⟩, koActive := false, blackCaptures := 0,
    whiteCaptures := 0, blackLiberties := 5, whiteLiberties := 1,
    prevs := (finishMove c3AP3 5 1).prevs, cur := (finishMove c3AP3 5 1).cur, nexts := (finishMove c3AP3 5 1).nexts }

def c7AP5 : Board :=
  { grid := setCell emptyGrid ⟨1, 0⟩ BLACK, currentPlayer := BLACK, lastMove := ⟨1, 0⟩,
    koPosition := ⟨-1, -1⟩, koActive := false, blackCaptures := 0,
    whiteCaptures := 0, blackLiberties := 0, whiteLiberties := 0,
    prevs := initBoard.prevs, cur := initBoard.cur, nexts := initBoard.nexts }

def c7AP6 : Board :=
  { grid := setCell (setCell emptyGrid ⟨1, 0⟩ BLACK) ⟨0, 0⟩ WHITE, currentPlayer := WHITE, lastMove := ⟨0, 0⟩,
    koPosition := ⟨-1, -1⟩, koActive := false, blackCaptures := 0,
    whiteCaptures := 0, blackLiberties := 3, whiteLiberties := 0,
    prevs := (finishMove c7AP5 3 0).prevs, cur := (finishMove c7AP5 3 0).cur, nexts := (finishMove c7AP5 3 0).nexts }

def c7AP7 : Board :=
  { grid := setCell (setCell (setCell emptyGrid ⟨1, 0⟩ BLACK) ⟨0, 0⟩ WHITE) ⟨1, 1⟩ BLACK, currentPlayer := BLACK, lastMove := ⟨1, 1⟩,
    koPosition := ⟨-1, -1⟩, koActive := false, blackCaptures := 0,
    whiteCaptures := 0, blackLiberties := 2, whiteLiberties := 1,
    prevs := (finishMove c7AP6 2 1).prevs, cur := (finishMove c7AP6 2 1).cur, nexts := (finishMove c7AP6 2 1).nexts }

def c7AP8 : Board :=
  { grid := setCell (setCell (setCell (setCell emptyGrid ⟨1, 0⟩ BLACK) ⟨0, 0⟩ WHITE) ⟨1, 1⟩ BLACK) ⟨0, 1⟩ WHITE, currentPlayer := WHITE, lastMove := ⟨0, 1⟩,
    koPosition := ⟨-1, -1⟩, koActive := false, blackCaptures := 0,
    whiteCaptures := 0, blackLiberties := 4, whiteLiberties := 1,
    prevs := (finishMove c7AP7 4 1).prevs, cur := (finishMove c7AP7 4 1).cur, nexts := (finishMove c7AP7 4 1).nexts }

def c7AP9 : Board :=
  { grid := setCell (setCell (setCell (setCell (setCell emptyGrid ⟨1, 0⟩ BLACK) ⟨0, 0⟩ WHITE) ⟨1, 1⟩ BLACK) ⟨0, 1⟩ WHITE) ⟨0, 2⟩ BLACK, currentPlayer := BLACK, lastMove := ⟨0, 2⟩,
    koPosition := ⟨-1, -1⟩, koActive := false, blackCaptures := 0,
    whiteCaptures := 0, blackLiberties := 3, whiteLiberties := 1,
    prevs := (finishMove c7AP8 3 1).prevs, cur := (finishMove c7AP8 3 1).cur, nexts := (finishMove c7AP8 3 1).nexts }

def c7B2m9 : Board :=
  { grid := setCell (setCell (setCell (setCell (setCell (setCell (setCell emptyGrid ⟨1, 0⟩ BLACK) ⟨0, 0⟩ WHITE) ⟨1, 1⟩ BLACK) ⟨0, 1⟩ WHITE) ⟨0, 2⟩ BLACK) ⟨0, 0⟩ EMPTY) ⟨0, 1⟩ EMPTY, currentPlayer := BLACK, lastMove := ⟨0, 2⟩,
    koPosition := ⟨-1, -1⟩, koActive := false, blackCaptures := 2,
    whiteCaptures := 0, blackLiberties := 3, whiteLiberties := 1,
    prevs := (finishMove c7AP8 3 1).prevs, cur := (finishMove c7AP8 3 1).cur, nexts := (finishMove c7AP8 3 1).nexts }

def c7AP11 : Board :=
  { grid := setCell (setCell (setCell (setCell (setCell (setCell (setCell (setCell emptyGrid ⟨1, 0⟩ BLACK) ⟨0, 0⟩ WHITE) ⟨1, 1⟩ BLACK) ⟨0, 1⟩ WHITE) ⟨0, 2⟩ BLACK) ⟨0, 0⟩ EMPTY) ⟨0, 1⟩ EMPTY) ⟨0, 0⟩ WHITE, currentPlayer := WHITE, lastMove := ⟨0, 0⟩,
    koPosition := ⟨-1, -1⟩, koActive := false, blackCaptures := 2,
    whiteCaptures := 0, blackLiberties := 8, whiteLiberties := 0,
    prevs := (finishMove c7B2m9 8 0).prevs, cur := (finishMove c7B2m9 8 0).cur, nexts := (finishMove c7B2m9 8 0).nexts }

def c7AP13 : Board :=
  { grid := setCell (setCell (setCell (setCell (setCell (setCell (setCell (setCell (setCell emptyGrid ⟨1, 0⟩ BLACK) ⟨0, 0⟩ WHITE) ⟨1, 1⟩ BLACK) ⟨0, 1⟩ WHITE) ⟨0, 2⟩ BLACK) ⟨0, 0⟩ EMPTY) ⟨0, 1⟩ EMPTY) ⟨0, 0⟩ WHITE) ⟨0, 1⟩ BLACK, currentPlayer := BLACK, lastMove := ⟨0, 1⟩,
    koPosition := ⟨-1, -1⟩, koActive := false, blackCaptures := 2,
    whiteCaptures := 0, blackLiberties := 7, whiteLiberties := 1,
    prevs := (finishMove c7AP11 7 1).prevs, cur := (finishMove c7AP11 7 1).cur, nexts := (finishMove c7AP11 7 1).nexts }

def c7B2m13 : Board :=
  { grid := setCell (setCell (setCell (setCell (setCell (setCell (setCell (setCell (setCell (setCell emptyGrid ⟨1, 0⟩ BLACK) ⟨0, 0⟩ WHITE) ⟨1, 1⟩ BLACK) ⟨0, 1⟩ WHITE) ⟨0, 2⟩ BLACK) ⟨0, 0⟩ EMPTY) ⟨0, 1⟩ EMPTY) ⟨0, 0⟩ WHITE) ⟨0, 1⟩ BLACK) ⟨0, 0⟩ EMPTY, currentPlayer := BLACK, lastMove := ⟨0, 1⟩,
    koPosition := ⟨0, 0⟩, koActive := false, blackCaptures := 3,
    whiteCaptures := 0, blackLiberties := 7, whiteLiberties := 1,
    prevs := (finishMove c7AP11 7 1).prevs, cur := (finishMove c7AP11 7 1).cur, nexts := (finishMove c7AP11 7 1).nexts }

def c7wAP20 : Board :=
  { grid := setCell emptyGrid ⟨3, 3⟩ BLACK, currentPlayer := BLACK, lastMove := ⟨3, 3⟩,
    koPosition := ⟨-1, -1⟩, koActive := false, blackCaptures := 0,
    whiteCaptures := 0, blackLiberties := 0, whiteLiberties := 0,
    prevs := initBoard.prevs, cur := initBoard.cur, nexts := initBoard.nexts }

def c7wAP21 : Board :=
  { grid := setCell (setCell emptyGrid ⟨3, 3⟩ BLACK) ⟨10, 10⟩ WHITE, currentPlayer := WHITE, lastMove := ⟨10, 10⟩,
    koPosition := ⟨-1, -1⟩, koActive := false, blackCaptures := 0,
    whiteCaptures := 0, blackLiberties := 4, whiteLiberties := 0,
    prevs := (finishMove c7wAP20 4 0).prevs, cur := (finishMove c7wAP20 4 0).cur, nexts := (finishMove c7wAP20 4 0).nexts }

/-! ### Reachable states and the engine invariant -/

/-- Capture counters never shrink along the history chain. -/
def SnapLE (s t : Snapshot) : Prop :=
  s.blackCaptures ≤ t.blackCaptures ∧ s.whiteCaptures ≤ t.whiteCaptures

/-- A snapshot whose `lastMove` is the `(-1,-1)` sentinel records the empty
starting position. -/
def SentinelSnap (s : Snapshot) : Prop :=
  s.lastMove.x < 0 ∨ s.lastMove.y < 0 → s.grid = emptyGrid

/-- The history chain in play order: oldest snapshot first, redo states last. -/
def histChain (b : Board) : List Snapshot :=
  b.prevs.reverse ++ b.cur :: b.nexts

/-- Invariant of every board state reachable through the public mutators. -/
structure BoardInv (b : Board) : Prop where
  syncGrid : b.cur.grid = b.grid
  syncLast : b.cur.lastMove = b.lastMove
  syncBC : b.cur.blackCaptures = b.blackCaptures
  syncWC : b.cur.whiteCaptures = b.whiteCaptures
  syncBL : b.cur.blackLiberties = b.blackLiberties
  syncWL : b.cur.whiteLiberties = b.whiteLiberties
  player : b.currentPlayer = BLACK ∨ b.currentPlayer = WHITE
  sentinelLive : b.lastMove.x < 0 ∨ b.lastMove.y < 0 → b.grid = emptyGrid ∧ b.koActive = false
  sentinelSnaps : ∀ s ∈ b.prevs ++ b.nexts, SentinelSnap s
  chainMono : List.Pairwise SnapLE (histChain b)

/-- The board states reachable from `initBoard` through the public mutators
of board.c. -/
inductive Reaches : Board → Prop where
  | init : Reaches initBoard
  | place (b : Board) (pos : Position) : Reaches b → Reaches (placeStone b pos).2
  | undo (b : Board) : Reaches b → Reaches (undoMove b).2
  | redo (b : Board) : Reaches b → Reaches (redoMove b).2

/-- Invariant of the search arena: the root is parentless and all its
recorded children are in-bounds nodes whose moves are legal on the root
board. -/
def RootOK (b : Board) (t : MCTree) : Prop :=
  0 < t.length ∧
  (treeGet t 0).parentIdx = none ∧
  ∀ j ∈ (treeGet t 0).childrenIdx, j < t.length ∧ isValidMove b (treeGet t j).move = true

/-! ### Claims C8 and C9 -/

def allBlackBoard : Board := { initBoard with grid := fun _ => BLACK }

def cexC10 : Board := { initBoard with blackCaptures := 1, prevs := [initBoard.cur] }

/-! ### Witnesses for claims C2 and C5 -/

def undoDemoBoard : Board := { initBoard with prevs := [initBoard.cur] }

/-! ### Claim C3 -/

def c3Board : Board := finishMove c3AP4 4 3

/-! ### Claim C6 -/

def areaScores (b : Board) : Nat × Nat :=
  let stones :=
    allCells.foldl
      (fun (acc : Nat × Nat) cell =>
        if getCell b.grid cell = BLACK then (acc.1 + 1, acc.2)
        else if getCell b.grid cell = WHITE then (acc.1, acc.2 + 1)
        else acc)
      (0, 0)
  let terr := allCells.foldl (territoryStep b.grid) (0, stones.1, stones.2)
  (terr.2.1, terr.2.2)

def blackTotal (b : Board) : Nat := (areaScores b).1 + b.whiteCaptures

def whiteTotal (b : Board) : Nat := (areaScores b).2 + b.blackCaptures + 4

/-! ### Claim C7 -/

def c7path : List Position := [⟨1, 0⟩, ⟨0, 0⟩, ⟨1, 1⟩, ⟨0, 1⟩, ⟨0, 2⟩]

def c7Tree : MCTree :=
  [{ move := ⟨-1, -1⟩, player := BLACK, visits := 0, wins := 0, childrenIdx := [1],
     parentIdx := none },
   { move := ⟨1, 0⟩, player := WHITE, visits := 0, wins := 0, childrenIdx := [2],
     parentIdx := some 0 },
   { move := ⟨0, 0⟩, player := BLACK, visits := 0, wins := 0, childrenIdx := [3],
     parentIdx := some 1 },
   { move := ⟨1, 1⟩, player := WHITE, visits := 0, wins := 0, childrenIdx := [4],
     parentIdx := some 2 },
   { move := ⟨0, 1⟩, player := BLACK, visits := 0, wins := 0, childrenIdx := [5],
     parentIdx := some 3 },
   { move := ⟨0, 2⟩, player := WHITE, visits := 0, wins := 0, childrenIdx := [],
     parentIdx := some 4 }]

/-! ## Theorems -/

/-! ### Basic field lemmas about the rule-engine operations -/

@[simp] lemma afterPlace_currentPlayer (b : Board) (pos : Position) :
    (afterPlace b pos).currentPlayer = b.currentPlayer := rfl

@[simp] lemma afterPlace_koActive (b : Board) (pos : Position) :
    (afterPlace b pos).koActive = false := rfl

@[simp] lemma afterPlace_grid (b : Board) (pos : Position) :
    (afterPlace b pos).grid = setCell b.grid pos b.currentPlayer := rfl

@[simp] lemma afterPlace_lastMove (b : Board) (pos : Position) :
    (afterPlace b pos).lastMove = pos := rfl

@[simp] lemma afterPlace_blackCaptures (b : Board) (pos : Position) :
    (afterPlace b pos).blackCaptures = b.blackCaptures := rfl

@[simp] lemma afterPlace_whiteCaptures (b : Board) (pos : Position) :
    (afterPlace b pos).whiteCaptures = b.whiteCaptures := rfl

@[simp] lemma captureDeadStones_currentPlayer (b : Board) (c : Stone) :
    (captureDeadStones b c).1.currentPlayer = b.currentPlayer := by
  simp only [captureDeadStones]

@[simp] lemma captureDeadStones_lastMove (b : Board) (c : Stone) :
    (captureDeadStones b c).1.lastMove = b.lastMove := by
  simp only [captureDeadStones]

@[simp] lemma captureDeadStones_koActive (b : Board) (c : Stone) :
    (captureDeadStones b c).1.koActive = b.koActive := by
  simp only [captureDeadStones]

@[simp] lemma captureDeadStones_blackLiberties (b : Board) (c : Stone) :
    (captureDeadStones b c).1.blackLiberties = b.blackLiberties := by
  simp only [captureDeadStones]

@[simp] lemma captureDeadStones_whiteLiberties (b : Board) (c : Stone) :
    (captureDeadStones b c).1.whiteLiberties = b.whiteLiberties := by
  simp only [captureDeadStones]

@[simp] lemma captureDeadStones_prevs (b : Board) (c : Stone) :
    (captureDeadStones b c).1.prevs = b.prevs := by
  simp only [captureDeadStones]

@[simp] lemma captureDeadStones_cur (b : Board) (c : Stone) :
    (captureDeadStones b c).1.cur = b.cur := by
  simp only [captureDeadStones]

@[simp] lemma captureDeadStones_nexts (b : Board) (c : Stone) :
    (captureDeadStones b c).1.nexts = b.nexts := by
  simp only [captureDeadStones]

lemma captureDeadStones_blackCaptures_le (b : Board) (c : Stone) :
    b.blackCaptures ≤ (captureDeadStones b c).1.blackCaptures := by
  simp only [captureDeadStones]
  split <;> simp

lemma captureDeadStones_whiteCaptures_le (b : Board) (c : Stone) :
    b.whiteCaptures ≤ (captureDeadStones b c).1.whiteCaptures := by
  simp only [captureDeadStones]
  split <;> simp

@[simp] lemma calculateLiberties_grid (b : Board) :
    (calculateLiberties b).grid = b.grid := rfl

@[simp] lemma calculateLiberties_currentPlayer (b : Board) :
    (calculateLiberties b).currentPlayer = b.currentPlayer := rfl

@[simp] lemma calculateLiberties_lastMove (b : Board) :
    (calculateLiberties b).lastMove = b.lastMove := rfl

@[simp] lemma calculateLiberties_koActive (b : Board) :
    (calculateLiberties b).koActive = b.koActive := rfl

@[simp] lemma calculateLiberties_koPosition (b : Board) :
    (calculateLiberties b).koPosition = b.koPosition := rfl

@[simp] lemma calculateLiberties_blackCaptures (b : Board) :
    (calculateLiberties b).blackCaptures = b.blackCaptures := rfl

@[simp] lemma calculateLiberties_whiteCaptures (b : Board) :
    (calculateLiberties b).whiteCaptures = b.whiteCaptures := rfl

@[simp] lemma calculateLiberties_prevs (b : Board) :
    (calculateLiberties b).prevs = b.prevs := rfl

@[simp] lemma calculateLiberties_cur (b : Board) :
    (calculateLiberties b).cur = b.cur := rfl

@[simp] lemma calculateLiberties_nexts (b : Board) :
    (calculateLiberties b).nexts = b.nexts := rfl

@[simp] lemma saveBoardState_grid (b : Board) : (saveBoardState b).grid = b.grid := rfl

@[simp] lemma saveBoardState_currentPlayer (b : Board) :
    (saveBoardState b).currentPlayer = b.currentPlayer := rfl

@[simp] lemma saveBoardState_lastMove (b : Board) :
    (saveBoardState b).lastMove = b.lastMove := rfl

@[simp] lemma saveBoardState_koActive (b : Board) :
    (saveBoardState b).koActive = b.koActive := rfl

@[simp] lemma saveBoardState_koPosition (b : Board) :
    (saveBoardState b).koPosition = b.koPosition := rfl

@[simp] lemma saveBoardState_blackCaptures (b : Board) :
    (saveBoardState b).blackCaptures = b.blackCaptures := rfl

@[simp] lemma saveBoardState_whiteCaptures (b : Board) :
    (saveBoardState b).whiteCaptures = b.whiteCaptures := rfl

@[simp] lemma saveBoardState_nexts (b : Board) : (saveBoardState b).nexts = [] := rfl

/-- The capture loop changes only the grid, the ko position and the capture
counters. -/
lemma captureLoop_preserves (c : Stone) :
    ∀ (fuel : Nat) (b : Board),
      (captureLoop c fuel b).1.currentPlayer = b.currentPlayer ∧
      (captureLoop c fuel b).1.lastMove = b.lastMove ∧
      (captureLoop c fuel b).1.koActive = b.koActive ∧
      (captureLoop c fuel b).1.blackLiberties = b.blackLiberties ∧
      (captureLoop c fuel b).1.whiteLiberties = b.whiteLiberties ∧
      (captureLoop c fuel b).1.prevs = b.prevs ∧
      (captureLoop c fuel b).1.cur = b.cur ∧
      (captureLoop c fuel b).1.nexts = b.nexts := by
  intro fuel
  induction fuel with
  | zero => intro b; simp [captureLoop]
  | succ n ih =>
    intro b
    simp only [captureLoop]
    split
    · have := ih (captureDeadStones b c).1
      simpa using this
    · simp

/-- The capture loop never decreases either capture counter. -/
lemma captureLoop_captures_le (c : Stone) :
    ∀ (fuel : Nat) (b : Board),
      b.blackCaptures ≤ (captureLoop c fuel b).1.blackCaptures ∧
      b.whiteCaptures ≤ (captureLoop c fuel b).1.whiteCaptures := by
  intro fuel
  induction fuel with
  | zero => intro b; simp [captureLoop]
  | succ n ih =>
    intro b
    simp only [captureLoop]
    split
    · have h1 := ih (captureDeadStones b c).1
      have h2 := captureDeadStones_blackCaptures_le b c
      have h3 := captureDeadStones_whiteCaptures_le b c
      exact ⟨le_trans h2 h1.1, le_trans h3 h1.2⟩
    · exact ⟨captureDeadStones_blackCaptures_le b c, captureDeadStones_whiteCaptures_le b c⟩

@[simp] lemma placeStoneBody_nexts (b : Board) (pos : Position) :
    (placeStoneBody b pos).nexts = [] := by
  simp [placeStoneBody]

/-! ### Claim C1 -/

/-- C1: `placeStone` returns `false` and leaves the entire board state (all
fields, including the history) unchanged whenever `isValidMove` is false, and
it mutates the state (returning `true`) only when `isValidMove` is true. -/
theorem placeStone_noMutation_on_invalid (b : Board) (pos : Position) :
    (isValidMove b pos = false → placeStone b pos = (false, b)) ∧
    (isValidMove b pos = true → (placeStone b pos).1 = true) := by
  refine ⟨fun h => ?_, fun h => ?_⟩ <;> simp [placeStone, h]

/-- Witness for C1 at concrete inputs: the out-of-bounds move `(-1,-1)` on the
initial board is rejected with no mutation, and the legal move `(9,9)` is
accepted. -/
theorem placeStone_noMutation_on_invalid_witness :
    placeStone initBoard ⟨-1, -1⟩ = (false, initBoard) ∧
    (placeStone initBoard ⟨9, 9⟩).1 = true :=
  ⟨(placeStone_noMutation_on_invalid initBoard ⟨-1, -1⟩).1 (by decide),
   (placeStone_noMutation_on_invalid initBoard ⟨9, 9⟩).2 (by decide)⟩

/-! ### Claim C5 -/

/-- C5: after a successful undo, a successful `placeStone` discards every
snapshot that was ahead of the history cursor: the forward history is empty
and `redoMove` fails with no effect. -/
theorem placeStone_after_undo_discards_redo (b : Board) (pos : Position)
    (_h1 : (undoMove b).1 = true)
    (h2 : (placeStone (undoMove b).2 pos).1 = true) :
    ((placeStone (undoMove b).2 pos).2).nexts = [] ∧
    redoMove ((placeStone (undoMove b).2 pos).2) =
      (false, (placeStone (undoMove b).2 pos).2) := by
  have hv : isValidMove (undoMove b).2 pos = true := by
    by_cases hvv : isValidMove (undoMove b).2 pos
    · exact hvv
    · rw [Bool.not_eq_true] at hvv
      simp [placeStone, hvv] at h2
  have he : (placeStone (undoMove b).2 pos).2 = placeStoneBody (undoMove b).2 pos := by
    simp [placeStone, hv]
  rw [he]
  exact ⟨placeStoneBody_nexts _ _, by simp [redoMove]⟩

/-! ### Analysis of the capture machinery (towards claim C2) -/

@[simp] lemma getCell_setCell_same (g : Grid) (p : Position) (s : Stone) :
    getCell (setCell g p s) p = s := by
  simp [getCell, setCell]

lemma getCell_setCell_ne (g : Grid) (p q : Position) (s : Stone) (h : q ≠ p) :
    getCell (setCell g p s) q = getCell g q := by
  simp [getCell, setCell, h]

/-- The DFS only ever appends to the group accumulator. -/
lemma dfsMarkGroup_append (g : Grid) (color : Stone) :
    ∀ (fuel : Nat) (pos : Position) (acc : Nat × List Position),
      ∃ t, (dfsMarkGroup g color fuel pos acc).2 = acc.2 ++ t := by
  intro fuel
  induction fuel with
  | zero => exact fun pos acc => ⟨[], by simp [dfsMarkGroup]⟩
  | succ n ih =>
    intro pos acc
    have fold :
        ∀ (l : List Position) (a : Nat × List Position),
          ∃ t, (l.foldl
            (fun acc2 next =>
              if isValidPosition next ∧ ¬ maskGet acc2.1 next ∧ getCell g next = color then
                dfsMarkGroup g color n next acc2
              else acc2) a).2 = a.2 ++ t := by
      intro l
      induction l with
      | nil => exact fun a => ⟨[], by simp⟩
      | cons x xs ihl =>
        intro a
        simp only [List.foldl_cons]
        by_cases hc : isValidPosition x ∧ ¬ maskGet a.1 x ∧ getCell g x = color
        · rw [if_pos hc]
          obtain ⟨t1, ht1⟩ := ih x a
          obtain ⟨t2, ht2⟩ := ihl (dfsMarkGroup g color n x a)
          exact ⟨t1 ++ t2, by rw [ht2, ht1, List.append_assoc]⟩
        · rw [if_neg hc]
          exact ihl a
    obtain ⟨t, ht⟩ := fold (neighborCells pos) (maskSet acc.1 pos, acc.2 ++ [pos])
    exact ⟨pos :: t, by simp only [dfsMarkGroup]; rw [ht]; simp⟩

/-- A DFS started with an empty group accumulator and positive fuel returns a
group whose first element is the start cell. -/
lemma dfsMarkGroup_head (g : Grid) (color : Stone) (fuel : Nat) (pos : Position) (v : Nat) :
    ∃ t, (dfsMarkGroup g color (fuel + 1) pos (v, [])).2 = pos :: t := by
  have fold :
      ∀ (l : List Position) (a : Nat × List Position),
        ∃ t, (l.foldl
          (fun acc2 next =>
            if isValidPosition next ∧ ¬ maskGet acc2.1 next ∧ getCell g next = color then
              dfsMarkGroup g color fuel next acc2
            else acc2) a).2 = a.2 ++ t := by
    intro l
    induction l with
    | nil => exact fun a => ⟨[], by simp⟩
    | cons x xs ihl =>
      intro a
      simp only [List.foldl_cons]
      by_cases hc : isValidPosition x ∧ ¬ maskGet a.1 x ∧ getCell g x = color
      · rw [if_pos hc]
        obtain ⟨t1, ht1⟩ := dfsMarkGroup_append g color fuel x a
        obtain ⟨t2, ht2⟩ := ihl (dfsMarkGroup g color fuel x a)
        exact ⟨t1 ++ t2, by rw [ht2, ht1, List.append_assoc]⟩
      · rw [if_neg hc]
        exact ihl a
  obtain ⟨t, ht⟩ := fold (neighborCells pos) (maskSet v pos, [] ++ [pos])
  exact ⟨t, by simp only [dfsMarkGroup]; rw [ht]; simp⟩

lemma captureScanStep_inv (g0 : Grid) (kp0 : Position) (color : Stone)
    (acc : Grid × Nat × Nat × Position) (cell : Position)
    (hc : isValidPosition cell = true) (hi : ScanInv g0 kp0 color acc) :
    ScanInv g0 kp0 color (captureScanStep color acc cell) := by
  simp only [captureScanStep]
  by_cases h1 : getCell acc.1 cell = color ∧ ¬ maskGet acc.2.1 cell
  · rw [if_pos h1]
    set res := dfsMarkGroup acc.1 color dfsFuel cell (acc.2.1, []) with hres
    by_cases h2 : calculateGroupLiberties acc.1 res.2 = 0
    · rw [if_pos h2]
      obtain ⟨t, ht⟩ : ∃ t, res.2 = cell :: t := dfsMarkGroup_head acc.1 color 361 cell acc.2.1
      constructor
      · intro h0
        exfalso
        simp only at h0
        rw [ht] at h0
        simp only [List.length_cons] at h0
        omega
      · intro hone
        simp only at hone ⊢
        rw [ht] at hone
        simp only [List.length_cons] at hone
        have hlen : acc.2.2.1 = 0 ∧ t = [] := by
          constructor
          · omega
          · rcases t with _ | ⟨a, t2⟩
            · rfl
            · simp at hone; omega
        obtain ⟨hz, htnil⟩ := hlen
        obtain ⟨hg, _⟩ := hi.1 hz
        rw [ht, htnil]
        simp only [List.length_cons, List.length_nil, List.headD_cons, List.foldl_cons,
          List.foldl_nil, if_true]
        refine ⟨?_, ?_, hc⟩
        · rw [← hg]; exact h1.1
        · exact getCell_setCell_same _ _ _
    · rw [if_neg h2]
      exact hi
  · rw [if_neg h1]
    exact hi

lemma captureScan_fold_inv (g0 : Grid) (kp0 : Position) (color : Stone) :
    ∀ (cells : List Position) (acc : Grid × Nat × Nat × Position),
      (∀ c ∈ cells, isValidPosition c = true) →
      ScanInv g0 kp0 color acc →
      ScanInv g0 kp0 color (cells.foldl (captureScanStep color) acc) := by
  intro cells
  induction cells with
  | nil => exact fun acc _ hi => hi
  | cons x xs ih =>
    intro acc hval hi
    simp only [List.foldl_cons]
    exact ih _ (fun c hcmem => hval c (List.mem_cons_of_mem x hcmem))
      (captureScanStep_inv g0 kp0 color acc x (hval x (List.mem_cons_self x xs)) hi)

set_option maxRecDepth 20000 in
lemma allCells_valid : ∀ c ∈ allCells, isValidPosition c = true := by decide

lemma captureScan_spec (g0 : Grid) (kp0 : Position) (color : Stone) :
    ScanInv g0 kp0 color (captureScan g0 kp0 color) := by
  refine captureScan_fold_inv g0 kp0 color allCells (g0, 0, 0, kp0) allCells_valid ?_
  exact ⟨fun _ => ⟨rfl, rfl⟩, fun h => by simp at h⟩

/-- A `captureDeadStones` call that captures nothing leaves the board
unchanged. -/
lemma captureDeadStones_zero (b : Board) (c : Stone)
    (h : (captureDeadStones b c).2 = 0) :
    (captureDeadStones b c).1 = b := by
  have hs := captureScan_spec b.grid b.koPosition c
  simp only [captureDeadStones] at h ⊢
  obtain ⟨hg, hk⟩ := hs.1 h
  rw [hg, hk, h]
  rcases b with ⟨g, cp, lm, kp, ka, bc, wc, bl, wl, pv, cu, nx⟩
  simp

/-- A `captureDeadStones` call that captures exactly one stone records, as the
ko position, a valid cell that held a `c` stone before the call and is empty
after it. -/
lemma captureDeadStones_one (b : Board) (c : Stone)
    (h : (captureDeadStones b c).2 = 1) :
    getCell b.grid (captureDeadStones b c).1.koPosition = c ∧
    getCell (captureDeadStones b c).1.grid (captureDeadStones b c).1.koPosition = EMPTY ∧
    isValidPosition (captureDeadStones b c).1.koPosition = true := by
  have hs := captureScan_spec b.grid b.koPosition c
  simp only [captureDeadStones] at h ⊢
  exact hs.2 h

/-- A capture loop with total captured count 0 leaves the board unchanged. -/
lemma captureLoop_zero (c : Stone) (fuel : Nat) (b : Board)
    (h : (captureLoop c fuel b).2 = 0) :
    (captureLoop c fuel b).1 = b := by
  cases fuel with
  | zero => rfl
  | succ n =>
    simp only [captureLoop] at h ⊢
    split at h
    · next hpos => omega
    · next hzero =>
      rw [if_neg hzero]
      exact captureDeadStones_zero b c (by omega)

/-- A capture loop with total captured count 1 consists of one call capturing
exactly one stone followed by a vacuous call, so the resulting ko position is
a valid cell that held a `c` stone before the loop and is empty after it. -/
lemma captureLoop_one (c : Stone) (fuel : Nat) (b : Board)
    (h : (captureLoop c fuel b).2 = 1) :
    getCell b.grid (captureLoop c fuel b).1.koPosition = c ∧
    getCell (captureLoop c fuel b).1.grid (captureLoop c fuel b).1.koPosition = EMPTY ∧
    isValidPosition (captureLoop c fuel b).1.koPosition = true := by
  cases fuel with
  | zero => simp [captureLoop] at h
  | succ n =>
    simp only [captureLoop] at h ⊢
    split at h
    · next hpos =>
      have hcnt : (captureDeadStones b c).2 = 1 ∧ (captureLoop c n (captureDeadStones b c).1).2 = 0 := by
        omega
      have hrest := captureLoop_zero c n (captureDeadStones b c).1 hcnt.2
      rw [if_pos hpos, hrest]
      exact captureDeadStones_one b c hcnt.1
    · next hzero => omega

lemma capResult_koActive (b : Board) (pos : Position) :
    (capResult b pos).1.koActive = false := by
  have hp := captureLoop_preserves (opponentOf b.currentPlayer) dfsFuel (afterPlace b pos)
  simp only [capResult]
  rw [hp.2.2.1]
  simp

lemma placeStoneBody_koActive_true (b : Board) (pos : Position)
    (h1 : (capResult b pos).2 = 1)
    (h2 : koCondCheck (capResult b pos).1 pos = true) :
    (placeStoneBody b pos).koActive = true := by
  simp only [placeStoneBody, h1, h2]
  simp

lemma placeStoneBody_koActive_false (b : Board) (pos : Position)
    (h : ¬ ((capResult b pos).2 = 1 ∧ koCondCheck (capResult b pos).1 pos = true)) :
    (placeStoneBody b pos).koActive = false := by
  simp only [placeStoneBody]
  by_cases h1 : (capResult b pos).2 = 1
  · have h2 : koCondCheck (capResult b pos).1 pos = false := by
      cases hk : koCondCheck (capResult b pos).1 pos
      · rfl
      · exact absurd ⟨h1, hk⟩ h
    simp [h1, h2, capResult_koActive]
  · rw [if_neg h1]
    simp [capResult_koActive]

lemma placeStoneBody_koPosition (b : Board) (pos : Position) :
    (placeStoneBody b pos).koPosition = (capResult b pos).1.koPosition := by
  simp only [placeStoneBody]
  split
  · split <;> simp
  · simp

lemma placeStoneBody_grid (b : Board) (pos : Position) :
    (placeStoneBody b pos).grid = (capResult b pos).1.grid := by
  simp only [placeStoneBody]
  split
  · split <;> simp
  · simp

lemma opponentOf_ne (c : Stone) : opponentOf c ≠ c := by
  cases c <;> simp [opponentOf]

/-! ### Claim C2 -/

/-- C2: on every successful `placeStone`, if the move captured exactly one
opponent stone in total and the just-played stone's group then has size 1 and
exactly 1 liberty, the ko restriction is active afterwards at the captured
stone's position (an opponent stone before the move, an empty cell after it),
and both `isValidMove` and `placeStone` reject a play at that position on the
immediately following turn.  In every other successful move the ko restriction
is inactive after the move. -/
theorem placeStone_ko_rule (b : Board) (pos : Position)
    (h : isValidMove b pos = true) :
    ((capResult b pos).2 = 1 ∧ koCondCheck (capResult b pos).1 pos = true →
      (placeStone b pos).2.koActive = true ∧
      getCell b.grid (placeStone b pos).2.koPosition = opponentOf b.currentPlayer ∧
      getCell (placeStone b pos).2.grid (placeStone b pos).2.koPosition = EMPTY ∧
      isValidMove (placeStone b pos).2 (placeStone b pos).2.koPosition = false ∧
      placeStone (placeStone b pos).2 (placeStone b pos).2.koPosition =
        (false, (placeStone b pos).2)) ∧
    (¬ ((capResult b pos).2 = 1 ∧ koCondCheck (capResult b pos).1 pos = true) →
      (placeStone b pos).2.koActive = false) := by
  have hps : (placeStone b pos).2 = placeStoneBody b pos := by simp [placeStone, h]
  rw [hps]
  constructor
  · rintro ⟨h1, h2⟩
    have hko := placeStoneBody_koActive_true b pos h1 h2
    have hcap : capResult b pos =
        captureLoop (opponentOf b.currentPlayer) dfsFuel (afterPlace b pos) := rfl
    have h1' := h1
    rw [hcap] at h1'
    have hone := captureLoop_one (opponentOf b.currentPlayer) dfsFuel (afterPlace b pos) h1'
    rw [← hcap] at hone
    rw [placeStoneBody_koPosition, placeStoneBody_grid]
    set kp := (capResult b pos).1.koPosition with hkp
    have honeg : getCell (afterPlace b pos).grid kp = opponentOf b.currentPlayer := hone.1
    have hne : kp ≠ pos := by
      intro he
      rw [he, afterPlace_grid, getCell_setCell_same] at honeg
      exact opponentOf_ne b.currentPlayer honeg.symm
    have hpre : getCell b.grid kp = opponentOf b.currentPlayer := by
      rw [afterPlace_grid, getCell_setCell_ne _ _ _ _ hne] at honeg
      exact honeg
    have hempty : getCell (capResult b pos).1.grid kp = EMPTY := hone.2.1
    have hvalid : isValidPosition kp = true := hone.2.2
    have hkom : isKoMove (placeStoneBody b pos) kp = true := by
      simp only [isKoMove, hko]
      rw [placeStoneBody_koPosition, ← hkp]
      simp
    have hinv : isValidMove (placeStoneBody b pos) kp = false := by
      simp only [isValidMove, hvalid]
      rw [placeStoneBody_grid, hempty, hkom]
      simp
    exact ⟨hko, hpre, hempty, hinv, by simp [placeStone, hinv]⟩
  · intro hnot
    exact placeStoneBody_koActive_false b pos hnot

/-!
### Concrete-evaluation infrastructure

Whole-board scans cannot be evaluated in one lazy reduction (the 361-step
accumulator chain exceeds the elaborator's stack), so concrete instances are
computed segment by segment: cells whose scan step provably does nothing are
skipped in bulk, and the few cells that do something are evaluated
individually.
-/

/-- A fold over cells on which every step fixes the accumulator does
nothing. -/
lemma foldl_fix {α : Type} (f : α → Position → α) (acc : α) :
    ∀ (l : List Position), (∀ cell ∈ l, f acc cell = acc) → l.foldl f acc = acc := by
  intro l
  induction l with
  | nil => intro _; rfl
  | cons x xs ih =>
    intro h
    simp only [List.foldl_cons, h x (List.mem_cons_self x xs)]
    exact ih (fun c hc => h c (List.mem_cons_of_mem x hc))

/-- A capture-scan step at a cell that does not hold an unvisited stone of the
scanned colour leaves the accumulator unchanged. -/
lemma captureScanStep_skip (color : Stone) (acc : Grid × Nat × Nat × Position) (cell : Position)
    (h : getCell acc.1 cell = color → maskGet acc.2.1 cell = true) :
    captureScanStep color acc cell = acc := by
  simp only [captureScanStep]
  rw [if_neg]
  rintro ⟨h1, h2⟩
  exact h2 (h h1)

/-- Advance a capture-scan fold over a segment of skippable cells. -/
lemma captureScan_advance (color : Stone) (acc : Grid × Nat × Nat × Position)
    (l l2 : List Position) (hl : l = l2)
    (h : ∀ cell ∈ l2, getCell acc.1 cell = color → maskGet acc.2.1 cell = true) :
    l.foldl (captureScanStep color) acc = acc := by
  rw [hl]
  exact foldl_fix _ acc l2 (fun c hc => captureScanStep_skip color acc c (h c hc))

/-- `calculateLiberties` written with the named step (definitional). -/
lemma calculateLiberties_eq (b : Board) :
    calculateLiberties b =
      { b with
          blackLiberties := (allCells.foldl (libertyScanStep b.grid) (0, 0, 0)).2.1
          whiteLiberties := (allCells.foldl (libertyScanStep b.grid) (0, 0, 0)).2.2 } := rfl

/-- A liberty-scan step at a cell that does not hold an unvisited stone leaves
the accumulator unchanged. -/
lemma libertyScanStep_skip (g : Grid) (acc : Nat × Nat × Nat) (cell : Position)
    (h : getCell g cell = BLACK ∨ getCell g cell = WHITE → maskGet acc.1 cell = true) :
    libertyScanStep g acc cell = acc := by
  simp only [libertyScanStep]
  rw [if_neg]
  rintro ⟨h1, h2⟩
  exact h2 (h h1)

/-- Advance a liberty-scan fold over a segment of skippable cells. -/
lemma libertyScan_advance (g : Grid) (acc : Nat × Nat × Nat)
    (l l2 : List Position) (hl : l = l2)
    (h : ∀ cell ∈ l2, getCell g cell = BLACK ∨ getCell g cell = WHITE → maskGet acc.1 cell = true) :
    l.foldl (libertyScanStep g) acc = acc := by
  rw [hl]
  exact foldl_fix _ acc l2 (fun c hc => libertyScanStep_skip g acc c (h c hc))

/-- Split a cell list for a fold: process a first segment, then the rest. -/
lemma foldl_split {α : Type} (f : α → Position → α) (acc acc2 : α) (l l1 l2 : List Position)
    (hl : l = l1 ++ l2) (h1 : l1.foldl f acc = acc2) :
    l.foldl f acc = l2.foldl f acc2 := by
  subst hl
  rw [List.foldl_append, h1]

/-- Evaluate `captureDeadStones` from an evaluated scan. -/
lemma captureDeadStones_eval (b : Board) (c : Stone) (G2 : Grid) (vis cnt : Nat)
    (kp2 : Position)
    (hscan : captureScan b.grid b.koPosition c = (G2, vis, cnt, kp2)) :
    captureDeadStones b c =
      ({ b with
          grid := G2
          koPosition := kp2
          whiteCaptures := if c = BLACK then b.whiteCaptures + cnt else b.whiteCaptures
          blackCaptures := if c = WHITE then b.blackCaptures + cnt else b.blackCaptures },
        cnt) := by
  simp only [captureDeadStones, hscan]

/-- One unfolding of the capture loop. -/
lemma captureLoop_succ (c : Stone) (fuel : Nat) (b : Board) :
    captureLoop c (fuel + 1) b =
      if 0 < (captureDeadStones b c).2 then
        ((captureLoop c fuel (captureDeadStones b c).1).1,
          (captureDeadStones b c).2 + (captureLoop c fuel (captureDeadStones b c).1).2)
      else ((captureDeadStones b c).1, 0) := rfl

/-- Evaluate a capture loop whose first scan captures nothing. -/
lemma captureLoop_eval0 (c : Stone) (AP B2 : Board)
    (h1 : captureDeadStones AP c = (B2, 0)) :
    captureLoop c dfsFuel AP = (B2, 0) := by
  show captureLoop c (361 + 1) AP = (B2, 0)
  rw [captureLoop_succ, h1]
  simp

/-- Evaluate a capture loop whose first scan captures `k > 0` stones and whose
second scan captures nothing. -/
lemma captureLoop_eval2 (c : Stone) (AP B1 B2 : Board) (k : Nat) (hk : 0 < k)
    (h1 : captureDeadStones AP c = (B1, k))
    (h2 : captureDeadStones B1 c = (B2, 0)) :
    captureLoop c dfsFuel AP = (B2, k) := by
  show captureLoop c (361 + 1) AP = (B2, k)
  rw [captureLoop_succ, h1]
  rw [if_pos (show 0 < ((B1, k) : Board × Nat).2 from hk)]
  rw [show (361 : Nat) = 360 + 1 from rfl, captureLoop_succ, h2]
  simp

/-- Evaluate a successful `placeStone` from its evaluated stages.  `hko`
covers the witness instances, in which the ko condition never fires. -/
lemma placeStone_eval (b : Board) (pos : Position) (AP B2 : Board) (cnt : Nat)
    (vis bl wl : Nat)
    (hv : isValidMove b pos = true)
    (hAP : afterPlace b pos = AP)
    (hloop : captureLoop (opponentOf b.currentPlayer) dfsFuel AP = (B2, cnt))
    (hko : cnt = 1 → koCondCheck B2 pos = false)
    (hlib : allCells.foldl (libertyScanStep B2.grid) (0, 0, 0) = (vis, bl, wl)) :
    placeStone b pos = (true, finishMove B2 bl wl) := by
  have hcap : capResult b pos = (B2, cnt) := by
    simp only [capResult, hAP]
    exact hloop
  have hb3 :
      (if (capResult b pos).2 = 1 then
        if koCondCheck (capResult b pos).1 pos then
          { (capResult b pos).1 with koActive := true }
        else (capResult b pos).1
      else (capResult b pos).1) = B2 := by
    rw [hcap]
    by_cases hc : cnt = 1
    · rw [if_pos hc]
      simp only [hko hc]
      simp
    · rw [if_neg hc]
  simp only [placeStone, hv, if_true]
  refine Prod.ext rfl ?_
  show placeStoneBody b pos = finishMove B2 bl wl
  simp only [placeStoneBody]
  rw [hb3, calculateLiberties_eq, hlib]
  simp only [finishMove, saveBoardState, createHistoryNode]

/-- Split a dropped suffix once more (decomposition step for segmentwise fold
evaluation). -/
lemma drop_split {α : Type} (l : List α) (a k : Nat) :
    l.drop a = (l.drop a).take k ++ l.drop (a + k) := by
  conv_lhs => rw [← List.take_append_drop k (l.drop a)]
  congr 1
  rw [List.drop_drop]

lemma c3scan1a : captureScan (setCell emptyGrid ⟨2, 0⟩ BLACK) ⟨-1, -1⟩ WHITE =
    (setCell emptyGrid ⟨2, 0⟩ BLACK, 0, 0, (⟨-1, -1⟩ : Position)) := by
  show allCells.foldl (captureScanStep WHITE) (setCell emptyGrid ⟨2, 0⟩ BLACK, 0, 0, (⟨-1, -1⟩ : Position)) = _
  exact captureScan_advance WHITE _ _ allCells rfl (by decide)

lemma c3cds1a : captureDeadStones c3AP1 WHITE = (c3AP1, 0) :=
  (captureDeadStones_eval c3AP1 WHITE _ _ _ _ c3scan1a).trans (by rfl)

lemma c3loop1 : captureLoop WHITE dfsFuel c3AP1 = (c3AP1, 0) :=
  captureLoop_eval0 WHITE c3AP1 c3AP1 c3cds1a

lemma c3lib1 : allCells.foldl (libertyScanStep (setCell emptyGrid ⟨2, 0⟩ BLACK)) (0, 0, 0) =
    ((4 : Nat), (3 : Nat), (0 : Nat)) := by
  rw [foldl_split _ _ ((0 : Nat), (0 : Nat), (0 : Nat)) allCells (allCells.take 2) (allCells.drop 2)
    (by rw [List.take_append_drop]) (libertyScan_advance _ _ _ (allCells.take 2) rfl (by decide))]
  rw [show allCells.drop 2 = (⟨2, 0⟩ : Position) :: allCells.drop 3 from by decide]
  rw [List.foldl_cons]
  rw [show libertyScanStep (setCell emptyGrid ⟨2, 0⟩ BLACK) ((0 : Nat), (0 : Nat), (0 : Nat)) ⟨2, 0⟩ = ((4 : Nat), (3 : Nat), (0 : Nat)) from rfl]
  exact libertyScan_advance _ _ _ (allCells.drop 3) rfl (by decide)

lemma c3mv1 : placeStone initBoard ⟨2, 0⟩ = (true, finishMove c3AP1 3 0) :=
  placeStone_eval initBoard ⟨2, 0⟩ c3AP1 c3AP1 0 4 3 0
    (by decide) rfl c3loop1 (by intro h2; exact absurd h2 (by decide)) c3lib1

lemma c3mv1s : (placeStone initBoard ⟨2, 0⟩).2 = finishMove c3AP1 3 0 := by
  rw [c3mv1]

lemma c3scan2a : captureScan (setCell (setCell emptyGrid ⟨2, 0⟩ BLACK) ⟨1, 0⟩ WHITE) ⟨-1, -1⟩ BLACK =
    (setCell (setCell emptyGrid ⟨2, 0⟩ BLACK) ⟨1, 0⟩ WHITE, 4, 0, (⟨-1, -1⟩ : Position)) := by
  show allCells.foldl (captureScanStep BLACK) (setCell (setCell emptyGrid ⟨2, 0⟩ BLACK) ⟨1, 0⟩ WHITE, 0, 0, (⟨-1, -1⟩ : Position)) = _
  rw [foldl_split _ _ (setCell (setCell emptyGrid ⟨2, 0⟩ BLACK) ⟨1, 0⟩ WHITE, 0, 0, (⟨-1, -1⟩ : Position)) allCells (allCells.take 2) (allCells.drop 2)
    (by rw [List.take_append_drop]) (captureScan_advance BLACK _ _ (allCells.take 2) rfl (by decide))]
  rw [show allCells.drop 2 = (⟨2, 0⟩ : Position) :: allCells.drop 3 from by decide]
  rw [List.foldl_cons]
  rw [show captureScanStep BLACK (setCell (setCell emptyGrid ⟨2, 0⟩ BLACK) ⟨1, 0⟩ WHITE, 0, 0, (⟨-1, -1⟩ : Position)) ⟨2, 0⟩ = (setCell (setCell emptyGrid ⟨2, 0⟩ BLACK) ⟨1, 0⟩ WHITE, 4, 0, (⟨-1, -1⟩ : Position)) from rfl]
  exact captureScan_advance BLACK _ _ (allCells.drop 3) rfl (by decide)

lemma c3cds2a : captureDeadStones c3AP2 BLACK = (c3AP2, 0) :=
  (captureDeadStones_eval c3AP2 BLACK _ _ _ _ c3scan2a).trans (by rfl)

lemma c3loop2 : captureLoop BLACK dfsFuel c3AP2 = (c3AP2, 0) :=
  captureLoop_eval0 BLACK c3AP2 c3AP2 c3cds2a

lemma c3lib2 : allCells.foldl (libertyScanStep (setCell (setCell emptyGrid ⟨2, 0⟩ BLACK) ⟨1, 0⟩ WHITE)) (0, 0, 0) =
    ((6 : Nat), (2 : Nat), (2 : Nat)) := by
  rw [foldl_split _ _ ((0 : Nat), (0 : Nat), (0 : Nat)) allCells (allCells.take 1) (allCells.drop 1)
    (by rw [List.take_append_drop]) (libertyScan_advance _ _ _ (allCells.take 1) rfl (by decide))]
  rw [show allCells.drop 1 = (⟨1, 0⟩ : Position) :: allCells.drop 2 from by decide]
  rw [List.foldl_cons]
  rw [show libertyScanStep (setCell (setCell emptyGrid ⟨2, 0⟩ BLACK) ⟨1, 0⟩ WHITE) ((0 : Nat), (0 : Nat), (0 : Nat)) ⟨1, 0⟩ = ((2 : Nat), (0 : Nat), (2 : Nat)) from rfl]
  rw [show allCells.drop 2 = (⟨2, 0⟩ : Position) :: allCells.drop 3 from by decide]
  rw [List.foldl_cons]
  rw [show libertyScanStep (setCell (setCell emptyGrid ⟨2, 0⟩ BLACK) ⟨1, 0⟩ WHITE) ((2 : Nat), (0 : Nat), (2 : Nat)) ⟨2, 0⟩ = ((6 : Nat), (2 : Nat), (2 : Nat)) from rfl]
  exact libertyScan_advance _ _ _ (allCells.drop 3) rfl (by decide)

lemma c3mv2 : placeStone (finishMove c3AP1 3 0) ⟨1, 0⟩ = (true, finishMove c3AP2 2 2) :=
  placeStone_eval (finishMove c3AP1 3 0) ⟨1, 0⟩ c3AP2 c3AP2 0 6 2 2
    (by decide) rfl c3loop2 (by intro h2; exact absurd h2 (by decide)) c3lib2

lemma c3mv2s : (placeStone (finishMove c3AP1 3 0) ⟨1, 0⟩).2 = finishMove c3AP2 2 2 := by
  rw [c3mv2]

lemma c3scan3a : captureScan (setCell (setCell (setCell emptyGrid ⟨2, 0⟩ BLACK) ⟨1, 0⟩ WHITE) ⟨1, 1⟩ BLACK) ⟨-1, -1⟩ WHITE =
    (setCell (setCell (setCell emptyGrid ⟨2, 0⟩ BLACK) ⟨1, 0⟩ WHITE) ⟨1, 1⟩ BLACK, 2, 0, (⟨-1, -1⟩ : Position)) := by
  show allCells.foldl (captureScanStep WHITE) (setCell (setCell (setCell emptyGrid ⟨2, 0⟩ BLACK) ⟨1, 0⟩ WHITE) ⟨1, 1⟩ BLACK, 0, 0, (⟨-1, -1⟩ : Position)) = _
  rw [foldl_split _ _ (setCell (setCell (setCell emptyGrid ⟨2, 0⟩ BLACK) ⟨1, 0⟩ WHITE) ⟨1, 1⟩ BLACK, 0, 0, (⟨-1, -1⟩ : Position)) allCells (allCells.take 1) (allCells.drop 1)
    (by rw [List.take_append_drop]) (captureScan_advance WHITE _ _ (allCells.take 1) rfl (by decide))]
  rw [show allCells.drop 1 = (⟨1, 0⟩ : Position) :: allCells.drop 2 from by decide]
  rw [List.foldl_cons]
  rw [show captureScanStep WHITE (setCell (setCell (setCell emptyGrid ⟨2, 0⟩ BLACK) ⟨1, 0⟩ WHITE) ⟨1, 1⟩ BLACK, 0, 0, (⟨-1, -1⟩ : Position)) ⟨1, 0⟩ = (setCell (setCell (setCell emptyGrid ⟨2, 0⟩ BLACK) ⟨1, 0⟩ WHITE) ⟨1, 1⟩ BLACK, 2, 0, (⟨-1, -1⟩ : Position)) from rfl]
  exact captureScan_advance WHITE _ _ (allCells.drop 2) rfl (by decide)

lemma c3cds3a : captureDeadStones c3AP3 WHITE = (c3AP3, 0) :=
  (captureDeadStones_eval c3AP3 WHITE _ _ _ _ c3scan3a).trans (by rfl)

lemma c3loop3 : captureLoop WHITE dfsFuel c3AP3 = (c3AP3, 0) :=
  captureLoop_eval0 WHITE c3AP3 c3AP3 c3cds3a

lemma c3lib3 : allCells.foldl (libertyScanStep (setCell (setCell (setCell emptyGrid ⟨2, 0⟩ BLACK) ⟨1, 0⟩ WHITE) ⟨1, 1⟩ BLACK)) (0, 0, 0) =
    ((1048582 : Nat), (5 : Nat), (1 : Nat)) := by
  rw [foldl_split _ _ ((0 : Nat), (0 : Nat), (0 : Nat)) allCells (allCells.take 1) (allCells.drop 1)
    (by rw [List.take_append_drop]) (libertyScan_advance _ _ _ (allCells.take 1) rfl (by decide))]
  rw [show allCells.drop 1 = (⟨1, 0⟩ : Position) :: allCells.drop 2 from by decide]
  rw [List.foldl_cons]
  rw [show libertyScanStep (setCell (setCell (setCell emptyGrid ⟨2, 0⟩ BLACK) ⟨1, 0⟩ WHITE) ⟨1, 1⟩ BLACK) ((0 : Nat), (0 : Nat), (0 : Nat)) ⟨1, 0⟩ = ((2 : Nat), (0 : Nat), (1 : Nat)) from rfl]
  rw [show allCells.drop 2 = (⟨2, 0⟩ : Position) :: allCells.drop 3 from by decide]
  rw [List.foldl_cons]
  rw [show libertyScanStep (setCell (setCell (setCell emptyGrid ⟨2, 0⟩ BLACK) ⟨1, 0⟩ WHITE) ⟨1, 1⟩ BLACK) ((2 : Nat), (0 : Nat), (1 : Nat)) ⟨2, 0⟩ = ((6 : Nat), (2 : Nat), (1 : Nat)) from rfl]
  rw [foldl_split _ _ ((6 : Nat), (2 : Nat), (1 : Nat)) (allCells.drop 3) ((allCells.drop 3).take 17) (allCells.drop 20)
    (drop_split allCells 3 17) (libertyScan_advance _ _ _ ((allCells.drop 3).take 17) rfl (by decide))]
  rw [show allCells.drop 20 = (⟨1, 1⟩ : Position) :: allCells.drop 21 from by decide]
  rw [List.foldl_cons]
  rw [show libertyScanStep (setCell (setCell (setCell emptyGrid ⟨2, 0⟩ BLACK) ⟨1, 0⟩ WHITE) ⟨1, 1⟩ BLACK) ((6 : Nat), (2 : Nat), (1 : Nat)) ⟨1, 1⟩ = ((1048582 : Nat), (5 : Nat), (1 : Nat)) from rfl]
  exact libertyScan_advance _ _ _ (allCells.drop 21) rfl (by decide)

lemma c3mv3 : placeStone (finishMove c3AP2 2 2) ⟨1, 1⟩ = (true, finishMove c3AP3 5 1) :=
  placeStone_eval (finishMove c3AP2 2 2) ⟨1, 1⟩ c3AP3 c3AP3 0 1048582 5 1
    (by decide) rfl c3loop3 (by intro h2; exact absurd h2 (by decide)) c3lib3

lemma c3mv3s : (placeStone (finishMove c3AP2 2 2) ⟨1, 1⟩).2 = finishMove c3AP3 5 1 := by
  rw [c3mv3]

lemma c3scan4a : captureScan (setCell (setCell (setCell (setCell emptyGrid ⟨2, 0⟩ BLACK) ⟨1, 0⟩ WHITE) ⟨1, 1⟩ BLACK) ⟨0, 1⟩ WHITE) ⟨-1, -1⟩ BLACK =
    (setCell (setCell (setCell (setCell emptyGrid ⟨2, 0⟩ BLACK) ⟨1, 0⟩ WHITE) ⟨1, 1⟩ BLACK) ⟨0, 1⟩ WHITE, 1048580, 0, (⟨-1, -1⟩ : Position)) := by
  show allCells.foldl (captureScanStep BLACK) (setCell (setCell (setCell (setCell emptyGrid ⟨2, 0⟩ BLACK) ⟨1, 0⟩ WHITE) ⟨1, 1⟩ BLACK) ⟨0, 1⟩ WHITE, 0, 0, (⟨-1, -1⟩ : Position)) = _
  rw [foldl_split _ _ (setCell (setCell (setCell (setCell emptyGrid ⟨2, 0⟩ BLACK) ⟨1, 0⟩ WHITE) ⟨1, 1⟩ BLACK) ⟨0, 1⟩ WHITE, 0, 0, (⟨-1, -1⟩ : Position)) allCells (allCells.take 2) (allCells.drop 2)
    (by rw [List.take_append_drop]) (captureScan_advance BLACK _ _ (allCells.take 2) rfl (by decide))]
  rw [show allCells.drop 2 = (⟨2, 0⟩ : Position) :: allCells.drop 3 from by decide]
  rw [List.foldl_cons]
  rw [show captureScanStep BLACK (setCell (setCell (setCell (setCell emptyGrid ⟨2, 0⟩ BLACK) ⟨1, 0⟩ WHITE) ⟨1, 1⟩ BLACK) ⟨0, 1⟩ WHITE, 0, 0, (⟨-1, -1⟩ : Position)) ⟨2, 0⟩ = (setCell (setCell (setCell (setCell emptyGrid ⟨2, 0⟩ BLACK) ⟨1, 0⟩ WHITE) ⟨1, 1⟩ BLACK) ⟨0, 1⟩ WHITE, 4, 0, (⟨-1, -1⟩ : Position)) from rfl]
  rw [foldl_split _ _ (setCell (setCell (setCell (setCell emptyGrid ⟨2, 0⟩ BLACK) ⟨1, 0⟩ WHITE) ⟨1, 1⟩ BLACK) ⟨0, 1⟩ WHITE, 4, 0, (⟨-1, -1⟩ : Position)) (allCells.drop 3) ((allCells.drop 3).take 17) (allCells.drop 20)
    (drop_split allCells 3 17) (captureScan_advance BLACK _ _ ((allCells.drop 3).take 17) rfl (by decide))]
  rw [show allCells.drop 20 = (⟨1, 1⟩ : Position) :: allCells.drop 21 from by decide]
  rw [List.foldl_cons]
  rw [show captureScanStep BLACK (setCell (setCell (setCell (setCell emptyGrid ⟨2, 0⟩ BLACK) ⟨1, 0⟩ WHITE) ⟨1, 1⟩ BLACK) ⟨0, 1⟩ WHITE, 4, 0, (⟨-1, -1⟩ : Position)) ⟨1, 1⟩ = (setCell (setCell (setCell (setCell emptyGrid ⟨2, 0⟩ BLACK) ⟨1, 0⟩ WHITE) ⟨1, 1⟩ BLACK) ⟨0, 1⟩ WHITE, 1048580, 0, (⟨-1, -1⟩ : Position)) from rfl]
  exact captureScan_advance BLACK _ _ (allCells.drop 21) rfl (by decide)

lemma c3cds4a : captureDeadStones c3AP4 BLACK = (c3AP4, 0) :=
  (captureDeadStones_eval c3AP4 BLACK _ _ _ _ c3scan4a).trans (by rfl)

lemma c3loop4 : captureLoop BLACK dfsFuel c3AP4 = (c3AP4, 0) :=
  captureLoop_eval0 BLACK c3AP4 c3AP4 c3cds4a

lemma c3lib4 : allCells.foldl (libertyScanStep (setCell (setCell (setCell (setCell emptyGrid ⟨2, 0⟩ BLACK) ⟨1, 0⟩ WHITE) ⟨1, 1⟩ BLACK) ⟨0, 1⟩ WHITE)) (0, 0, 0) =
    ((1572870 : Nat), (4 : Nat), (3 : Nat)) := by
  rw [foldl_split _ _ ((0 : Nat), (0 : Nat), (0 : Nat)) allCells (allCells.take 1) (allCells.drop 1)
    (by rw [List.take_append_drop]) (libertyScan_advance _ _ _ (allCells.take 1) rfl (by decide))]
  rw [show allCells.drop 1 = (⟨1, 0⟩ : Position) :: allCells.drop 2 from by decide]
  rw [List.foldl_cons]
  rw [show libertyScanStep (setCell (setCell (setCell (setCell emptyGrid ⟨2, 0⟩ BLACK) ⟨1, 0⟩ WHITE) ⟨1, 1⟩ BLACK) ⟨0, 1⟩ WHITE) ((0 : Nat), (0 : Nat), (0 : Nat)) ⟨1, 0⟩ = ((2 : Nat), (0 : Nat), (1 : Nat)) from rfl]
  rw [show allCells.drop 2 = (⟨2, 0⟩ : Position) :: allCells.drop 3 from by decide]
  rw [List.foldl_cons]
  rw [show libertyScanStep (setCell (setCell (setCell (setCell emptyGrid ⟨2, 0⟩ BLACK) ⟨1, 0⟩ WHITE) ⟨1, 1⟩ BLACK) ⟨0, 1⟩ WHITE) ((2 : Nat), (0 : Nat), (1 : Nat)) ⟨2, 0⟩ = ((6 : Nat), (2 : Nat), (1 : Nat)) from rfl]
  rw [foldl_split _ _ ((6 : Nat), (2 : Nat), (1 : Nat)) (allCells.drop 3) ((allCells.drop 3).take 16) (allCells.drop 19)
    (drop_split allCells 3 16) (libertyScan_advance _ _ _ ((allCells.drop 3).take 16) rfl (by decide))]
  rw [show allCells.drop 19 = (⟨0, 1⟩ : Position) :: allCells.drop 20 from by decide]
  rw [List.foldl_cons]
  rw [show libertyScanStep (setCell (setCell (setCell (setCell emptyGrid ⟨2, 0⟩ BLACK) ⟨1, 0⟩ WHITE) ⟨1, 1⟩ BLACK) ⟨0, 1⟩ WHITE) ((6 : Nat), (2 : Nat), (1 : Nat)) ⟨0, 1⟩ = ((524294 : Nat), (2 : Nat), (3 : Nat)) from rfl]
  rw [show allCells.drop 20 = (⟨1, 1⟩ : Position) :: allCells.drop 21 from by decide]
  rw [List.foldl_cons]
  rw [show libertyScanStep (setCell (setCell (setCell (setCell emptyGrid ⟨2, 0⟩ BLACK) ⟨1, 0⟩ WHITE) ⟨1, 1⟩ BLACK) ⟨0, 1⟩ WHITE) ((524294 : Nat), (2 : Nat), (3 : Nat)) ⟨1, 1⟩ = ((1572870 : Nat), (4 : Nat), (3 : Nat)) from rfl]
  exact libertyScan_advance _ _ _ (allCells.drop 21) rfl (by decide)

lemma c3mv4 : placeStone (finishMove c3AP3 5 1) ⟨0, 1⟩ = (true, finishMove c3AP4 4 3) :=
  placeStone_eval (finishMove c3AP3 5 1) ⟨0, 1⟩ c3AP4 c3AP4 0 1572870 4 3
    (by decide) rfl c3loop4 (by intro h2; exact absurd h2 (by decide)) c3lib4

lemma c3mv4s : (placeStone (finishMove c3AP3 5 1) ⟨0, 1⟩).2 = finishMove c3AP4 4 3 := by
  rw [c3mv4]

lemma c3app1 : applyMoves initBoard [⟨2, 0⟩, ⟨1, 0⟩, ⟨1, 1⟩, ⟨0, 1⟩] = (finishMove c3AP4 4 3) := by
  simp only [applyMoves, List.foldl_cons, List.foldl_nil]
  rw [c3mv1s, c3mv2s, c3mv3s, c3mv4s]

lemma c7scan5a : captureScan (setCell emptyGrid ⟨1, 0⟩ BLACK) ⟨-1, -1⟩ WHITE =
    (setCell emptyGrid ⟨1, 0⟩ BLACK, 0, 0, (⟨-1, -1⟩ : Position)) := by
  show allCells.foldl (captureScanStep WHITE) (setCell emptyGrid ⟨1, 0⟩ BLACK, 0, 0, (⟨-1, -1⟩ : Position)) = _
  exact captureScan_advance WHITE _ _ allCells rfl (by decide)

lemma c7cds5a : captureDeadStones c7AP5 WHITE = (c7AP5, 0) :=
  (captureDeadStones_eval c7AP5 WHITE _ _ _ _ c7scan5a).trans (by rfl)

lemma c7loop5 : captureLoop WHITE dfsFuel c7AP5 = (c7AP5, 0) :=
  captureLoop_eval0 WHITE c7AP5 c7AP5 c7cds5a

lemma c7lib5 : allCells.foldl (libertyScanStep (setCell emptyGrid ⟨1, 0⟩ BLACK)) (0, 0, 0) =
    ((2 : Nat), (3 : Nat), (0 : Nat)) := by
  rw [foldl_split _ _ ((0 : Nat), (0 : Nat), (0 : Nat)) allCells (allCells.take 1) (allCells.drop 1)
    (by rw [List.take_append_drop]) (libertyScan_advance _ _ _ (allCells.take 1) rfl (by decide))]
  rw [show allCells.drop 1 = (⟨1, 0⟩ : Position) :: allCells.drop 2 from by decide]
  rw [List.foldl_cons]
  rw [show libertyScanStep (setCell emptyGrid ⟨1, 0⟩ BLACK) ((0 : Nat), (0 : Nat), (0 : Nat)) ⟨1, 0⟩ = ((2 : Nat), (3 : Nat), (0 : Nat)) from rfl]
  exact libertyScan_advance _ _ _ (allCells.drop 2) rfl (by decide)

lemma c7mv5 : placeStone initBoard ⟨1, 0⟩ = (true, finishMove c7AP5 3 0) :=
  placeStone_eval initBoard ⟨1, 0⟩ c7AP5 c7AP5 0 2 3 0
    (by decide) rfl c7loop5 (by intro h2; exact absurd h2 (by decide)) c7lib5

lemma c7mv5s : (placeStone initBoard ⟨1, 0⟩).2 = finishMove c7AP5 3 0 := by
  rw [c7mv5]

lemma c7scan6a : captureScan (setCell (setCell emptyGrid ⟨1, 0⟩ BLACK) ⟨0, 0⟩ WHITE) ⟨-1, -1⟩ BLACK =
    (setCell (setCell emptyGrid ⟨1, 0⟩ BLACK) ⟨0, 0⟩ WHITE, 2, 0, (⟨-1, -1⟩ : Position)) := by
  show allCells.foldl (captureScanStep BLACK) (setCell (setCell emptyGrid ⟨1, 0⟩ BLACK) ⟨0, 0⟩ WHITE, 0, 0, (⟨-1, -1⟩ : Position)) = _
  rw [foldl_split _ _ (setCell (setCell emptyGrid ⟨1, 0⟩ BLACK) ⟨0, 0⟩ WHITE, 0, 0, (⟨-1, -1⟩ : Position)) allCells (allCells.take 1) (allCells.drop 1)
    (by rw [List.take_append_drop]) (captureScan_advance BLACK _ _ (allCells.take 1) rfl (by decide))]
  rw [show allCells.drop 1 = (⟨1, 0⟩ : Position) :: allCells.drop 2 from by decide]
  rw [List.foldl_cons]
  rw [show captureScanStep BLACK (setCell (setCell emptyGrid ⟨1, 0⟩ BLACK) ⟨0, 0⟩ WHITE, 0, 0, (⟨-1, -1⟩ : Position)) ⟨1, 0⟩ = (setCell (setCell emptyGrid ⟨1, 0⟩ BLACK) ⟨0, 0⟩ WHITE, 2, 0, (⟨-1, -1⟩ : Position)) from rfl]
  exact captureScan_advance BLACK _ _ (allCells.drop 2) rfl (by decide)

lemma c7cds6a : captureDeadStones c7AP6 BLACK = (c7AP6, 0) :=
  (captureDeadStones_eval c7AP6 BLACK _ _ _ _ c7scan6a).trans (by rfl)

lemma c7loop6 : captureLoop BLACK dfsFuel c7AP6 = (c7AP6, 0) :=
  captureLoop_eval0 BLACK c7AP6 c7AP6 c7cds6a

lemma c7lib6 : allCells.foldl (libertyScanStep (setCell (setCell emptyGrid ⟨1, 0⟩ BLACK) ⟨0, 0⟩ WHITE)) (0, 0, 0) =
    ((3 : Nat), (2 : Nat), (1 : Nat)) := by
  rw [show allCells = (⟨0, 0⟩ : Position) :: allCells.drop 1 from by decide]
  rw [List.foldl_cons]
  rw [show libertyScanStep (setCell (setCell emptyGrid ⟨1, 0⟩ BLACK) ⟨0, 0⟩ WHITE) ((0 : Nat), (0 : Nat), (0 : Nat)) ⟨0, 0⟩ = ((1 : Nat), (0 : Nat), (1 : Nat)) from rfl]
  rw [show allCells.drop 1 = (⟨1, 0⟩ : Position) :: allCells.drop 2 from by decide]
  rw [List.foldl_cons]
  rw [show libertyScanStep (setCell (setCell emptyGrid ⟨1, 0⟩ BLACK) ⟨0, 0⟩ WHITE) ((1 : Nat), (0 : Nat), (1 : Nat)) ⟨1, 0⟩ = ((3 : Nat), (2 : Nat), (1 : Nat)) from rfl]
  exact libertyScan_advance _ _ _ (allCells.drop 2) rfl (by decide)

lemma c7mv6 : placeStone (finishMove c7AP5 3 0) ⟨0, 0⟩ = (true, finishMove c7AP6 2 1) :=
  placeStone_eval (finishMove c7AP5 3 0) ⟨0, 0⟩ c7AP6 c7AP6 0 3 2 1
    (by decide) rfl c7loop6 (by intro h2; exact absurd h2 (by decide)) c7lib6

lemma c7mv6s : (placeStone (finishMove c7AP5 3 0) ⟨0, 0⟩).2 = finishMove c7AP6 2 1 := by
  rw [c7mv6]

lemma c7scan7a : captureScan (setCell (setCell (setCell emptyGrid ⟨1, 0⟩ BLACK) ⟨0, 0⟩ WHITE) ⟨1, 1⟩ BLACK) ⟨-1, -1⟩ WHITE =
    (setCell (setCell (setCell emptyGrid ⟨1, 0⟩ BLACK) ⟨0, 0⟩ WHITE) ⟨1, 1⟩ BLACK, 1, 0, (⟨-1, -1⟩ : Position)) := by
  show allCells.foldl (captureScanStep WHITE) (setCell (setCell (setCell emptyGrid ⟨1, 0⟩ BLACK) ⟨0, 0⟩ WHITE) ⟨1, 1⟩ BLACK, 0, 0, (⟨-1, -1⟩ : Position)) = _
  rw [show allCells = (⟨0, 0⟩ : Position) :: allCells.drop 1 from by decide]
  rw [List.foldl_cons]
  rw [show captureScanStep WHITE (setCell (setCell (setCell emptyGrid ⟨1, 0⟩ BLACK) ⟨0, 0⟩ WHITE) ⟨1, 1⟩ BLACK, 0, 0, (⟨-1, -1⟩ : Position)) ⟨0, 0⟩ = (setCell (setCell (setCell emptyGrid ⟨1, 0⟩ BLACK) ⟨0, 0⟩ WHITE) ⟨1, 1⟩ BLACK, 1, 0, (⟨-1, -1⟩ : Position)) from rfl]
  exact captureScan_advance WHITE _ _ (allCells.drop 1) rfl (by decide)

lemma c7cds7a : captureDeadStones c7AP7 WHITE = (c7AP7, 0) :=
  (captureDeadStones_eval c7AP7 WHITE _ _ _ _ c7scan7a).trans (by rfl)

lemma c7loop7 : captureLoop WHITE dfsFuel c7AP7 = (c7AP7, 0) :=
  captureLoop_eval0 WHITE c7AP7 c7AP7 c7cds7a

lemma c7lib7 : allCells.foldl (libertyScanStep (setCell (setCell (setCell emptyGrid ⟨1, 0⟩ BLACK) ⟨0, 0⟩ WHITE) ⟨1, 1⟩ BLACK)) (0, 0, 0) =
    ((1048579 : Nat), (4 : Nat), (1 : Nat)) := by
  rw [show allCells = (⟨0, 0⟩ : Position) :: allCells.drop 1 from by decide]
  rw [List.foldl_cons]
  rw [show libertyScanStep (setCell (setCell (setCell emptyGrid ⟨1, 0⟩ BLACK) ⟨0, 0⟩ WHITE) ⟨1, 1⟩ BLACK) ((0 : Nat), (0 : Nat), (0 : Nat)) ⟨0, 0⟩ = ((1 : Nat), (0 : Nat), (1 : Nat)) from rfl]
  rw [show allCells.drop 1 = (⟨1, 0⟩ : Position) :: allCells.drop 2 from by decide]
  rw [List.foldl_cons]
  rw [show libertyScanStep (setCell (setCell (setCell emptyGrid ⟨1, 0⟩ BLACK) ⟨0, 0⟩ WHITE) ⟨1, 1⟩ BLACK) ((1 : Nat), (0 : Nat), (1 : Nat)) ⟨1, 0⟩ = ((1048579 : Nat), (4 : Nat), (1 : Nat)) from rfl]
  exact libertyScan_advance _ _ _ (allCells.drop 2) rfl (by decide)

lemma c7mv7 : placeStone (finishMove c7AP6 2 1) ⟨1, 1⟩ = (true, finishMove c7AP7 4 1) :=
  placeStone_eval (finishMove c7AP6 2 1) ⟨1, 1⟩ c7AP7 c7AP7 0 1048579 4 1
    (by decide) rfl c7loop7 (by intro h2; exact absurd h2 (by decide)) c7lib7

lemma c7mv7s : (placeStone (finishMove c7AP6 2 1) ⟨1, 1⟩).2 = finishMove c7AP7 4 1 := by
  rw [c7mv7]

lemma c7scan8a : captureScan (setCell (setCell (setCell (setCell emptyGrid ⟨1, 0⟩ BLACK) ⟨0, 0⟩ WHITE) ⟨1, 1⟩ BLACK) ⟨0, 1⟩ WHITE) ⟨-1, -1⟩ BLACK =
    (setCell (setCell (setCell (setCell emptyGrid ⟨1, 0⟩ BLACK) ⟨0, 0⟩ WHITE) ⟨1, 1⟩ BLACK) ⟨0, 1⟩ WHITE, 1048578, 0, (⟨-1, -1⟩ : Position)) := by
  show allCells.foldl (captureScanStep BLACK) (setCell (setCell (setCell (setCell emptyGrid ⟨1, 0⟩ BLACK) ⟨0, 0⟩ WHITE) ⟨1, 1⟩ BLACK) ⟨0, 1⟩ WHITE, 0, 0, (⟨-1, -1⟩ : Position)) = _
  rw [foldl_split _ _ (setCell (setCell (setCell (setCell emptyGrid ⟨1, 0⟩ BLACK) ⟨0, 0⟩ WHITE) ⟨1, 1⟩ BLACK) ⟨0, 1⟩ WHITE, 0, 0, (⟨-1, -1⟩ : Position)) allCells (allCells.take 1) (allCells.drop 1)
    (by rw [List.take_append_drop]) (captureScan_advance BLACK _ _ (allCells.take 1) rfl (by decide))]
  rw [show allCells.drop 1 = (⟨1, 0⟩ : Position) :: allCells.drop 2 from by decide]
  rw [List.foldl_cons]
  rw [show captureScanStep BLACK (setCell (setCell (setCell (setCell emptyGrid ⟨1, 0⟩ BLACK) ⟨0, 0⟩ WHITE) ⟨1, 1⟩ BLACK) ⟨0, 1⟩ WHITE, 0, 0, (⟨-1, -1⟩ : Position)) ⟨1, 0⟩ = (setCell (setCell (setCell (setCell emptyGrid ⟨1, 0⟩ BLACK) ⟨0, 0⟩ WHITE) ⟨1, 1⟩ BLACK) ⟨0, 1⟩ WHITE, 1048578, 0, (⟨-1, -1⟩ : Position)) from rfl]
  exact captureScan_advance BLACK _ _ (allCells.drop 2) rfl (by decide)

lemma c7cds8a : captureDeadStones c7AP8 BLACK = (c7AP8, 0) :=
  (captureDeadStones_eval c7AP8 BLACK _ _ _ _ c7scan8a).trans (by rfl)

lemma c7loop8 : captureLoop BLACK dfsFuel c7AP8 = (c7AP8, 0) :=
  captureLoop_eval0 BLACK c7AP8 c7AP8 c7cds8a

lemma c7lib8 : allCells.foldl (libertyScanStep (setCell (setCell (setCell (setCell emptyGrid ⟨1, 0⟩ BLACK) ⟨0, 0⟩ WHITE) ⟨1, 1⟩ BLACK) ⟨0, 1⟩ WHITE)) (0, 0, 0) =
    ((1572867 : Nat), (3 : Nat), (1 : Nat)) := by
  rw [show allCells = (⟨0, 0⟩ : Position) :: allCells.drop 1 from by decide]
  rw [List.foldl_cons]
  rw [show libertyScanStep (setCell (setCell (setCell (setCell emptyGrid ⟨1, 0⟩ BLACK) ⟨0, 0⟩ WHITE) ⟨1, 1⟩ BLACK) ⟨0, 1⟩ WHITE) ((0 : Nat), (0 : Nat), (0 : Nat)) ⟨0, 0⟩ = ((524289 : Nat), (0 : Nat), (1 : Nat)) from rfl]
  rw [show allCells.drop 1 = (⟨1, 0⟩ : Position) :: allCells.drop 2 from by decide]
  rw [List.foldl_cons]
  rw [show libertyScanStep (setCell (setCell (setCell (setCell emptyGrid ⟨1, 0⟩ BLACK) ⟨0, 0⟩ WHITE) ⟨1, 1⟩ BLACK) ⟨0, 1⟩ WHITE) ((524289 : Nat), (0 : Nat), (1 : Nat)) ⟨1, 0⟩ = ((1572867 : Nat), (3 : Nat), (1 : Nat)) from rfl]
  exact libertyScan_advance _ _ _ (allCells.drop 2) rfl (by decide)

lemma c7mv8 : placeStone (finishMove c7AP7 4 1) ⟨0, 1⟩ = (true, finishMove c7AP8 3 1) :=
  placeStone_eval (finishMove c7AP7 4 1) ⟨0, 1⟩ c7AP8 c7AP8 0 1572867 3 1
    (by decide) rfl c7loop8 (by intro h2; exact absurd h2 (by decide)) c7lib8

lemma c7mv8s : (placeStone (finishMove c7AP7 4 1) ⟨0, 1⟩).2 = finishMove c7AP8 3 1 := by
  rw [c7mv8]

lemma c7scan9a : captureScan (setCell (setCell (setCell (setCell (setCell emptyGrid ⟨1, 0⟩ BLACK) ⟨0, 0⟩ WHITE) ⟨1, 1⟩ BLACK) ⟨0, 1⟩ WHITE) ⟨0, 2⟩ BLACK) ⟨-1, -1⟩ WHITE =
    (setCell (setCell (setCell (setCell (setCell (setCell (setCell emptyGrid ⟨1, 0⟩ BLACK) ⟨0, 0⟩ WHITE) ⟨1, 1⟩ BLACK) ⟨0, 1⟩ WHITE) ⟨0, 2⟩ BLACK) ⟨0, 0⟩ EMPTY) ⟨0, 1⟩ EMPTY, 524289, 2, (⟨-1, -1⟩ : Position)) := by
  show allCells.foldl (captureScanStep WHITE) (setCell (setCell (setCell (setCell (setCell emptyGrid ⟨1, 0⟩ BLACK) ⟨0, 0⟩ WHITE) ⟨1, 1⟩ BLACK) ⟨0, 1⟩ WHITE) ⟨0, 2⟩ BLACK, 0, 0, (⟨-1, -1⟩ : Position)) = _
  rw [show allCells = (⟨0, 0⟩ : Position) :: allCells.drop 1 from by decide]
  rw [List.foldl_cons]
  rw [show captureScanStep WHITE (setCell (setCell (setCell (setCell (setCell emptyGrid ⟨1, 0⟩ BLACK) ⟨0, 0⟩ WHITE) ⟨1, 1⟩ BLACK) ⟨0, 1⟩ WHITE) ⟨0, 2⟩ BLACK, 0, 0, (⟨-1, -1⟩ : Position)) ⟨0, 0⟩ = (setCell (setCell (setCell (setCell (setCell (setCell (setCell emptyGrid ⟨1, 0⟩ BLACK) ⟨0, 0⟩ WHITE) ⟨1, 1⟩ BLACK) ⟨0, 1⟩ WHITE) ⟨0, 2⟩ BLACK) ⟨0, 0⟩ EMPTY) ⟨0, 1⟩ EMPTY, 524289, 2, (⟨-1, -1⟩ : Position)) from rfl]
  exact captureScan_advance WHITE _ _ (allCells.drop 1) rfl (by decide)

lemma c7cds9a : captureDeadStones c7AP9 WHITE = (c7B2m9, 2) :=
  (captureDeadStones_eval c7AP9 WHITE _ _ _ _ c7scan9a).trans (by rfl)

lemma c7scan9b : captureScan (setCell (setCell (setCell (setCell (setCell (setCell (setCell emptyGrid ⟨1, 0⟩ BLACK) ⟨0, 0⟩ WHITE) ⟨1, 1⟩ BLACK) ⟨0, 1⟩ WHITE) ⟨0, 2⟩ BLACK) ⟨0, 0⟩ EMPTY) ⟨0, 1⟩ EMPTY) ⟨-1, -1⟩ WHITE =
    (setCell (setCell (setCell (setCell (setCell (setCell (setCell emptyGrid ⟨1, 0⟩ BLACK) ⟨0, 0⟩ WHITE) ⟨1, 1⟩ BLACK) ⟨0, 1⟩ WHITE) ⟨0, 2⟩ BLACK) ⟨0, 0⟩ EMPTY) ⟨0, 1⟩ EMPTY, 0, 0, (⟨-1, -1⟩ : Position)) := by
  show allCells.foldl (captureScanStep WHITE) (setCell (setCell (setCell (setCell (setCell (setCell (setCell emptyGrid ⟨1, 0⟩ BLACK) ⟨0, 0⟩ WHITE) ⟨1, 1⟩ BLACK) ⟨0, 1⟩ WHITE) ⟨0, 2⟩ BLACK) ⟨0, 0⟩ EMPTY) ⟨0, 1⟩ EMPTY, 0, 0, (⟨-1, -1⟩ : Position)) = _
  exact captureScan_advance WHITE _ _ allCells rfl (by decide)

lemma c7cds9b : captureDeadStones c7B2m9 WHITE = (c7B2m9, 0) :=
  (captureDeadStones_eval c7B2m9 WHITE _ _ _ _ c7scan9b).trans (by rfl)

lemma c7loop9 : captureLoop WHITE dfsFuel c7AP9 = (c7B2m9, 2) :=
  captureLoop_eval2 WHITE c7AP9 c7B2m9 c7B2m9 2 (by omega) c7cds9a c7cds9b

lemma c7lib9 : allCells.foldl (libertyScanStep (setCell (setCell (setCell (setCell (setCell (setCell (setCell emptyGrid ⟨1, 0⟩ BLACK) ⟨0, 0⟩ WHITE) ⟨1, 1⟩ BLACK) ⟨0, 1⟩ WHITE) ⟨0, 2⟩ BLACK) ⟨0, 0⟩ EMPTY) ⟨0, 1⟩ EMPTY)) (0, 0, 0) =
    ((274878955522 : Nat), (8 : Nat), (0 : Nat)) := by
  rw [foldl_split _ _ ((0 : Nat), (0 : Nat), (0 : Nat)) allCells (allCells.take 1) (allCells.drop 1)
    (by rw [List.take_append_drop]) (libertyScan_advance _ _ _ (allCells.take 1) rfl (by decide))]
  rw [show allCells.drop 1 = (⟨1, 0⟩ : Position) :: allCells.drop 2 from by decide]
  rw [List.foldl_cons]
  rw [show libertyScanStep (setCell (setCell (setCell (setCell (setCell (setCell (setCell emptyGrid ⟨1, 0⟩ BLACK) ⟨0, 0⟩ WHITE) ⟨1, 1⟩ BLACK) ⟨0, 1⟩ WHITE) ⟨0, 2⟩ BLACK) ⟨0, 0⟩ EMPTY) ⟨0, 1⟩ EMPTY) ((0 : Nat), (0 : Nat), (0 : Nat)) ⟨1, 0⟩ = ((1048578 : Nat), (5 : Nat), (0 : Nat)) from rfl]
  rw [foldl_split _ _ ((1048578 : Nat), (5 : Nat), (0 : Nat)) (allCells.drop 2) ((allCells.drop 2).take 36) (allCells.drop 38)
    (drop_split allCells 2 36) (libertyScan_advance _ _ _ ((allCells.drop 2).take 36) rfl (by decide))]
  rw [show allCells.drop 38 = (⟨0, 2⟩ : Position) :: allCells.drop 39 from by decide]
  rw [List.foldl_cons]
  rw [show libertyScanStep (setCell (setCell (setCell (setCell (setCell (setCell (setCell emptyGrid ⟨1, 0⟩ BLACK) ⟨0, 0⟩ WHITE) ⟨1, 1⟩ BLACK) ⟨0, 1⟩ WHITE) ⟨0, 2⟩ BLACK) ⟨0, 0⟩ EMPTY) ⟨0, 1⟩ EMPTY) ((1048578 : Nat), (5 : Nat), (0 : Nat)) ⟨0, 2⟩ = ((274878955522 : Nat), (8 : Nat), (0 : Nat)) from rfl]
  exact libertyScan_advance _ _ _ (allCells.drop 39) rfl (by decide)

lemma c7mv9 : placeStone (finishMove c7AP8 3 1) ⟨0, 2⟩ = (true, finishMove c7B2m9 8 0) :=
  placeStone_eval (finishMove c7AP8 3 1) ⟨0, 2⟩ c7AP9 c7B2m9 2 274878955522 8 0
    (by decide) rfl c7loop9 (by intro h2; exact absurd h2 (by decide)) c7lib9

lemma c7mv9s : (placeStone (finishMove c7AP8 3 1) ⟨0, 2⟩).2 = finishMove c7B2m9 8 0 := by
  rw [c7mv9]

lemma c7app2 : applyMoves initBoard [⟨1, 0⟩, ⟨0, 0⟩, ⟨1, 1⟩, ⟨0, 1⟩, ⟨0, 2⟩] = (finishMove c7B2m9 8 0) := by
  simp only [applyMoves, List.foldl_cons, List.foldl_nil]
  rw [c7mv5s, c7mv6s, c7mv7s, c7mv8s, c7mv9s]

lemma c7rej10 : placeStone (finishMove c7B2m9 8 0) ⟨1, 0⟩ = (false, (finishMove c7B2m9 8 0)) := by
  have hv : isValidMove (finishMove c7B2m9 8 0) ⟨1, 0⟩ = false := by decide
  simp [placeStone, hv]

lemma c7rej10s : (placeStone (finishMove c7B2m9 8 0) ⟨1, 0⟩).2 = (finishMove c7B2m9 8 0) := by
  rw [c7rej10]

lemma c7scan11a : captureScan (setCell (setCell (setCell (setCell (setCell (setCell (setCell (setCell emptyGrid ⟨1, 0⟩ BLACK) ⟨0, 0⟩ WHITE) ⟨1, 1⟩ BLACK) ⟨0, 1⟩ WHITE) ⟨0, 2⟩ BLACK) ⟨0, 0⟩ EMPTY) ⟨0, 1⟩ EMPTY) ⟨0, 0⟩ WHITE) ⟨-1, -1⟩ BLACK =
    (setCell (setCell (setCell (setCell (setCell (setCell (setCell (setCell emptyGrid ⟨1, 0⟩ BLACK) ⟨0, 0⟩ WHITE) ⟨1, 1⟩ BLACK) ⟨0, 1⟩ WHITE) ⟨0, 2⟩ BLACK) ⟨0, 0⟩ EMPTY) ⟨0, 1⟩ EMPTY) ⟨0, 0⟩ WHITE, 274878955522, 0, (⟨-1, -1⟩ : Position)) := by
  show allCells.foldl (captureScanStep BLACK) (setCell (setCell (setCell (setCell (setCell (setCell (setCell (setCell emptyGrid ⟨1, 0⟩ BLACK) ⟨0, 0⟩ WHITE) ⟨1, 1⟩ BLACK) ⟨0, 1⟩ WHITE) ⟨0, 2⟩ BLACK) ⟨0, 0⟩ EMPTY) ⟨0, 1⟩ EMPTY) ⟨0, 0⟩ WHITE, 0, 0, (⟨-1, -1⟩ : Position)) = _
  rw [foldl_split _ _ (setCell (setCell (setCell (setCell (setCell (setCell (setCell (setCell emptyGrid ⟨1, 0⟩ BLACK) ⟨0, 0⟩ WHITE) ⟨1, 1⟩ BLACK) ⟨0, 1⟩ WHITE) ⟨0, 2⟩ BLACK) ⟨0, 0⟩ EMPTY) ⟨0, 1⟩ EMPTY) ⟨0, 0⟩ WHITE, 0, 0, (⟨-1, -1⟩ : Position)) allCells (allCells.take 1) (allCells.drop 1)
    (by rw [List.take_append_drop]) (captureScan_advance BLACK _ _ (allCells.take 1) rfl (by decide))]
  rw [show allCells.drop 1 = (⟨1, 0⟩ : Position) :: allCells.drop 2 from by decide]
  rw [List.foldl_cons]
  rw [show captureScanStep BLACK (setCell (setCell (setCell (setCell (setCell (setCell (setCell (setCell emptyGrid ⟨1, 0⟩ BLACK) ⟨0, 0⟩ WHITE) ⟨1, 1⟩ BLACK) ⟨0, 1⟩ WHITE) ⟨0, 2⟩ BLACK) ⟨0, 0⟩ EMPTY) ⟨0, 1⟩ EMPTY) ⟨0, 0⟩ WHITE, 0, 0, (⟨-1, -1⟩ : Position)) ⟨1, 0⟩ = (setCell (setCell (setCell (setCell (setCell (setCell (setCell (setCell emptyGrid ⟨1, 0⟩ BLACK) ⟨0, 0⟩ WHITE) ⟨1, 1⟩ BLACK) ⟨0, 1⟩ WHITE) ⟨0, 2⟩ BLACK) ⟨0, 0⟩ EMPTY) ⟨0, 1⟩ EMPTY) ⟨0, 0⟩ WHITE, 1048578, 0, (⟨-1, -1⟩ : Position)) from rfl]
  rw [foldl_split _ _ (setCell (setCell (setCell (setCell (setCell (setCell (setCell (setCell emptyGrid ⟨1, 0⟩ BLACK) ⟨0, 0⟩ WHITE) ⟨1, 1⟩ BLACK) ⟨0, 1⟩ WHITE) ⟨0, 2⟩ BLACK) ⟨0, 0⟩ EMPTY) ⟨0, 1⟩ EMPTY) ⟨0, 0⟩ WHITE, 1048578, 0, (⟨-1, -1⟩ : Position)) (allCells.drop 2) ((allCells.drop 2).take 36) (allCells.drop 38)
    (drop_split allCells 2 36) (captureScan_advance BLACK _ _ ((allCells.drop 2).take 36) rfl (by decide))]
  rw [show allCells.drop 38 = (⟨0, 2⟩ : Position) :: allCells.drop 39 from by decide]
  rw [List.foldl_cons]
  rw [show captureScanStep BLACK (setCell (setCell (setCell (setCell (setCell (setCell (setCell (setCell emptyGrid ⟨1, 0⟩ BLACK) ⟨0, 0⟩ WHITE) ⟨1, 1⟩ BLACK) ⟨0, 1⟩ WHITE) ⟨0, 2⟩ BLACK) ⟨0, 0⟩ EMPTY) ⟨0, 1⟩ EMPTY) ⟨0, 0⟩ WHITE, 1048578, 0, (⟨-1, -1⟩ : Position)) ⟨0, 2⟩ = (setCell (setCell (setCell (setCell (setCell (setCell (setCell (setCell emptyGrid ⟨1, 0⟩ BLACK) ⟨0, 0⟩ WHITE) ⟨1, 1⟩ BLACK) ⟨0, 1⟩ WHITE) ⟨0, 2⟩ BLACK) ⟨0, 0⟩ EMPTY) ⟨0, 1⟩ EMPTY) ⟨0, 0⟩ WHITE, 274878955522, 0, (⟨-1, -1⟩ : Position)) from rfl]
  exact captureScan_advance BLACK _ _ (allCells.drop 39) rfl (by decide)

lemma c7cds11a : captureDeadStones c7AP11 BLACK = (c7AP11, 0) :=
  (captureDeadStones_eval c7AP11 BLACK _ _ _ _ c7scan11a).trans (by rfl)

lemma c7loop11 : captureLoop BLACK dfsFuel c7AP11 = (c7AP11, 0) :=
  captureLoop_eval0 BLACK c7AP11 c7AP11 c7cds11a

lemma c7lib11 : allCells.foldl (libertyScanStep (setCell (setCell (setCell (setCell (setCell (setCell (setCell (setCell emptyGrid ⟨1, 0⟩ BLACK) ⟨0, 0⟩ WHITE) ⟨1, 1⟩ BLACK) ⟨0, 1⟩ WHITE) ⟨0, 2⟩ BLACK) ⟨0, 0⟩ EMPTY) ⟨0, 1⟩ EMPTY) ⟨0, 0⟩ WHITE)) (0, 0, 0) =
    ((274878955523 : Nat), (7 : Nat), (1 : Nat)) := by
  rw [show allCells = (⟨0, 0⟩ : Position) :: allCells.drop 1 from by decide]
  rw [List.foldl_cons]
  rw [show libertyScanStep (setCell (setCell (setCell (setCell (setCell (setCell (setCell (setCell emptyGrid ⟨1, 0⟩ BLACK) ⟨0, 0⟩ WHITE) ⟨1, 1⟩ BLACK) ⟨0, 1⟩ WHITE) ⟨0, 2⟩ BLACK) ⟨0, 0⟩ EMPTY) ⟨0, 1⟩ EMPTY) ⟨0, 0⟩ WHITE) ((0 : Nat), (0 : Nat), (0 : Nat)) ⟨0, 0⟩ = ((1 : Nat), (0 : Nat), (1 : Nat)) from rfl]
  rw [show allCells.drop 1 = (⟨1, 0⟩ : Position) :: allCells.drop 2 from by decide]
  rw [List.foldl_cons]
  rw [show libertyScanStep (setCell (setCell (setCell (setCell (setCell (setCell (setCell (setCell emptyGrid ⟨1, 0⟩ BLACK) ⟨0, 0⟩ WHITE) ⟨1, 1⟩ BLACK) ⟨0, 1⟩ WHITE) ⟨0, 2⟩ BLACK) ⟨0, 0⟩ EMPTY) ⟨0, 1⟩ EMPTY) ⟨0, 0⟩ WHITE) ((1 : Nat), (0 : Nat), (1 : Nat)) ⟨1, 0⟩ = ((1048579 : Nat), (4 : Nat), (1 : Nat)) from rfl]
  rw [foldl_split _ _ ((1048579 : Nat), (4 : Nat), (1 : Nat)) (allCells.drop 2) ((allCells.drop 2).take 36) (allCells.drop 38)
    (drop_split allCells 2 36) (libertyScan_advance _ _ _ ((allCells.drop 2).take 36) rfl (by decide))]
  rw [show allCells.drop 38 = (⟨0, 2⟩ : Position) :: allCells.drop 39 from by decide]
  rw [List.foldl_cons]
  rw [show libertyScanStep (setCell (setCell (setCell (setCell (setCell (setCell (setCell (setCell emptyGrid ⟨1, 0⟩ BLACK) ⟨0, 0⟩ WHITE) ⟨1, 1⟩ BLACK) ⟨0, 1⟩ WHITE) ⟨0, 2⟩ BLACK) ⟨0, 0⟩ EMPTY) ⟨0, 1⟩ EMPTY) ⟨0, 0⟩ WHITE) ((1048579 : Nat), (4 : Nat), (1 : Nat)) ⟨0, 2⟩ = ((274878955523 : Nat), (7 : Nat), (1 : Nat)) from rfl]
  exact libertyScan_advance _ _ _ (allCells.drop 39) rfl (by decide)

lemma c7mv11 : placeStone (finishMove c7B2m9 8 0) ⟨0, 0⟩ = (true, finishMove c7AP11 7 1) :=
  placeStone_eval (finishMove c7B2m9 8 0) ⟨0, 0⟩ c7AP11 c7AP11 0 274878955523 7 1
    (by decide) rfl c7loop11 (by intro h2; exact absurd h2 (by decide)) c7lib11

lemma c7mv11s : (placeStone (finishMove c7B2m9 8 0) ⟨0, 0⟩).2 = finishMove c7AP11 7 1 := by
  rw [c7mv11]

lemma c7rej12 : placeStone (finishMove c7AP11 7 1) ⟨1, 1⟩ = (false, (finishMove c7AP11 7 1)) := by
  have hv : isValidMove (finishMove c7AP11 7 1) ⟨1, 1⟩ = false := by decide
  simp [placeStone, hv]

lemma c7rej12s : (placeStone (finishMove c7AP11 7 1) ⟨1, 1⟩).2 = (finishMove c7AP11 7 1) := by
  rw [c7rej12]

lemma c7scan13a : captureScan (setCell (setCell (setCell (setCell (setCell (setCell (setCell (setCell (setCell emptyGrid ⟨1, 0⟩ BLACK) ⟨0, 0⟩ WHITE) ⟨1, 1⟩ BLACK) ⟨0, 1⟩ WHITE) ⟨0, 2⟩ BLACK) ⟨0, 0⟩ EMPTY) ⟨0, 1⟩ EMPTY) ⟨0, 0⟩ WHITE) ⟨0, 1⟩ BLACK) ⟨-1, -1⟩ WHITE =
    (setCell (setCell (setCell (setCell (setCell (setCell (setCell (setCell (setCell (setCell emptyGrid ⟨1, 0⟩ BLACK) ⟨0, 0⟩ WHITE) ⟨1, 1⟩ BLACK) ⟨0, 1⟩ WHITE) ⟨0, 2⟩ BLACK) ⟨0, 0⟩ EMPTY) ⟨0, 1⟩ EMPTY) ⟨0, 0⟩ WHITE) ⟨0, 1⟩ BLACK) ⟨0, 0⟩ EMPTY, 1, 1, (⟨0, 0⟩ : Position)) := by
  show allCells.foldl (captureScanStep WHITE) (setCell (setCell (setCell (setCell (setCell (setCell (setCell (setCell (setCell emptyGrid ⟨1, 0⟩ BLACK) ⟨0, 0⟩ WHITE) ⟨1, 1⟩ BLACK) ⟨0, 1⟩ WHITE) ⟨0, 2⟩ BLACK) ⟨0, 0⟩ EMPTY) ⟨0, 1⟩ EMPTY) ⟨0, 0⟩ WHITE) ⟨0, 1⟩ BLACK, 0, 0, (⟨-1, -1⟩ : Position)) = _
  rw [show allCells = (⟨0, 0⟩ : Position) :: allCells.drop 1 from by decide]
  rw [List.foldl_cons]
  rw [show captureScanStep WHITE (setCell (setCell (setCell (setCell (setCell (setCell (setCell (setCell (setCell emptyGrid ⟨1, 0⟩ BLACK) ⟨0, 0⟩ WHITE) ⟨1, 1⟩ BLACK) ⟨0, 1⟩ WHITE) ⟨0, 2⟩ BLACK) ⟨0, 0⟩ EMPTY) ⟨0, 1⟩ EMPTY) ⟨0, 0⟩ WHITE) ⟨0, 1⟩ BLACK, 0, 0, (⟨-1, -1⟩ : Position)) ⟨0, 0⟩ = (setCell (setCell (setCell (setCell (setCell (setCell (setCell (setCell (setCell (setCell emptyGrid ⟨1, 0⟩ BLACK) ⟨0, 0⟩ WHITE) ⟨1, 1⟩ BLACK) ⟨0, 1⟩ WHITE) ⟨0, 2⟩ BLACK) ⟨0, 0⟩ EMPTY) ⟨0, 1⟩ EMPTY) ⟨0, 0⟩ WHITE) ⟨0, 1⟩ BLACK) ⟨0, 0⟩ EMPTY, 1, 1, (⟨0, 0⟩ : Position)) from rfl]
  exact captureScan_advance WHITE _ _ (allCells.drop 1) rfl (by decide)

lemma c7cds13a : captureDeadStones c7AP13 WHITE = (c7B2m13, 1) :=
  (captureDeadStones_eval c7AP13 WHITE _ _ _ _ c7scan13a).trans (by rfl)

lemma c7scan13b : captureScan (setCell (setCell (setCell (setCell (setCell (setCell (setCell (setCell (setCell (setCell emptyGrid ⟨1, 0⟩ BLACK) ⟨0, 0⟩ WHITE) ⟨1, 1⟩ BLACK) ⟨0, 1⟩ WHITE) ⟨0, 2⟩ BLACK) ⟨0, 0⟩ EMPTY) ⟨0, 1⟩ EMPTY) ⟨0, 0⟩ WHITE) ⟨0, 1⟩ BLACK) ⟨0, 0⟩ EMPTY) ⟨0, 0⟩ WHITE =
    (setCell (setCell (setCell (setCell (setCell (setCell (setCell (setCell (setCell (setCell emptyGrid ⟨1, 0⟩ BLACK) ⟨0, 0⟩ WHITE) ⟨1, 1⟩ BLACK) ⟨0, 1⟩ WHITE) ⟨0, 2⟩ BLACK) ⟨0, 0⟩ EMPTY) ⟨0, 1⟩ EMPTY) ⟨0, 0⟩ WHITE) ⟨0, 1⟩ BLACK) ⟨0, 0⟩ EMPTY, 0, 0, (⟨0, 0⟩ : Position)) := by
  show allCells.foldl (captureScanStep WHITE) (setCell (setCell (setCell (setCell (setCell (setCell (setCell (setCell (setCell (setCell emptyGrid ⟨1, 0⟩ BLACK) ⟨0, 0⟩ WHITE) ⟨1, 1⟩ BLACK) ⟨0, 1⟩ WHITE) ⟨0, 2⟩ BLACK) ⟨0, 0⟩ EMPTY) ⟨0, 1⟩ EMPTY) ⟨0, 0⟩ WHITE) ⟨0, 1⟩ BLACK) ⟨0, 0⟩ EMPTY, 0, 0, (⟨0, 0⟩ : Position)) = _
  exact captureScan_advance WHITE _ _ allCells rfl (by decide)

lemma c7cds13b : captureDeadStones c7B2m13 WHITE = (c7B2m13, 0) :=
  (captureDeadStones_eval c7B2m13 WHITE _ _ _ _ c7scan13b).trans (by rfl)

lemma c7loop13 : captureLoop WHITE dfsFuel c7AP13 = (c7B2m13, 1) :=
  captureLoop_eval2 WHITE c7AP13 c7B2m13 c7B2m13 1 (by omega) c7cds13a c7cds13b

lemma c7lib13 : allCells.foldl (libertyScanStep (setCell (setCell (setCell (setCell (setCell (setCell (setCell (setCell (setCell (setCell emptyGrid ⟨1, 0⟩ BLACK) ⟨0, 0⟩ WHITE) ⟨1, 1⟩ BLACK) ⟨0, 1⟩ WHITE) ⟨0, 2⟩ BLACK) ⟨0, 0⟩ EMPTY) ⟨0, 1⟩ EMPTY) ⟨0, 0⟩ WHITE) ⟨0, 1⟩ BLACK) ⟨0, 0⟩ EMPTY)) (0, 0, 0) =
    ((274879479810 : Nat), (5 : Nat), (0 : Nat)) := by
  rw [foldl_split _ _ ((0 : Nat), (0 : Nat), (0 : Nat)) allCells (allCells.take 1) (allCells.drop 1)
    (by rw [List.take_append_drop]) (libertyScan_advance _ _ _ (allCells.take 1) rfl (by decide))]
  rw [show allCells.drop 1 = (⟨1, 0⟩ : Position) :: allCells.drop 2 from by decide]
  rw [List.foldl_cons]
  rw [show libertyScanStep (setCell (setCell (setCell (setCell (setCell (setCell (setCell (setCell (setCell (setCell emptyGrid ⟨1, 0⟩ BLACK) ⟨0, 0⟩ WHITE) ⟨1, 1⟩ BLACK) ⟨0, 1⟩ WHITE) ⟨0, 2⟩ BLACK) ⟨0, 0⟩ EMPTY) ⟨0, 1⟩ EMPTY) ⟨0, 0⟩ WHITE) ⟨0, 1⟩ BLACK) ⟨0, 0⟩ EMPTY) ((0 : Nat), (0 : Nat), (0 : Nat)) ⟨1, 0⟩ = ((274879479810 : Nat), (5 : Nat), (0 : Nat)) from rfl]
  exact libertyScan_advance _ _ _ (allCells.drop 2) rfl (by decide)

lemma c7mv13 : placeStone (finishMove c7AP11 7 1) ⟨0, 1⟩ = (true, finishMove c7B2m13 5 0) :=
  placeStone_eval (finishMove c7AP11 7 1) ⟨0, 1⟩ c7AP13 c7B2m13 1 274879479810 5 0
    (by decide) rfl c7loop13 (by intro h2; decide) c7lib13

lemma c7mv13s : (placeStone (finishMove c7AP11 7 1) ⟨0, 1⟩).2 = finishMove c7B2m13 5 0 := by
  rw [c7mv13]

lemma c7app3 : applyMoves (finishMove c7B2m9 8 0) [⟨1, 0⟩, ⟨0, 0⟩, ⟨1, 1⟩, ⟨0, 1⟩] = (finishMove c7B2m13 5 0) := by
  simp only [applyMoves, List.foldl_cons, List.foldl_nil]
  rw [c7rej10s, c7mv11s, c7rej12s, c7mv13s]

lemma c7rej14 : placeStone (finishMove c7B2m13 5 0) ⟨1, 0⟩ = (false, (finishMove c7B2m13 5 0)) := by
  have hv : isValidMove (finishMove c7B2m13 5 0) ⟨1, 0⟩ = false := by decide
  simp [placeStone, hv]

lemma c7rej14s : (placeStone (finishMove c7B2m13 5 0) ⟨1, 0⟩).2 = (finishMove c7B2m13 5 0) := by
  rw [c7rej14]

lemma c7rej15 : placeStone (finishMove c7B2m13 5 0) ⟨0, 0⟩ = (false, (finishMove c7B2m13 5 0)) := by
  have hv : isValidMove (finishMove c7B2m13 5 0) ⟨0, 0⟩ = false := by decide
  simp [placeStone, hv]

lemma c7rej15s : (placeStone (finishMove c7B2m13 5 0) ⟨0, 0⟩).2 = (finishMove c7B2m13 5 0) := by
  rw [c7rej15]

lemma c7rej16 : placeStone (finishMove c7B2m13 5 0) ⟨1, 1⟩ = (false, (finishMove c7B2m13 5 0)) := by
  have hv : isValidMove (finishMove c7B2m13 5 0) ⟨1, 1⟩ = false := by decide
  simp [placeStone, hv]

lemma c7rej16s : (placeStone (finishMove c7B2m13 5 0) ⟨1, 1⟩).2 = (finishMove c7B2m13 5 0) := by
  rw [c7rej16]

lemma c7app4 : applyMoves (finishMove c7B2m13 5 0) [⟨1, 0⟩, ⟨0, 0⟩, ⟨1, 1⟩] = (finishMove c7B2m13 5 0) := by
  simp only [applyMoves, List.foldl_cons, List.foldl_nil]
  rw [c7rej14s, c7rej15s, c7rej16s]

lemma c7rej17 : placeStone (finishMove c7B2m13 5 0) ⟨1, 0⟩ = (false, (finishMove c7B2m13 5 0)) := by
  have hv : isValidMove (finishMove c7B2m13 5 0) ⟨1, 0⟩ = false := by decide
  simp [placeStone, hv]

lemma c7rej17s : (placeStone (finishMove c7B2m13 5 0) ⟨1, 0⟩).2 = (finishMove c7B2m13 5 0) := by
  rw [c7rej17]

lemma c7rej18 : placeStone (finishMove c7B2m13 5 0) ⟨0, 0⟩ = (false, (finishMove c7B2m13 5 0)) := by
  have hv : isValidMove (finishMove c7B2m13 5 0) ⟨0, 0⟩ = false := by decide
  simp [placeStone, hv]

lemma c7rej18s : (placeStone (finishMove c7B2m13 5 0) ⟨0, 0⟩).2 = (finishMove c7B2m13 5 0) := by
  rw [c7rej18]

lemma c7app5 : applyMoves (finishMove c7B2m13 5 0) [⟨1, 0⟩, ⟨0, 0⟩] = (finishMove c7B2m13 5 0) := by
  simp only [applyMoves, List.foldl_cons, List.foldl_nil]
  rw [c7rej17s, c7rej18s]

lemma c7rej19 : placeStone (finishMove c7B2m13 5 0) ⟨1, 0⟩ = (false, (finishMove c7B2m13 5 0)) := by
  have hv : isValidMove (finishMove c7B2m13 5 0) ⟨1, 0⟩ = false := by decide
  simp [placeStone, hv]

lemma c7rej19s : (placeStone (finishMove c7B2m13 5 0) ⟨1, 0⟩).2 = (finishMove c7B2m13 5 0) := by
  rw [c7rej19]

lemma c7app6 : applyMoves (finishMove c7B2m13 5 0) [⟨1, 0⟩] = (finishMove c7B2m13 5 0) := by
  simp only [applyMoves, List.foldl_cons, List.foldl_nil]
  rw [c7rej19s]

lemma c7wscan20a : captureScan (setCell emptyGrid ⟨3, 3⟩ BLACK) ⟨-1, -1⟩ WHITE =
    (setCell emptyGrid ⟨3, 3⟩ BLACK, 0, 0, (⟨-1, -1⟩ : Position)) := by
  show allCells.foldl (captureScanStep WHITE) (setCell emptyGrid ⟨3, 3⟩ BLACK, 0, 0, (⟨-1, -1⟩ : Position)) = _
  exact captureScan_advance WHITE _ _ allCells rfl (by decide)

lemma c7wcds20a : captureDeadStones c7wAP20 WHITE = (c7wAP20, 0) :=
  (captureDeadStones_eval c7wAP20 WHITE _ _ _ _ c7wscan20a).trans (by rfl)

lemma c7wloop20 : captureLoop WHITE dfsFuel c7wAP20 = (c7wAP20, 0) :=
  captureLoop_eval0 WHITE c7wAP20 c7wAP20 c7wcds20a

lemma c7wlib20 : allCells.foldl (libertyScanStep (setCell emptyGrid ⟨3, 3⟩ BLACK)) (0, 0, 0) =
    ((1152921504606846976 : Nat), (4 : Nat), (0 : Nat)) := by
  rw [foldl_split _ _ ((0 : Nat), (0 : Nat), (0 : Nat)) allCells (allCells.take 60) (allCells.drop 60)
    (by rw [List.take_append_drop]) (libertyScan_advance _ _ _ (allCells.take 60) rfl (by decide))]
  rw [show allCells.drop 60 = (⟨3, 3⟩ : Position) :: allCells.drop 61 from by decide]
  rw [List.foldl_cons]
  rw [show libertyScanStep (setCell emptyGrid ⟨3, 3⟩ BLACK) ((0 : Nat), (0 : Nat), (0 : Nat)) ⟨3, 3⟩ = ((1152921504606846976 : Nat), (4 : Nat), (0 : Nat)) from rfl]
  exact libertyScan_advance _ _ _ (allCells.drop 61) rfl (by decide)

lemma c7wmv20 : placeStone initBoard ⟨3, 3⟩ = (true, finishMove c7wAP20 4 0) :=
  placeStone_eval initBoard ⟨3, 3⟩ c7wAP20 c7wAP20 0 1152921504606846976 4 0
    (by decide) rfl c7wloop20 (by intro h2; exact absurd h2 (by decide)) c7wlib20

lemma c7wmv20s : (placeStone initBoard ⟨3, 3⟩).2 = finishMove c7wAP20 4 0 := by
  rw [c7wmv20]

lemma c7wscan21a : captureScan (setCell (setCell emptyGrid ⟨3, 3⟩ BLACK) ⟨10, 10⟩ WHITE) ⟨-1, -1⟩ BLACK =
    (setCell (setCell emptyGrid ⟨3, 3⟩ BLACK) ⟨10, 10⟩ WHITE, 1152921504606846976, 0, (⟨-1, -1⟩ : Position)) := by
  show allCells.foldl (captureScanStep BLACK) (setCell (setCell emptyGrid ⟨3, 3⟩ BLACK) ⟨10, 10⟩ WHITE, 0, 0, (⟨-1, -1⟩ : Position)) = _
  rw [foldl_split _ _ (setCell (setCell emptyGrid ⟨3, 3⟩ BLACK) ⟨10, 10⟩ WHITE, 0, 0, (⟨-1, -1⟩ : Position)) allCells (allCells.take 60) (allCells.drop 60)
    (by rw [List.take_append_drop]) (captureScan_advance BLACK _ _ (allCells.take 60) rfl (by decide))]
  rw [show allCells.drop 60 = (⟨3, 3⟩ : Position) :: allCells.drop 61 from by decide]
  rw [List.foldl_cons]
  rw [show captureScanStep BLACK (setCell (setCell emptyGrid ⟨3, 3⟩ BLACK) ⟨10, 10⟩ WHITE, 0, 0, (⟨-1, -1⟩ : Position)) ⟨3, 3⟩ = (setCell (setCell emptyGrid ⟨3, 3⟩ BLACK) ⟨10, 10⟩ WHITE, 1152921504606846976, 0, (⟨-1, -1⟩ : Position)) from rfl]
  exact captureScan_advance BLACK _ _ (allCells.drop 61) rfl (by decide)

lemma c7wcds21a : captureDeadStones c7wAP21 BLACK = (c7wAP21, 0) :=
  (captureDeadStones_eval c7wAP21 BLACK _ _ _ _ c7wscan21a).trans (by rfl)

lemma c7wloop21 : captureLoop BLACK dfsFuel c7wAP21 = (c7wAP21, 0) :=
  captureLoop_eval0 BLACK c7wAP21 c7wAP21 c7wcds21a

lemma c7wlib21 : allCells.foldl (libertyScanStep (setCell (setCell emptyGrid ⟨3, 3⟩ BLACK) ⟨10, 10⟩ WHITE)) (0, 0, 0) =
    ((1606938044258990275541962092341162602522204146704297442148352 : Nat), (4 : Nat), (4 : Nat)) := by
  rw [foldl_split _ _ ((0 : Nat), (0 : Nat), (0 : Nat)) allCells (allCells.take 60) (allCells.drop 60)
    (by rw [List.take_append_drop]) (libertyScan_advance _ _ _ (allCells.take 60) rfl (by decide))]
  rw [show allCells.drop 60 = (⟨3, 3⟩ : Position) :: allCells.drop 61 from by decide]
  rw [List.foldl_cons]
  rw [show libertyScanStep (setCell (setCell emptyGrid ⟨3, 3⟩ BLACK) ⟨10, 10⟩ WHITE) ((0 : Nat), (0 : Nat), (0 : Nat)) ⟨3, 3⟩ = ((1152921504606846976 : Nat), (4 : Nat), (0 : Nat)) from rfl]
  rw [foldl_split _ _ ((1152921504606846976 : Nat), (4 : Nat), (0 : Nat)) (allCells.drop 61) ((allCells.drop 61).take 139) (allCells.drop 200)
    (drop_split allCells 61 139) (libertyScan_advance _ _ _ ((allCells.drop 61).take 139) rfl (by decide))]
  rw [show allCells.drop 200 = (⟨10, 10⟩ : Position) :: allCells.drop 201 from by decide]
  rw [List.foldl_cons]
  rw [show libertyScanStep (setCell (setCell emptyGrid ⟨3, 3⟩ BLACK) ⟨10, 10⟩ WHITE) ((1152921504606846976 : Nat), (4 : Nat), (0 : Nat)) ⟨10, 10⟩ = ((1606938044258990275541962092341162602522204146704297442148352 : Nat), (4 : Nat), (4 : Nat)) from rfl]
  exact libertyScan_advance _ _ _ (allCells.drop 201) rfl (by decide)

lemma c7wmv21 : placeStone (finishMove c7wAP20 4 0) ⟨10, 10⟩ = (true, finishMove c7wAP21 4 4) :=
  placeStone_eval (finishMove c7wAP20 4 0) ⟨10, 10⟩ c7wAP21 c7wAP21 0 1606938044258990275541962092341162602522204146704297442148352 4 4
    (by decide) rfl c7wloop21 (by intro h2; exact absurd h2 (by decide)) c7wlib21

lemma c7wmv21s : (placeStone (finishMove c7wAP20 4 0) ⟨10, 10⟩).2 = finishMove c7wAP21 4 4 := by
  rw [c7wmv21]

lemma c7wapp7 : applyMoves initBoard [⟨3, 3⟩, ⟨10, 10⟩] = (finishMove c7wAP21 4 4) := by
  simp only [applyMoves, List.foldl_cons, List.foldl_nil]
  rw [c7wmv20s, c7wmv21s]

/-! ### Field lemmas for the success path of placeStone -/

lemma capResult_eq (b : Board) (pos : Position) :
    capResult b pos = captureLoop (opponentOf b.currentPlayer) dfsFuel (afterPlace b pos) := rfl

lemma capResult_currentPlayer (b : Board) (pos : Position) :
    (capResult b pos).1.currentPlayer = b.currentPlayer := by
  rw [capResult_eq, (captureLoop_preserves _ _ _).1]
  rfl

lemma capResult_lastMove (b : Board) (pos : Position) :
    (capResult b pos).1.lastMove = pos := by
  rw [capResult_eq, (captureLoop_preserves _ _ _).2.1]
  rfl

lemma capResult_prevs (b : Board) (pos : Position) :
    (capResult b pos).1.prevs = b.prevs := by
  rw [capResult_eq, (captureLoop_preserves _ _ _).2.2.2.2.2.1]
  rfl

lemma capResult_cur (b : Board) (pos : Position) :
    (capResult b pos).1.cur = b.cur := by
  rw [capResult_eq, (captureLoop_preserves _ _ _).2.2.2.2.2.2.1]
  rfl

lemma capResult_blackCaptures_ge (b : Board) (pos : Position) :
    b.blackCaptures ≤ (capResult b pos).1.blackCaptures := by
  have h := (captureLoop_captures_le (opponentOf b.currentPlayer) dfsFuel (afterPlace b pos)).1
  rw [afterPlace_blackCaptures] at h
  rw [capResult_eq]
  exact h

lemma capResult_whiteCaptures_ge (b : Board) (pos : Position) :
    b.whiteCaptures ≤ (capResult b pos).1.whiteCaptures := by
  have h := (captureLoop_captures_le (opponentOf b.currentPlayer) dfsFuel (afterPlace b pos)).2
  rw [afterPlace_whiteCaptures] at h
  rw [capResult_eq]
  exact h

lemma placeStoneBody_lastMove (b : Board) (pos : Position) :
    (placeStoneBody b pos).lastMove = pos := by
  have h : (placeStoneBody b pos).lastMove = (capResult b pos).1.lastMove := by
    simp only [placeStoneBody]
    split
    · split <;> simp
    · simp
  rw [h, capResult_eq, (captureLoop_preserves _ _ _).2.1, afterPlace_lastMove]

lemma placeStoneBody_currentPlayer (b : Board) (pos : Position) :
    (placeStoneBody b pos).currentPlayer = opponentOf b.currentPlayer := by
  have h : (placeStoneBody b pos).currentPlayer = opponentOf (capResult b pos).1.currentPlayer := by
    simp only [placeStoneBody]
    split
    · split <;> simp
    · simp
  rw [h, capResult_eq, (captureLoop_preserves _ _ _).1, afterPlace_currentPlayer]

lemma placeStoneBody_prevs (b : Board) (pos : Position) :
    (placeStoneBody b pos).prevs = b.cur :: b.prevs := by
  have h : (placeStoneBody b pos).prevs =
      (capResult b pos).1.cur :: (capResult b pos).1.prevs := by
    simp only [placeStoneBody]
    split
    · split <;> simp [saveBoardState]
    · simp [saveBoardState]
  rw [h, capResult_eq, (captureLoop_preserves _ _ _).2.2.2.2.2.1,
    (captureLoop_preserves _ _ _).2.2.2.2.2.2.1]
  rfl

lemma placeStoneBody_blackCaptures (b : Board) (pos : Position) :
    (placeStoneBody b pos).blackCaptures = (capResult b pos).1.blackCaptures := by
  simp only [placeStoneBody]
  split
  · split <;> simp
  · simp

lemma placeStoneBody_whiteCaptures (b : Board) (pos : Position) :
    (placeStoneBody b pos).whiteCaptures = (capResult b pos).1.whiteCaptures := by
  simp only [placeStoneBody]
  split
  · split <;> simp
  · simp

lemma placeStoneBody_sync (b : Board) (pos : Position) :
    (placeStoneBody b pos).cur.grid = (placeStoneBody b pos).grid ∧
    (placeStoneBody b pos).cur.lastMove = (placeStoneBody b pos).lastMove ∧
    (placeStoneBody b pos).cur.blackCaptures = (placeStoneBody b pos).blackCaptures ∧
    (placeStoneBody b pos).cur.whiteCaptures = (placeStoneBody b pos).whiteCaptures ∧
    (placeStoneBody b pos).cur.blackLiberties = (placeStoneBody b pos).blackLiberties ∧
    (placeStoneBody b pos).cur.whiteLiberties = (placeStoneBody b pos).whiteLiberties := by
  simp only [placeStoneBody, saveBoardState, createHistoryNode, calculateLiberties]
  refine ⟨?_, ?_, ?_, ?_, ?_, ?_⟩ <;> trivial

lemma isValidMove_valid_position (b : Board) (pos : Position)
    (h : isValidMove b pos = true) : isValidPosition pos = true := by
  by_cases hv : isValidPosition pos
  · exact hv
  · simp [isValidMove, hv] at h

lemma opponentOf_cases (c : Stone) :
    opponentOf c = BLACK ∨ opponentOf c = WHITE := by
  cases c <;> simp [opponentOf]

lemma SnapLE_refl (s : Snapshot) : SnapLE s s := ⟨le_refl _, le_refl _⟩

lemma SnapLE_trans {s t u : Snapshot} (h1 : SnapLE s t) (h2 : SnapLE t u) : SnapLE s u :=
  ⟨le_trans h1.1 h2.1, le_trans h1.2 h2.2⟩

lemma inv_cur_sentinel (b : Board) (hb : BoardInv b) : SentinelSnap b.cur := by
  intro h
  rw [hb.syncLast] at h
  rw [hb.syncGrid, (hb.sentinelLive h).1]

lemma valid_pos_not_sentinel (pos : Position) (h : isValidPosition pos = true) :
    ¬ (pos.x < 0 ∨ pos.y < 0) := by
  simp only [isValidPosition, decide_eq_true_eq] at h
  intro hc
  rcases hc with hc | hc <;> omega

lemma inv_init : BoardInv initBoard := by
  refine ⟨rfl, rfl, rfl, rfl, rfl, rfl, Or.inl rfl, fun _ => ⟨rfl, rfl⟩, ?_, ?_⟩
  · intro s hs
    simp [initBoard] at hs
  · simp [histChain, initBoard, List.pairwise_singleton]

lemma snapLE_cur_newCur (b : Board) (pos : Position) (hb : BoardInv b) :
    SnapLE b.cur (placeStoneBody b pos).cur := by
  constructor
  · rw [hb.syncBC, (placeStoneBody_sync b pos).2.2.1, placeStoneBody_blackCaptures]
    exact capResult_blackCaptures_ge b pos
  · rw [hb.syncWC, (placeStoneBody_sync b pos).2.2.2.1, placeStoneBody_whiteCaptures]
    exact capResult_whiteCaptures_ge b pos

lemma inv_place (b : Board) (pos : Position) (hb : BoardInv b) :
    BoardInv (placeStone b pos).2 := by
  by_cases hv : isValidMove b pos
  · have h2 : (placeStone b pos).2 = placeStoneBody b pos := by
      simp [placeStone, hv]
    rw [h2]
    have hsync := placeStoneBody_sync b pos
    refine ⟨hsync.1, hsync.2.1, hsync.2.2.1, hsync.2.2.2.1, hsync.2.2.2.2.1,
      hsync.2.2.2.2.2, ?_, ?_, ?_, ?_⟩
    · rw [placeStoneBody_currentPlayer]
      exact opponentOf_cases _
    · intro h
      rw [placeStoneBody_lastMove] at h
      exact absurd h (valid_pos_not_sentinel pos (isValidMove_valid_position b pos hv))
    · intro s hs
      rw [placeStoneBody_prevs, placeStoneBody_nexts, List.append_nil] at hs
      rcases List.mem_cons.mp hs with h | h
      · rw [h]
        exact inv_cur_sentinel b hb
      · exact hb.sentinelSnaps s (List.mem_append_left _ h)
    · have hold := hb.chainMono
      rw [histChain] at hold
      have h1 := (List.pairwise_append.mp hold).1
      have h2 := (List.pairwise_append.mp hold).2.1
      have h3 := (List.pairwise_append.mp hold).2.2
      have hcross : ∀ a ∈ b.prevs.reverse, SnapLE a b.cur :=
        fun a ha => h3 a ha b.cur (List.mem_cons_self _ _)
      have hnew := snapLE_cur_newCur b pos hb
      rw [histChain, placeStoneBody_prevs, placeStoneBody_nexts, List.reverse_cons]
      refine List.pairwise_append.mpr ⟨?_, ?_, ?_⟩
      · refine List.pairwise_append.mpr ⟨h1, List.pairwise_singleton _ _, ?_⟩
        intro a ha x hx
        rw [List.mem_singleton.mp hx]
        exact hcross a ha
      · simp [List.pairwise_singleton]
      · intro a ha x hx
        rw [List.mem_singleton.mp hx]
        rcases List.mem_append.mp ha with h | h
        · exact SnapLE_trans (hcross a h) hnew
        · rw [List.mem_singleton.mp h]
          exact hnew
  · have h2 : (placeStone b pos).2 = b := by
      simp [placeStone, hv]
    rw [h2]
    exact hb

lemma inv_undo (b : Board) (hb : BoardInv b) : BoardInv (undoMove b).2 := by
  cases hp : b.prevs with
  | nil =>
    have h2 : (undoMove b).2 = b := by
      simp [undoMove, hp]
    rw [h2]
    exact hb
  | cons p ps =>
    have h2 : (undoMove b).2 =
        ({ grid := p.grid
           currentPlayer := opponentOf b.currentPlayer
           lastMove := p.lastMove
           koPosition := ⟨-1, -1⟩
           koActive := false
           blackCaptures := p.blackCaptures
           whiteCaptures := p.whiteCaptures
           blackLiberties := p.blackLiberties
           whiteLiberties := p.whiteLiberties
           prevs := ps
           cur := p
           nexts := b.cur :: b.nexts } : Board) := by
      simp only [undoMove]
      rw [hp]
    rw [h2]
    have hpmem : p ∈ b.prevs ++ b.nexts := List.mem_append_left _ (hp ▸ List.mem_cons_self _ _)
    refine ⟨rfl, rfl, rfl, rfl, rfl, rfl, opponentOf_cases _, ?_, ?_, ?_⟩
    · intro h
      exact ⟨hb.sentinelSnaps p hpmem h, rfl⟩
    · intro s hs
      rcases List.mem_append.mp hs with h | h
      · exact hb.sentinelSnaps s
          (List.mem_append_left _ (hp ▸ List.mem_cons_of_mem _ h))
      · rcases List.mem_cons.mp h with h | h
        · rw [h]
          exact inv_cur_sentinel b hb
        · exact hb.sentinelSnaps s (List.mem_append_right _ h)
    · have hold := hb.chainMono
      rw [histChain, hp, List.reverse_cons, List.append_assoc, List.singleton_append] at hold
      rw [histChain]
      exact hold

lemma inv_redo (b : Board) (hb : BoardInv b) : BoardInv (redoMove b).2 := by
  cases hn : b.nexts with
  | nil =>
    have h2 : (redoMove b).2 = b := by
      simp [redoMove, hn]
    rw [h2]
    exact hb
  | cons n ns =>
    have h2 : (redoMove b).2 =
        ({ grid := n.grid
           currentPlayer := opponentOf b.currentPlayer
           lastMove := n.lastMove
           koPosition := ⟨-1, -1⟩
           koActive := false
           blackCaptures := n.blackCaptures
           whiteCaptures := n.whiteCaptures
           blackLiberties := n.blackLiberties
           whiteLiberties := n.whiteLiberties
           prevs := b.cur :: b.prevs
           cur := n
           nexts := ns } : Board) := by
      simp only [redoMove]
      rw [hn]
    rw [h2]
    have hnmem : n ∈ b.prevs ++ b.nexts := List.mem_append_right _ (hn ▸ List.mem_cons_self _ _)
    refine ⟨rfl, rfl, rfl, rfl, rfl, rfl, opponentOf_cases _, ?_, ?_, ?_⟩
    · intro h
      exact ⟨hb.sentinelSnaps n hnmem h, rfl⟩
    · intro s hs
      rcases List.mem_append.mp hs with h | h
      · rcases List.mem_cons.mp h with h | h
        · rw [h]
          exact inv_cur_sentinel b hb
        · exact hb.sentinelSnaps s (List.mem_append_left _ h)
      · exact hb.sentinelSnaps s
          (List.mem_append_right _ (hn ▸ List.mem_cons_of_mem _ h))
    · have hold := hb.chainMono
      rw [histChain, hn] at hold
      rw [histChain, List.reverse_cons, List.append_assoc, List.singleton_append]
      exact hold

lemma reaches_inv (b : Board) (h : Reaches b) : BoardInv b := by
  induction h with
  | init => exact inv_init
  | place b pos _ ih => exact inv_place b pos ih
  | undo b _ ih => exact inv_undo b ih
  | redo b _ ih => exact inv_redo b ih

/-! ### Arena invariants of the MCTS search (toward C8, C9) -/

/-! ### Legality of generated candidate moves (toward C9) -/

lemma foldl_valid_preserve {β : Type _} (b : Board) (step : List Position → β → List Position)
    (hstep : ∀ acc x, (∀ m ∈ acc, isValidMove b m = true) →
      ∀ m ∈ step acc x, isValidMove b m = true) :
    ∀ (l : List β) (acc : List Position), (∀ m ∈ acc, isValidMove b m = true) →
      ∀ m ∈ l.foldl step acc, isValidMove b m = true := by
  intro l
  induction l with
  | nil => intro acc h; exact h
  | cons x rest ih => intro acc h; exact ih _ (hstep acc x h)

lemma getValidMovesInRange_mem (b : Board) (cx cy : Int) (r : Nat) :
    ∀ m ∈ getValidMovesInRange b cx cy r, isValidMove b m = true := by
  rw [getValidMovesInRange]
  refine foldl_valid_preserve b _ ?_ _ _ (by simp)
  intro acc dx hacc
  refine foldl_valid_preserve b _ ?_ _ _ hacc
  intro acc2 dy h2 m hm
  dsimp only at hm
  split at hm
  · rcases List.mem_append.mp hm with h | h
    · exact h2 m h
    · rw [List.mem_singleton.mp h]
      next hc => exact hc.2.2.2.2
  · exact h2 m hm

lemma addStarPoints_mem (b : Board) (acc : List Position)
    (hacc : ∀ m ∈ acc, isValidMove b m = true) :
    ∀ m ∈ addStarPoints b acc, isValidMove b m = true := by
  rw [addStarPoints]
  refine foldl_valid_preserve b _ ?_ _ _ hacc
  intro acc2 pos h2 m hm
  by_cases hv : isValidMove b pos
  · rw [if_pos hv] at hm
    by_cases hc : acc2.contains pos
    · rw [if_pos hc] at hm
      exact h2 m hm
    · rw [if_neg hc] at hm
      rcases List.mem_append.mp hm with h | h
      · exact h2 m h
      · rw [List.mem_singleton.mp h]
        exact hv
  · rw [if_neg hv] at hm
    exact h2 m hm

lemma scanAllLegal_mem (b : Board) :
    ∀ (l : List Position) (acc : List Position),
      (∀ m ∈ acc, isValidMove b m = true) →
      ∀ m ∈ scanAllLegal b l acc, isValidMove b m = true := by
  intro l
  induction l with
  | nil => intro acc h m hm; exact h m (by simpa [scanAllLegal] using hm)
  | cons c rest ih =>
    intro acc h m hm
    rw [scanAllLegal] at hm
    split at hm
    · exact h m hm
    · split at hm
      · refine ih _ ?_ m hm
        intro x hx
        rcases List.mem_append.mp hx with h1 | h1
        · exact h x h1
        · rw [List.mem_singleton.mp h1]
          next hc => exact hc.2
      · exact ih _ h m hm

lemma expandCandidates_mem (b : Board) :
    ∀ m ∈ expandCandidates b, isValidMove b m = true := by
  rw [expandCandidates]
  have hla : ∀ m ∈ (if 0 ≤ b.lastMove.x ∧ 0 ≤ b.lastMove.y then
      getValidMovesInRange b b.lastMove.x b.lastMove.y 1 else []),
      isValidMove b m = true := by
    split
    · exact getValidMovesInRange_mem b _ _ 1
    · simp
  set la := (if 0 ≤ b.lastMove.x ∧ 0 ≤ b.lastMove.y then
      getValidMovesInRange b b.lastMove.x b.lastMove.y 1 else []) with hladef
  have hlb : ∀ m ∈ (if la.length < 5 then addStarPoints b la else la),
      isValidMove b m = true := by
    split
    · exact addStarPoints_mem b la hla
    · exact hla
  set lb := (if la.length < 5 then addStarPoints b la else la) with hlbdef
  split
  · exact scanAllLegal_mem b allCells lb hlb
  · exact hlb

lemma getLegalMoves_mem (b : Board) :
    ∀ m ∈ getLegalMoves b, isValidMove b m = true := by
  intro m hm
  exact (List.mem_filter.mp hm).2

/-! ### Arena bookkeeping lemmas (toward C9) -/

lemma treeGet_set_eq (t : MCTree) (i : Nat) (r : NodeRec) (h : i < t.length) :
    treeGet (t.set i r) i = r := by
  rw [treeGet, List.getD_eq_getElem?_getD, List.getElem?_set_self h]
  rfl

lemma treeGet_set_ne (t : MCTree) (i j : Nat) (r : NodeRec) (h : i ≠ j) :
    treeGet (t.set i r) j = treeGet t j := by
  rw [treeGet, treeGet, List.getD_eq_getElem?_getD, List.getD_eq_getElem?_getD,
    List.getElem?_set_ne h]

lemma treeGet_append_left (t t2 : MCTree) (j : Nat) (h : j < t.length) :
    treeGet (t ++ t2) j = treeGet t j := by
  rw [treeGet, treeGet, List.getD_append _ _ _ _ h]

lemma treeGet_append_right (t t2 : MCTree) (j : Nat) (h : t.length ≤ j) :
    treeGet (t ++ t2) j = treeGet t2 (j - t.length) := by
  rw [treeGet, treeGet, List.getD_append_right _ _ _ _ h]

lemma treeGet_map_mk (f : Position → NodeRec) (moves : List Position) (m : Nat)
    (h : m < moves.length) :
    treeGet (moves.map f) m = f moves[m] := by
  rw [treeGet, List.getD_eq_getElem _ _ (by simpa using h)]
  simp

lemma getD_mem {α : Type _} (l : List α) (n : Nat) (d : α) (h : n < l.length) :
    l.getD n d ∈ l := by
  rw [List.getD_eq_getElem l d h]
  exact List.getElem_mem h

lemma rootOK_init (b : Board) : RootOK b [createRootNode b] := by
  refine ⟨by simp, rfl, ?_⟩
  intro j hj
  simp [treeGet, createRootNode] at hj

lemma reconstructBoard_root (t : MCTree) (b : Board)
    (h : (treeGet t 0).parentIdx = none) : reconstructBoard t 0 b = b := by
  rw [reconstructBoard]
  have hp : pathMoves t (t.length + 1) 0 = [] := by
    rw [pathMoves, h]
  rw [hp]
  rfl

lemma backpropAux_get (p : Stone) (r : Bool) :
    ∀ (fuel : Nat) (oi : Option Nat) (t : MCTree) (j : Nat),
      (treeGet (backpropAux p r fuel oi t) j).move = (treeGet t j).move ∧
      (treeGet (backpropAux p r fuel oi t) j).childrenIdx = (treeGet t j).childrenIdx ∧
      (treeGet (backpropAux p r fuel oi t) j).parentIdx = (treeGet t j).parentIdx ∧
      (backpropAux p r fuel oi t).length = t.length := by
  intro fuel
  induction fuel with
  | zero => intro oi t j; exact ⟨rfl, rfl, rfl, rfl⟩
  | succ n ih =>
    intro oi t j
    cases oi with
    | none => exact ⟨rfl, rfl, rfl, rfl⟩
    | some i =>
      rw [backpropAux]
      have hset : ∀ (R : NodeRec), R.move = (treeGet t i).move →
          R.childrenIdx = (treeGet t i).childrenIdx →
          R.parentIdx = (treeGet t i).parentIdx →
          (treeGet (t.set i R) j).move = (treeGet t j).move ∧
          (treeGet (t.set i R) j).childrenIdx = (treeGet t j).childrenIdx ∧
          (treeGet (t.set i R) j).parentIdx = (treeGet t j).parentIdx := by
        intro R hm hc hp
        by_cases hij : i = j
        · subst hij
          by_cases hlt : i < t.length
          · rw [treeGet_set_eq _ _ _ hlt]
            exact ⟨hm, hc, hp⟩
          · rw [List.set_eq_of_length_le (by omega)]
            exact ⟨rfl, rfl, rfl⟩
        · rw [treeGet_set_ne _ _ _ _ hij]
          exact ⟨rfl, rfl, rfl⟩
      refine ⟨((ih _ _ j).1).trans ?_, ((ih _ _ j).2.1).trans ?_,
        ((ih _ _ j).2.2.1).trans ?_, ((ih _ _ j).2.2.2).trans ?_⟩
      · refine (hset ?_ ?_ ?_ ?_).1 <;> rfl
      · refine (hset ?_ ?_ ?_ ?_).2.1 <;> rfl
      · refine (hset ?_ ?_ ?_ ?_).2.2 <;> rfl
      · rw [List.length_set]

lemma backpropagate_rootOK (b : Board) (t : MCTree) (idx : Nat) (r : Bool)
    (h : RootOK b t) : RootOK b (backpropagate t idx r) := by
  rw [backpropagate]
  obtain ⟨h1, h2, h3⟩ := h
  refine ⟨?_, ?_, ?_⟩
  · rw [(backpropAux_get _ _ _ _ _ 0).2.2.2]
    exact h1
  · rw [(backpropAux_get _ _ _ _ _ 0).2.2.1]
    exact h2
  · intro j hj
    rw [(backpropAux_get _ _ _ _ _ 0).2.1] at hj
    have := h3 j hj
    refine ⟨?_, ?_⟩
    · rw [(backpropAux_get _ _ _ _ _ j).2.2.2]
      exact this.1
    · rw [(backpropAux_get _ _ _ _ _ j).1]
      exact this.2

lemma expandNode_rootOK (b : Board) (t : MCTree) (idx : Nat) (rand : Nat → Nat) (k : Nat)
    (h : RootOK b t) : RootOK b (expandNode t idx b rand k).1 := by
  obtain ⟨h1, h2, h3⟩ := h
  rw [expandNode]
  dsimp only
  by_cases h0 : (expandCandidates (reconstructBoard t idx b)).length = 0
  · rw [if_pos h0]
    exact ⟨h1, h2, h3⟩
  · rw [if_neg h0]
    dsimp only
    by_cases hidx : idx = 0
    · subst hidx
      have hrec : reconstructBoard t 0 b = b := reconstructBoard_root t b h2
      rw [hrec] at h0 ⊢
      refine ⟨?_, ?_, ?_⟩
      · simp only [List.length_append, List.length_set]
        omega
      · rw [treeGet_append_left _ _ 0 (by rw [List.length_set]; exact h1),
          treeGet_set_eq _ _ _ h1]
        exact h2
      · intro j hj
        rw [treeGet_append_left _ _ 0 (by rw [List.length_set]; exact h1),
          treeGet_set_eq _ _ _ h1] at hj
        simp only [List.mem_map, List.mem_range] at hj
        obtain ⟨m, hm, rfl⟩ := hj
        constructor
        · simp only [List.length_append, List.length_set, List.length_map]
          omega
        · rw [treeGet_append_right _ _ _ (by rw [List.length_set]; omega),
            List.length_set]
          have hsub : t.length + m - t.length = m := by omega
          rw [hsub, treeGet_map_mk _ _ _ hm]
          exact expandCandidates_mem b _ (List.getElem_mem hm)
    · refine ⟨?_, ?_, ?_⟩
      · simp only [List.length_append, List.length_set]
        omega
      · rw [treeGet_append_left _ _ 0 (by rw [List.length_set]; exact h1),
          treeGet_set_ne _ _ _ _ hidx]
        exact h2
      · intro j hj
        rw [treeGet_append_left _ _ 0 (by rw [List.length_set]; exact h1),
          treeGet_set_ne _ _ _ _ hidx] at hj
        obtain ⟨hjl, hjv⟩ := h3 j hj
        constructor
        · simp only [List.length_append, List.length_set]
          omega
        · rw [treeGet_append_left _ _ j (by rw [List.length_set]; exact hjl)]
          by_cases hij : idx = j
          · subst hij
            by_cases hlt : idx < t.length
            · rw [treeGet_set_eq _ _ _ hlt]
              exact hjv
            · rw [List.set_eq_of_length_le (by omega)]
              exact hjv
          · rw [treeGet_set_ne _ _ _ _ hij]
            exact hjv

lemma runMCTSAux_rootOK (b : Board) (selectO : MCTree → Nat → Nat) (timeOK : Nat → Bool)
    (rand : Nat → Nat) :
    ∀ (fuel i k : Nat) (t : MCTree), RootOK b t →
      RootOK b (runMCTSAux b selectO timeOK rand fuel i k t).1 := by
  intro fuel
  induction fuel with
  | zero => intro i k t h; exact h
  | succ n ih =>
    intro i k t h
    rw [runMCTSAux]
    split
    · exact ih _ _ _ (backpropagate_rootOK b _ _ _ (expandNode_rootOK b t (selectO t i) rand k h))
    · exact h

lemma selectBestChild_mem (t : MCTree) (i : Nat) (h : selectBestChild t = some i) :
    i ∈ (treeGet t 0).childrenIdx := by
  have key : ∀ (l : List Nat) (acc : Option Nat),
      l.foldl (fun best j =>
        match best with
        | none => some j
        | some j0 => if (treeGet t j).visits > (treeGet t j0).visits then some j else some j0)
        acc = some i →
      acc = some i ∨ i ∈ l := by
    intro l
    induction l with
    | nil => intro acc hacc; exact Or.inl hacc
    | cons x rest ih =>
      intro acc hacc
      rcases ih _ hacc with h' | h'
      · cases acc with
        | none =>
          simp only at h'
          rw [Option.some.injEq] at h'
          exact Or.inr (by rw [h']; exact List.mem_cons_self _ _)
        | some j0 =>
          simp only at h'
          split at h'
          · rw [Option.some.injEq] at h'
            exact Or.inr (by rw [h']; exact List.mem_cons_self _ _)
          · exact Or.inl h'
      · exact Or.inr (List.mem_cons_of_mem _ h')
  rcases key _ _ h with h' | h'
  · exact absurd h' (by simp)
  · exact h'

lemma searchWholeBoard_valid (b : Board) (cfg : AIConfig) (rand : Nat → Nat)
    (selectO : MCTree → Nat → Nat) (timeOK : Nat → Bool)
    (h : (searchWholeBoard b cfg rand selectO timeOK).1 ≠ ⟨-1, -1⟩) :
    isValidMove b (searchWholeBoard b cfg rand selectO timeOK).1 = true := by
  rw [searchWholeBoard] at h ⊢
  dsimp only at h ⊢
  by_cases h0 : (getLegalMoves b).length = 0
  · rw [if_pos h0] at h
    exact absurd rfl h
  · rw [if_neg h0] at h ⊢
    have hok : RootOK b (runMCTS b cfg selectO timeOK rand [createRootNode b]).1 := by
      rw [runMCTS]
      exact runMCTSAux_rootOK b selectO timeOK rand _ _ _ _ (rootOK_init b)
    cases hsel : selectBestChild (runMCTS b cfg selectO timeOK rand [createRootNode b]).1 with
    | some i =>
      exact (hok.2.2 i (selectBestChild_mem _ i hsel)).2
    | none =>
      exact getLegalMoves_mem b _ (getD_mem _ _ _ (Nat.mod_lt _ (Nat.pos_of_ne_zero h0)))

lemma searchNearLastMove_valid (b : Board) (cfg : AIConfig) (rand : Nat → Nat)
    (selectO : MCTree → Nat → Nat) (timeOK : Nat → Bool)
    (h : (searchNearLastMove b cfg rand selectO timeOK).1 ≠ ⟨-1, -1⟩) :
    isValidMove b (searchNearLastMove b cfg rand selectO timeOK).1 = true := by
  rw [searchNearLastMove] at h ⊢
  have hok : RootOK b (runMCTS b cfg selectO timeOK rand [createRootNode b]).1 := by
    rw [runMCTS]
    exact runMCTSAux_rootOK b selectO timeOK rand _ _ _ _ (rootOK_init b)
  cases hsel : selectBestChild (runMCTS b cfg selectO timeOK rand [createRootNode b]).1 with
  | some i =>
    exact (hok.2.2 i (selectBestChild_mem _ i hsel)).2
  | none =>
    rw [hsel] at h
    dsimp only at h
    by_cases hbl : 0 < (getValidMovesInRange b b.lastMove.x b.lastMove.y 1).length
    · dsimp only
      rw [if_pos hbl]
      exact getValidMovesInRange_mem b _ _ 1 _ (getD_mem _ _ _ (Nat.mod_lt _ hbl))
    · rw [if_neg hbl] at h
      exact absurd rfl h

lemma emptyBoard_valid (b : Board) (hg : b.grid = emptyGrid) (hk : b.koActive = false)
    (hp : b.currentPlayer = BLACK ∨ b.currentPlayer = WHITE) :
    ∀ p ∈ openingStarPoints, isValidMove b p = true := by
  intro p hpmem
  have h1 : isValidPosition p = true := by
    fin_cases hpmem <;> decide
  have h2 : getCell b.grid p = EMPTY := by
    rw [hg]
    rfl
  have hko : isKoMove b p = false := by
    rw [isKoMove, hk]
    simp
  have hsui : isSuicideMove b p = false := by
    rw [isSuicideMove, hg]
    rcases hp with hc | hc <;> rw [hc] <;> fin_cases hpmem <;> decide
  rw [isValidMove, h1, h2, hko, hsui]
  simp

/-- C8: on every reachable board whose `lastMove` is the "none" sentinel (no
move has ever been played), `findBestMove` runs zero search iterations, returns
one of the 9 designated opening points (centre plus the 8 star points), that
point is legal on the board, and every one of the 9 opening points is
attainable under some value of the random stream (the uniform random choice
ranges over exactly the legal opening points, which on such a board are all
9). -/
theorem findBestMove_opening (b : Board) (cfg : AIConfig) (rand : Nat → Nat)
    (selectO : MCTree → Nat → Nat) (timeOK : Nat → Bool)
    (hb : Reaches b) (hs : b.lastMove.x < 0 ∨ b.lastMove.y < 0) :
    (findBestMove b cfg rand selectO timeOK).2 = 0 ∧
    (findBestMove b cfg rand selectO timeOK).1 ∈ openingStarPoints ∧
    isValidMove b (findBestMove b cfg rand selectO timeOK).1 = true ∧
    ∀ p ∈ openingStarPoints, ∃ r : Nat → Nat,
      (findBestMove b cfg r selectO timeOK).1 = p := by
  have hinv := reaches_inv b hb
  have hempty := (hinv.sentinelLive hs).1
  have hko := (hinv.sentinelLive hs).2
  have hval : ∀ p ∈ openingStarPoints, isValidMove b p = true :=
    emptyBoard_valid b hempty hko hinv.player
  have hfilter : openingStarPoints.filter (fun pos => isValidMove b pos) = openingStarPoints :=
    List.filter_eq_self.mpr hval
  have hrw : ∀ (r : Nat → Nat),
      findBestMove b cfg r selectO timeOK =
        (openingStarPoints.getD (r 0 % openingStarPoints.length) ⟨-1, -1⟩, 0) := by
    intro r
    rw [findBestMove, if_pos hs]
    dsimp only
    rw [hfilter, if_pos (by decide : 0 < openingStarPoints.length)]
  rw [hrw]
  refine ⟨rfl, ?_, ?_, ?_⟩
  · exact getD_mem _ _ _ (Nat.mod_lt _ (by decide))
  · exact hval _ (getD_mem _ _ _ (Nat.mod_lt _ (by decide)))
  · intro p hp
    obtain ⟨i, hi, hip⟩ := List.getElem_of_mem hp
    refine ⟨fun _ => i, ?_⟩
    rw [hrw]
    have hmod : i % openingStarPoints.length = i := Nat.mod_eq_of_lt hi
    dsimp only
    rw [hmod, List.getD_eq_getElem _ _ hi, hip]

set_option maxRecDepth 8000 in
/-- C9 counterexample: on the board whose every cell holds a black stone there
is no legal move anywhere, so `findBestMove` falls through to the `(-1,-1)`
no-move sentinel, which `isValidMove` rejects — refuting the claim that the
returned position is always accepted by `isValidMove`. -/
theorem findBestMove_can_return_invalid :
    isValidMove allBlackBoard
      (findBestMove allBlackBoard initAIConfig (fun _ => 0) (fun _ _ => 0) (fun _ => true)).1
      = false := by
  decide

theorem findBestMove_opening_witness :
    (initBoard.lastMove.x < 0 ∨ initBoard.lastMove.y < 0) ∧
    (findBestMove initBoard initAIConfig (fun _ => 0) (fun _ _ => 0) (fun _ => true)).2 = 0 ∧
    (findBestMove initBoard initAIConfig (fun _ => 0) (fun _ _ => 0) (fun _ => true)).1
      ∈ openingStarPoints := by
  have hs : initBoard.lastMove.x < 0 ∨ initBoard.lastMove.y < 0 := by decide
  have h := findBestMove_opening initBoard initAIConfig (fun _ => 0) (fun _ _ => 0)
    (fun _ => true) Reaches.init hs
  exact ⟨hs, h.1, h.2.1⟩

/-- C9 (amended): for every board state, configuration and oracle streams,
whenever `findBestMove` returns a position other than the `(-1,-1)` no-move
sentinel, that position is accepted by `isValidMove` on the board it was
computed from. -/
theorem findBestMove_valid_amended (b : Board) (cfg : AIConfig) (rand : Nat → Nat)
    (selectO : MCTree → Nat → Nat) (timeOK : Nat → Bool)
    (h : (findBestMove b cfg rand selectO timeOK).1 ≠ ⟨-1, -1⟩) :
    isValidMove b (findBestMove b cfg rand selectO timeOK).1 = true := by
  rw [findBestMove] at h ⊢
  by_cases hs : b.lastMove.x < 0 ∨ b.lastMove.y < 0
  · rw [if_pos hs] at h ⊢
    dsimp only at h ⊢
    by_cases hv : 0 < (openingStarPoints.filter (fun pos => isValidMove b pos)).length
    · rw [if_pos hv]
      exact (List.mem_filter.mp (getD_mem _ _ _ (Nat.mod_lt _ hv))).2
    · rw [if_neg hv] at h ⊢
      exact searchWholeBoard_valid b cfg rand selectO timeOK h
  · rw [if_neg hs] at h ⊢
    exact searchNearLastMove_valid b cfg rand selectO timeOK h

theorem findBestMove_valid_amended_witness :
    (findBestMove initBoard initAIConfig (fun _ => 1) (fun _ _ => 0) (fun _ => true)).1
        ≠ ⟨-1, -1⟩ ∧
    isValidMove initBoard
      (findBestMove initBoard initAIConfig (fun _ => 1) (fun _ _ => 0) (fun _ => true)).1
      = true := by
  have hne : (findBestMove initBoard initAIConfig (fun _ => 1) (fun _ _ => 0)
      (fun _ => true)).1 ≠ ⟨-1, -1⟩ := by decide
  exact ⟨hne, findBestMove_valid_amended initBoard initAIConfig (fun _ => 1) (fun _ _ => 0)
    (fun _ => true) hne⟩

/-! ### Claims C4 and C10 -/

/-- C4: on every reachable board on which `undoMove` succeeds (with any game
history of at most 50 moves), an immediately following `redoMove` succeeds and
restores exactly the grid, both capture counters and both liberty counters
that held before the undo. -/
theorem undo_redo_roundtrip (b : Board) (hb : Reaches b)
    (_hlen : b.prevs.length ≤ 50) (h : (undoMove b).1 = true) :
    (redoMove (undoMove b).2).1 = true ∧
    (redoMove (undoMove b).2).2.grid = b.grid ∧
    (redoMove (undoMove b).2).2.blackCaptures = b.blackCaptures ∧
    (redoMove (undoMove b).2).2.whiteCaptures = b.whiteCaptures ∧
    (redoMove (undoMove b).2).2.blackLiberties = b.blackLiberties ∧
    (redoMove (undoMove b).2).2.whiteLiberties = b.whiteLiberties := by
  have hinv := reaches_inv b hb
  cases hp : b.prevs with
  | nil =>
    rw [show (undoMove b).1 = false by simp [undoMove, hp]] at h
    exact absurd h (by simp)
  | cons p ps =>
    have h2 : (undoMove b).2 =
        ({ grid := p.grid
           currentPlayer := opponentOf b.currentPlayer
           lastMove := p.lastMove
           koPosition := ⟨-1, -1⟩
           koActive := false
           blackCaptures := p.blackCaptures
           whiteCaptures := p.whiteCaptures
           blackLiberties := p.blackLiberties
           whiteLiberties := p.whiteLiberties
           prevs := ps
           cur := p
           nexts := b.cur :: b.nexts } : Board) := by
      simp only [undoMove]
      rw [hp]
    rw [h2, redoMove]
    refine ⟨rfl, ?_, ?_, ?_, ?_, ?_⟩
    · exact hinv.syncGrid
    · exact hinv.syncBC
    · exact hinv.syncWC
    · exact hinv.syncBL
    · exact hinv.syncWL

theorem undo_redo_roundtrip_witness :
    (placeStone initBoard ⟨3, 3⟩).2.prevs.length ≤ 50 ∧
    (undoMove (placeStone initBoard ⟨3, 3⟩).2).1 = true ∧
    (redoMove (undoMove (placeStone initBoard ⟨3, 3⟩).2).2).1 = true ∧
    (redoMove (undoMove (placeStone initBoard ⟨3, 3⟩).2).2).2.grid
      = (placeStone initBoard ⟨3, 3⟩).2.grid := by
  have hval : isValidMove initBoard ⟨3, 3⟩ = true := by decide
  have hb2 : (placeStone initBoard ⟨3, 3⟩).2 = placeStoneBody initBoard ⟨3, 3⟩ := by
    simp [placeStone, hval]
  have hprevs : (placeStone initBoard ⟨3, 3⟩).2.prevs = [initBoard.cur] := by
    rw [hb2, placeStoneBody_prevs]
    rfl
  have hlen : (placeStone initBoard ⟨3, 3⟩).2.prevs.length ≤ 50 := by
    rw [hprevs]
    simp
  have hgen : ∀ (bd : Board), bd.prevs = [initBoard.cur] → (undoMove bd).1 = true := by
    intro bd hbd
    simp [undoMove, hbd]
  have hu : (undoMove (placeStone initBoard ⟨3, 3⟩).2).1 = true := hgen _ hprevs
  have h := undo_redo_roundtrip (placeStone initBoard ⟨3, 3⟩).2
    (Reaches.place _ _ Reaches.init) hlen hu
  exact ⟨hlen, hu, h.1, h.2.1⟩

/-- C10 counterexample: `undoMove` is a rule-engine operation that decreases a
capture counter — undoing past a capture restores the smaller earlier value,
refuting the claim that no operation among `placeStone`, `undoMove`,
`redoMove` ever decreases either counter. -/
theorem undoMove_decreases_captures :
    (undoMove cexC10).1 = true ∧
    (undoMove cexC10).2.blackCaptures < cexC10.blackCaptures := by
  decide

/-- C10 (amended): the capture counters never decrease in the forward
direction of play — `placeStone` never decreases either counter on any board,
and `redoMove` never decreases either counter on any reachable board; only
`undoMove` (restoring an earlier state) can lower them. -/
theorem captures_monotone_amended :
    (∀ (b : Board) (pos : Position),
      b.blackCaptures ≤ (placeStone b pos).2.blackCaptures ∧
      b.whiteCaptures ≤ (placeStone b pos).2.whiteCaptures) ∧
    (∀ b : Board, Reaches b →
      b.blackCaptures ≤ (redoMove b).2.blackCaptures ∧
      b.whiteCaptures ≤ (redoMove b).2.whiteCaptures) := by
  constructor
  · intro b pos
    by_cases hv : isValidMove b pos
    · have h2 : (placeStone b pos).2 = placeStoneBody b pos := by simp [placeStone, hv]
      rw [h2, placeStoneBody_blackCaptures, placeStoneBody_whiteCaptures]
      exact ⟨capResult_blackCaptures_ge b pos, capResult_whiteCaptures_ge b pos⟩
    · have h2 : (placeStone b pos).2 = b := by simp [placeStone, hv]
      rw [h2]
      exact ⟨le_refl _, le_refl _⟩
  · intro b hb
    have hinv := reaches_inv b hb
    cases hn : b.nexts with
    | nil =>
      have h2 : (redoMove b).2 = b := by simp [redoMove, hn]
      rw [h2]
      exact ⟨le_refl _, le_refl _⟩
    | cons n ns =>
      have h2 : (redoMove b).2 =
          ({ grid := n.grid
             currentPlayer := opponentOf b.currentPlayer
             lastMove := n.lastMove
             koPosition := ⟨-1, -1⟩
             koActive := false
             blackCaptures := n.blackCaptures
             whiteCaptures := n.whiteCaptures
             blackLiberties := n.blackLiberties
             whiteLiberties := n.whiteLiberties
             prevs := b.cur :: b.prevs
             cur := n
             nexts := ns } : Board) := by
        simp only [redoMove]
        rw [hn]
      rw [h2]
      have hchain := hinv.chainMono
      rw [histChain] at hchain
      have hpair := (List.pairwise_append.mp hchain).2.1
      rw [hn] at hpair
      have hle : SnapLE b.cur n := (List.pairwise_cons.mp hpair).1 n (List.mem_cons_self _ _)
      constructor
      · exact le_trans (le_of_eq hinv.syncBC.symm) hle.1
      · exact le_trans (le_of_eq hinv.syncWC.symm) hle.2

theorem captures_monotone_amended_witness :
    initBoard.blackCaptures ≤ (placeStone initBoard ⟨0, 0⟩).2.blackCaptures ∧
    initBoard.blackCaptures ≤ (redoMove initBoard).2.blackCaptures :=
  ⟨(captures_monotone_amended.1 initBoard ⟨0, 0⟩).1,
   (captures_monotone_amended.2 initBoard Reaches.init).1⟩

theorem placeStone_after_undo_discards_redo_witness :
    (undoMove undoDemoBoard).1 = true ∧
    (placeStone (undoMove undoDemoBoard).2 ⟨3, 3⟩).1 = true ∧
    ((placeStone (undoMove undoDemoBoard).2 ⟨3, 3⟩).2).nexts = [] := by
  have h1 : (undoMove undoDemoBoard).1 = true := by decide
  have h2 : (placeStone (undoMove undoDemoBoard).2 ⟨3, 3⟩).1 = true := by decide
  exact ⟨h1, h2, (placeStone_after_undo_discards_redo undoDemoBoard ⟨3, 3⟩ h1 h2).1⟩

theorem placeStone_ko_rule_witness :
    isValidMove initBoard ⟨9, 9⟩ = true ∧
    (¬ ((capResult initBoard ⟨9, 9⟩).2 = 1 ∧
        koCondCheck (capResult initBoard ⟨9, 9⟩).1 ⟨9, 9⟩ = true) →
      (placeStone initBoard ⟨9, 9⟩).2.koActive = false) := by
  have h : isValidMove initBoard ⟨9, 9⟩ = true := by decide
  exact ⟨h, (placeStone_ko_rule initBoard ⟨9, 9⟩ h).2⟩

/-- C3: `isSuicideMove` tests the liberties of the tentatively placed stone
before any capture resolution (first conjunct, the general characterisation),
and on the reachable board built by Black ⟨2,0⟩, White ⟨1,0⟩, Black ⟨1,1⟩,
White ⟨0,1⟩ the Black move at ⟨0,0⟩ would capture the adjacent zero-liberty
White stone at ⟨1,0⟩ (and then have a liberty), yet `isSuicideMove` calls it
suicide and `isValidMove`/`placeStone` reject it. -/
theorem suicide_check_precedes_captures :
    (∀ (b : Board) (pos : Position), isValidPosition pos = true →
      getCell b.grid pos = EMPTY →
      isSuicideMove b pos =
        ! hasLibertyG (setCell b.grid pos b.currentPlayer) pos) ∧
    Reaches c3Board ∧
    c3Board.currentPlayer = BLACK ∧
    getCell c3Board.grid ⟨0, 0⟩ = EMPTY ∧
    getCell c3Board.grid ⟨1, 0⟩ = WHITE ∧
    ⟨1, 0⟩ ∈ neighborCells ⟨0, 0⟩ ∧
    calculateGroupLiberties (setCell c3Board.grid ⟨0, 0⟩ BLACK)
      (dfsMarkGroup (setCell c3Board.grid ⟨0, 0⟩ BLACK) WHITE dfsFuel ⟨1, 0⟩ (0, [])).2 = 0 ∧
    hasLibertyG (setCell (setCell c3Board.grid ⟨0, 0⟩ BLACK) ⟨1, 0⟩ EMPTY) ⟨0, 0⟩ = true ∧
    isSuicideMove c3Board ⟨0, 0⟩ = true ∧
    isValidMove c3Board ⟨0, 0⟩ = false ∧
    (placeStone c3Board ⟨0, 0⟩).1 = false := by
  refine ⟨?_, ?_, ?_, ?_, ?_, ?_, ?_, ?_, ?_, ?_, ?_⟩
  · intro b pos h1 h2
    rw [isSuicideMove, if_neg]
    rw [h1, h2]
    simp
  · have r1 : Reaches (finishMove c3AP1 3 0) := by
      rw [← c3mv1s]
      exact Reaches.place initBoard ⟨2, 0⟩ Reaches.init
    have r2 : Reaches (finishMove c3AP2 2 2) := by
      rw [← c3mv2s]
      exact Reaches.place _ ⟨1, 0⟩ r1
    have r3 : Reaches (finishMove c3AP3 5 1) := by
      rw [← c3mv3s]
      exact Reaches.place _ ⟨1, 1⟩ r2
    rw [show c3Board = finishMove c3AP4 4 3 from rfl, ← c3mv4s]
    exact Reaches.place _ ⟨0, 1⟩ r3
  · decide
  · decide
  · decide
  · decide
  · decide
  · decide
  · decide
  · decide
  · decide

theorem suicide_check_precedes_captures_witness :
    isValidPosition ⟨9, 9⟩ = true ∧
    getCell initBoard.grid ⟨9, 9⟩ = EMPTY ∧
    isSuicideMove initBoard ⟨9, 9⟩ =
      ! hasLibertyG (setCell initBoard.grid ⟨9, 9⟩ initBoard.currentPlayer) ⟨9, 9⟩ := by
  refine ⟨by decide, by decide, ?_⟩
  exact suicide_check_precedes_captures.1 initBoard ⟨9, 9⟩ (by decide) (by decide)

lemma getCell_empty (p : Position) : getCell emptyGrid p = EMPTY := rfl

lemma territoryBFS_empty_flags :
    ∀ (fuel : Nat) (q : List Position) (acc : Nat × Nat × Bool × Bool),
      (territoryBFS emptyGrid fuel q acc).2.2 = acc.2.2 := by
  intro fuel
  induction fuel with
  | zero => intro q acc; rfl
  | succ n ih =>
    intro q acc
    cases q with
    | nil => rfl
    | cons current rest =>
      rw [territoryBFS]
      have inner : ∀ (ns : List Position)
          (st : (Nat × Nat × Bool × Bool) × List Position),
          ((ns.foldl
            (fun (st : (Nat × Nat × Bool × Bool) × List Position) next =>
              if ¬ isValidPosition next then st
              else if getCell emptyGrid next = EMPTY ∧ ¬ maskGet st.1.1 next then
                ((maskSet st.1.1 next, st.1.2.1 + 1, st.1.2.2.1, st.1.2.2.2), st.2 ++ [next])
              else if getCell emptyGrid next = BLACK then
                ((st.1.1, st.1.2.1, true, st.1.2.2.2), st.2)
              else if getCell emptyGrid next = WHITE then
                ((st.1.1, st.1.2.1, st.1.2.2.1, true), st.2)
              else st)
            st).1).2.2 = st.1.2.2 := by
        intro ns
        induction ns with
        | nil => intro st; rfl
        | cons x xs ihn =>
          intro st
          rw [List.foldl_cons]
          rw [ihn]
          by_cases hv : isValidPosition x
          · rw [if_neg (by simp [hv])]
            by_cases hm : maskGet st.1.1 x
            · rw [if_neg (by simp [getCell_empty, hm])]
              rw [if_neg (by simp [getCell_empty])]
              rw [if_neg (by simp [getCell_empty])]
            · rw [if_pos ⟨getCell_empty x, hm⟩]
          · rw [if_pos (by simp [hv])]
      rw [ih, inner]

lemma territoryStep_empty_scores (acc : Nat × Nat × Nat) (cell : Position) :
    (territoryStep emptyGrid acc cell).2 = acc.2 := by
  rw [territoryStep]
  by_cases hc : getCell emptyGrid cell = EMPTY ∧ ¬ maskGet acc.1 cell
  · rw [if_pos hc]
    dsimp only
    have hf := territoryBFS_empty_flags dfsFuel [cell] (maskSet acc.1 cell, 1, false, false)
    have h1 : (territoryBFS emptyGrid dfsFuel [cell]
        (maskSet acc.1 cell, 1, false, false)).2.2.1 = false := by
      rw [hf]
    have h2 : (territoryBFS emptyGrid dfsFuel [cell]
        (maskSet acc.1 cell, 1, false, false)).2.2.2 = false := by
      rw [hf]
    rw [h1, h2]
    simp
  · rw [if_neg hc]

lemma territoryFold_empty_scores :
    ∀ (l : List Position) (acc : Nat × Nat × Nat),
      (l.foldl (territoryStep emptyGrid) acc).2 = acc.2 := by
  intro l
  induction l with
  | nil => intro acc; rfl
  | cons x xs ih =>
    intro acc
    rw [List.foldl_cons, ih, territoryStep_empty_scores]

lemma areaScores_init : areaScores initBoard = (0, 0) := by
  rw [areaScores]
  have hg : initBoard.grid = emptyGrid := rfl
  rw [hg]
  have hstones : allCells.foldl
      (fun (acc : Nat × Nat) cell =>
        if getCell emptyGrid cell = BLACK then (acc.1 + 1, acc.2)
        else if getCell emptyGrid cell = WHITE then (acc.1, acc.2 + 1)
        else acc)
      (0, 0) = (0, 0) := by
    refine foldl_fix _ _ _ ?_
    intro cell _
    simp [getCell_empty]
  rw [hstones]
  have hterr : (allCells.foldl (territoryStep emptyGrid) (0, (0, 0).1, (0, 0).2)).2
      = ((0, 0).1, (0, 0).2) := territoryFold_empty_scores _ _
  simp only [Prod.mk.injEq]
  exact ⟨by rw [hterr], by rw [hterr]⟩

/-- C6: `determineWinner` compares exactly `blackTotal` against `whiteTotal`,
where each side's total is its area score (stones plus the one-sided empty
regions credited by the territory pass) plus the opponent's capture counter,
and White alone receives the fixed 4-point komi; the strictly higher total
wins and equal totals give the draw result.  In particular on the
empty 19×19 board the totals are 0 and 4, so `determineWinner` returns WHITE. -/
theorem determineWinner_spec :
    (∀ b : Board,
      determineWinner b =
        if blackTotal b > whiteTotal b then BLACK
        else if whiteTotal b > blackTotal b then WHITE
        else EMPTY) ∧
    blackTotal initBoard = 0 ∧
    whiteTotal initBoard = 4 ∧
    determineWinner initBoard = WHITE := by
  have hdec : ∀ b : Board,
      determineWinner b =
        if blackTotal b > whiteTotal b then BLACK
        else if whiteTotal b > blackTotal b then WHITE
        else EMPTY := fun b => rfl
  have hb : blackTotal initBoard = 0 := by
    rw [blackTotal, areaScores_init]
    rfl
  have hw : whiteTotal initBoard = 4 := by
    rw [whiteTotal, areaScores_init]
    rfl
  refine ⟨hdec, hb, hw, ?_⟩
  rw [hdec initBoard, hb, hw]
  simp

lemma c7pathMoves : pathMoves c7Tree (c7Tree.length + 1) 5 = c7path := by
  decide

lemma c7multi : multiPassReplay initBoard c7path = finishMove c7B2m13 5 0 := by
  rw [multiPassReplay]
  rw [show c7path.length = 5 from rfl]
  rw [show List.range 5 = [0, 1, 2, 3, 4] from rfl]
  simp only [List.foldl_cons, List.foldl_nil]
  rw [show c7path.take (5 - 0) = ([⟨1, 0⟩, ⟨0, 0⟩, ⟨1, 1⟩, ⟨0, 1⟩, ⟨0, 2⟩] : List Position)
      from rfl,
    show c7path.take (5 - 1) = ([⟨1, 0⟩, ⟨0, 0⟩, ⟨1, 1⟩, ⟨0, 1⟩] : List Position) from rfl,
    show c7path.take (5 - 2) = ([⟨1, 0⟩, ⟨0, 0⟩, ⟨1, 1⟩] : List Position) from rfl,
    show c7path.take (5 - 3) = ([⟨1, 0⟩, ⟨0, 0⟩] : List Position) from rfl,
    show c7path.take (5 - 4) = ([⟨1, 0⟩] : List Position) from rfl]
  rw [c7app2, c7app3, c7app4, c7app5, c7app6]

lemma c7single : applyMoves initBoard c7path = finishMove c7B2m9 8 0 := by
  rw [show c7path = ([⟨1, 0⟩, ⟨0, 0⟩, ⟨1, 1⟩, ⟨0, 1⟩, ⟨0, 2⟩] : List Position) from rfl]
  exact c7app2

/-- C7 counterexample: on the 6-node chain arena holding the path
⟨1,0⟩,⟨0,0⟩,⟨1,1⟩,⟨0,1⟩,⟨0,2⟩, the board `expandNode`/`simulateGame` compute
for the leaf (the multi-pass parent-walk replay, which replays the full path
and then every shorter prefix onto the same board) differs from replaying the
path exactly once: the multi-pass board has 3 black captures where the
single replay has 2 — refuting the claimed equivalence with the single-replay
reference definition. -/
theorem reconstruction_not_single_replay :
    pathMoves c7Tree (c7Tree.length + 1) 5 = c7path ∧
    reconstructBoard c7Tree 5 initBoard = multiPassReplay initBoard c7path ∧
    (reconstructBoard c7Tree 5 initBoard).blackCaptures = 3 ∧
    (applyMoves initBoard c7path).blackCaptures = 2 ∧
    reconstructBoard c7Tree 5 initBoard ≠ applyMoves initBoard c7path := by
  have hrec : reconstructBoard c7Tree 5 initBoard = multiPassReplay initBoard c7path := by
    rw [reconstructBoard, c7pathMoves]
  have hm : (reconstructBoard c7Tree 5 initBoard).blackCaptures = 3 := by
    rw [hrec, c7multi]
    decide
  have hs : (applyMoves initBoard c7path).blackCaptures = 2 := by
    rw [c7single]
    decide
  refine ⟨c7pathMoves, hrec, hm, hs, ?_⟩
  intro heq
  rw [heq] at hm
  rw [hm] at hs
  exact absurd hs (by decide)

lemma isValidMove_empty_cell (b : Board) (m : Position) (h : isValidMove b m = true) :
    getCell b.grid m = EMPTY := by
  by_cases h2 : getCell b.grid m = EMPTY
  · exact h2
  · by_cases hvp : isValidPosition m
    · rw [isValidMove, if_neg (by simp [hvp]), if_pos h2] at h
      exact absurd h (by simp)
    · rw [isValidMove, if_pos (by simp [hvp])] at h
      exact absurd h (by simp)

lemma placeStone_occupied (b : Board) (m : Position) (h : getCell b.grid m ≠ EMPTY) :
    placeStone b m = (false, b) := by
  rw [placeStone, if_neg]
  intro hv
  exact h (isValidMove_empty_cell b m hv)

lemma applyMoves_occupied (b : Board) (l : List Position)
    (h : ∀ m ∈ l, getCell b.grid m ≠ EMPTY) : applyMoves b l = b := by
  induction l with
  | nil => rfl
  | cons x xs ih =>
    rw [applyMoves, List.foldl_cons]
    rw [show (placeStone b x).2 = b from by
      rw [placeStone_occupied b x (h x (List.mem_cons_self _ _))]]
    exact ih (fun m hm => h m (List.mem_cons_of_mem _ hm))

lemma foldl_fix_nat {α : Type} (f : α → Nat → α) (acc : α) :
    ∀ (l : List Nat), (∀ k ∈ l, f acc k = acc) → l.foldl f acc = acc := by
  intro l
  induction l with
  | nil => intro _; rfl
  | cons x xs ih =>
    intro h
    rw [List.foldl_cons, h x (List.mem_cons_self x xs)]
    exact ih (fun k hk => h k (List.mem_cons_of_mem x hk))

/-- C7 (amended): the multi-pass reconstruction loop of
`expandNode`/`simulateGame` agrees with the single-replay reference exactly
when the later passes are no-ops — whenever every cell of the path is still
occupied after the single replay (in particular whenever no replayed path
stone was captured), the reconstructed board equals the single replay. -/
theorem multiPassReplay_eq_single_on_occupied (b : Board) (path : List Position)
    (hocc : ∀ m ∈ path, getCell (applyMoves b path).grid m ≠ EMPTY) :
    multiPassReplay b path = applyMoves b path := by
  rw [multiPassReplay]
  cases hp : path with
  | nil => rfl
  | cons p ps =>
    rw [← hp]
    rw [show path.length = ps.length + 1 from by rw [hp]; rfl]
    rw [List.range_succ_eq_map, List.foldl_cons]
    rw [show path.take (ps.length + 1 - 0) = path from by
      rw [Nat.sub_zero, ← show path.length = ps.length + 1 from by rw [hp]; rfl]
      exact List.take_length path]
    rw [List.foldl_map]
    refine foldl_fix_nat _ _ _ ?_
    intro k _
    exact applyMoves_occupied _ _
      (fun m hm => hocc m (List.take_subset _ _ hm))

theorem multiPassReplay_eq_single_on_occupied_witness :
    (∀ m ∈ ([⟨3, 3⟩, ⟨10, 10⟩] : List Position),
      getCell (applyMoves initBoard [⟨3, 3⟩, ⟨10, 10⟩]).grid m ≠ EMPTY) ∧
    multiPassReplay initBoard [⟨3, 3⟩, ⟨10, 10⟩] = applyMoves initBoard [⟨3, 3⟩, ⟨10, 10⟩] := by
  have hocc : ∀ m ∈ ([⟨3, 3⟩, ⟨10, 10⟩] : List Position),
      getCell (applyMoves initBoard [⟨3, 3⟩, ⟨10, 10⟩]).grid m ≠ EMPTY := by
    rw [c7wapp7]
    intro m hm
    fin_cases hm <;> decide
  exact ⟨hocc, multiPassReplay_eq_single_on_occupied initBoard _ hocc⟩
